import Mathlib

/-!
Verification development for the OpenZWave driver engine (cpp/src/Driver.cpp).

The definitions below are a shallow embedding of the driver code: bytes are
`Nat` (all inputs of interest are < 256 and the only arithmetic is xor, masks
and `+ 1` on counters), the C `Node* m_nodes[256]` array is a
`Nat → Option CNode` map, the five `m_msgQueue` lists are a function from the
`MsgQueue` enumeration to lists, and the serial port is modelled by logging
every written frame into a `writes` list.  External collaborators whose
sources are not part of the core (Msg.cpp, Node.cpp, WakeUp.cpp) are modelled
from the specification where the driver calls into them; each such definition
carries a comment saying so.
-/

namespace OZW

/-- Framing byte SOF = 0x01 (Driver.h / spec 4.1). -/
def SOF : Nat := 0x01

/-- Framing byte ACK = 0x06 (spec 4.1). -/
def ACK : Nat := 0x06

/-- Framing byte NAK = 0x15 (spec 4.1). -/
def NAK : Nat := 0x15

/-- Framing byte CAN = 0x18 (spec 4.1). -/
def CAN : Nat := 0x18

/-- Message type byte for host-to-chip / chip-to-host requests (Defs.h). -/
def REQUEST : Nat := 0x00

/-- Message type byte for immediate responses (Defs.h). -/
def RESPONSE : Nat := 0x01

/-- Retry bound: `#define MAX_TRIES 3` (Driver.cpp:68). -/
def MAX_TRIES : Nat := 3

/-- Size in bytes of the 232-bit node bitmap: `NUM_NODE_BITFIELD_BYTES` = 29. -/
def NUM_NODE_BITFIELD_BYTES : Nat := 29

/-- Snapshot schema version: `uint32 const c_configVersion = 3` (Driver.cpp:66). -/
def c_configVersion : Nat := 3

/-- Function id FUNC_ID_SERIAL_API_GET_INIT_DATA = 0x02. -/
def FUNC_ID_SERIAL_API_GET_INIT_DATA : Nat := 0x02

/-- Function id FUNC_ID_APPLICATION_COMMAND_HANDLER = 0x04. -/
def FUNC_ID_APPLICATION_COMMAND_HANDLER : Nat := 0x04

/-- Function id FUNC_ID_ZW_SEND_DATA = 0x13. -/
def FUNC_ID_ZW_SEND_DATA : Nat := 0x13

/-- Function id FUNC_ID_ZW_REPLICATION_SEND_DATA = 0x45. -/
def FUNC_ID_ZW_REPLICATION_SEND_DATA : Nat := 0x45

/-- Function id FUNC_ID_ZW_ASSIGN_RETURN_ROUTE = 0x46. -/
def FUNC_ID_ZW_ASSIGN_RETURN_ROUTE : Nat := 0x46

/-- Function id FUNC_ID_ZW_DELETE_RETURN_ROUTE = 0x47. -/
def FUNC_ID_ZW_DELETE_RETURN_ROUTE : Nat := 0x47

/-- Function id FUNC_ID_ZW_APPLICATION_UPDATE = 0x49. -/
def FUNC_ID_ZW_APPLICATION_UPDATE : Nat := 0x49

/-- Transmit-status bit TRANSMIT_COMPLETE_NO_ACK (Defs.h is not in the source
subset; value 0x01 per the Z-Wave serial API, used as a bitmask exactly as the
driver does at Driver.cpp:2229). -/
def TRANSMIT_COMPLETE_NO_ACK : Nat := 0x01

/-- Transmit-status bit TRANSMIT_COMPLETE_FAIL (network busy), value 0x02. -/
def TRANSMIT_COMPLETE_FAIL : Nat := 0x02

/-- Transmit-status bit TRANSMIT_COMPLETE_NOROUTE, value 0x04. -/
def TRANSMIT_COMPLETE_NOROUTE : Nat := 0x04

/-- Application-update status UPDATE_STATE_DELETE_DONE (Defs.h absent; 0x20). -/
def UPDATE_STATE_DELETE_DONE : Nat := 0x20

/-- Application-update status UPDATE_STATE_NEW_ID_ASSIGNED (0x40). -/
def UPDATE_STATE_NEW_ID_ASSIGNED : Nat := 0x40

/-- Application-update status UPDATE_STATE_NODE_INFO_REQ_FAILED (0x81). -/
def UPDATE_STATE_NODE_INFO_REQ_FAILED : Nat := 0x81

/-- Query stages of a node's interrogation state machine, in order
(Node.h is not in the source subset; the stage list follows spec 4.4). -/
inductive QueryStage where
  | protocolInfo
  | nodeInfo
  | manufacturerSpecific
  | versions
  | instances
  | staticValues
  | associations
  | neighbours
  | session
  | dynamic
  | configuration
  | complete
deriving DecidableEq, Repr

/-- Notification variants relevant to the claims (Notification.h). -/
inductive NotificationType where
  | nodeAdded
  | nodeNew
  | nodeRemoved
  | allNodesQueried
  | awakeNodesQueried
  | msgComplete
  | driverReady
  | driverReset
deriving DecidableEq, Repr

/-- A queued notification: its type together with the home and node ids passed
to `SetHomeAndNodeIds`. -/
structure Notification where
  ntype : NotificationType
  nHomeId : Nat
  nNodeId : Nat
deriving DecidableEq, Repr

/-- Identity of a polled value (ValueID.h): enough of the key fields to give
the decidable equality `*it == _valueId` used by the poll-list loops. -/
structure ValueID where
  vNodeId : Nat
  vCommandClassId : Nat
  vInstance : Nat
  vIndex : Nat
deriving DecidableEq, Repr

/-- A message to the Z-Wave controller (class Msg; Msg.cpp is not in the
source subset, so the fields are the accessors the driver uses:
GetTargetNodeId, GetCallbackId, GetExpectedReply, GetExpectedCommandClassId,
GetSendAttempts, GetBuffer, IsWakeUpNoMoreInformationCommand). -/
structure Msg where
  targetNodeId : Nat
  msgType : Nat
  function : Nat
  payload : List Nat
  callbackId : Nat
  expectedReply : Nat
  expectedCommandClassId : Nat
  sendAttempts : Nat
  buffer : List Nat
  isWakeUpNoMoreInformation : Bool
deriving DecidableEq, Repr

/-- XOR checksum accumulator: `checksum = 0xff; checksum ^= b` over bytes. -/
def xorChecksum (body : List Nat) : Nat :=
  body.foldl (fun a b => a ^^^ b) 0xff

/-- Modelled from the spec: `Msg::Finalize` computes the wire buffer
`SOF, length, type, function, payload..., checksum` where the checksum is the
xor of 0xff with everything from the length byte through the payload
(spec 4.1; Msg.cpp is not in the source subset). -/
def finalize (m : Msg) : Msg :=
  let body : List Nat := (m.payload.length + 3) :: m.msgType :: m.function :: m.payload
  { m with buffer := SOF :: body ++ [xorChecksum body] }

/-- One entry of a send queue (struct MsgQueueItem, Driver.h): either a
message to transmit or a query-stage-complete marker. -/
inductive MsgQueueItem where
  | sendMsg (msg : Msg)
  | queryStageComplete (nodeId : Nat) (stage : QueryStage)
deriving DecidableEq, Repr

/-- Modelled from the spec: the WakeUp command class state the driver reads
and writes (WakeUp.cpp is not in the source subset).  `IsAwake`/`SetAwake`
expose the cached awake flag; `QueueMsg` appends to the per-node sleeping
buffer of pending items (spec 3 "sleeping buffer", 4.3). -/
structure WakeUpCC where
  awake : Bool
  pending : List MsgQueueItem
deriving DecidableEq, Repr

/-- A node of the network (class Node; Node.cpp is not in the source subset,
so this carries the fields behind the accessors the driver calls:
IsListeningDevice, IsFrequentListeningDevice, IsController,
GetCurrentQueryStage, GetCommandClass(WakeUp), GetValue, m_writeCnt). -/
structure CNode where
  nodeId : Nat
  listening : Bool
  frequentListening : Bool
  isController : Bool
  queryStage : QueryStage
  wakeUp : Option WakeUpCC
  values : List ValueID
  nodeWriteCnt : Nat
deriving DecidableEq, Repr

/-- Modelled from the spec: `new Node( homeId, nodeId )` creates a fresh node
before anything is known about it; command classes (hence any WakeUp handler)
are only instantiated later during interrogation. -/
def newNode (nodeId : Nat) : CNode :=
  { nodeId := nodeId
    listening := true
    frequentListening := false
    isController := false
    queryStage := QueryStage.protocolInfo
    wakeUp := none
    values := []
    nodeWriteCnt := 0 }

/-- The five send queues, highest priority first (enum MsgQueue, Driver.h). -/
inductive MsgQueue where
  | command
  | wakeUp
  | send
  | query
  | poll
deriving DecidableEq, Repr

/-- The queues in the order of the `for( i=0; i<MsgQueue_Count; ++i )` walks. -/
def msgQueueList : List MsgQueue :=
  [MsgQueue.command, MsgQueue.wakeUp, MsgQueue.send, MsgQueue.query, MsgQueue.poll]

/-- Snapshot document root (`<Driver>` element of zwcfg_0x....xml): each
`QueryIntAttribute`/`Attribute` lookup is an `Option` of the parsed integer
(`none` = attribute missing or unparseable, i.e. not TIXML_SUCCESS). -/
structure XmlNodeElem where
  elemName : String
  idAttr : Option Int
deriving DecidableEq, Repr

/-- Attributes and children of the snapshot's root element. -/
structure XmlDriverDoc where
  version : Option Int
  homeIdAttr : Option Int
  nodeIdAttr : Option Int
  apiCapabilities : Option Int
  controllerCapabilities : Option Int
  pollIntervalAttr : Option Int
  nodeElements : List XmlNodeElem
deriving DecidableEq, Repr

/-- C cast `(uint8)` of a parsed `int` attribute. -/
def toUInt8c (i : Int) : Nat := (i % 256).toNat

/-- C cast `(uint32)` of a parsed integer. -/
def toUInt32c (i : Int) : Nat := (i % 4294967296).toNat

/-- The driver state: the `m_...` members of class Driver that the claims
touch.  The serial port is replaced by the `writes` log (every
`m_controller->Write` appends the frame written) and the notification bus by
the cumulative `notifications` emission log (`QueueNotification` appends;
draining to watchers does not undo an emission).  `configDoc` stands for the
content of the snapshot file on disk (`none` = `LoadFile` fails). -/
structure DriverState where
  currentMsg : Option Msg
  waitingForAck : Bool
  expectedCallbackId : Nat
  expectedReply : Nat
  expectedCommandClassId : Nat
  expectedNodeId : Nat
  nodes : Nat → Option CNode
  queues : MsgQueue → List MsgQueueItem
  queueEvents : MsgQueue → Bool
  virtualNeighbors : List Nat
  driverInit : Bool
  awakeNodesQueried : Bool
  allNodesQueried : Bool
  notifytransactions : Bool
  homeId : Nat
  controllerNodeId : Nat
  pollList : List ValueID
  pollIntervalVal : Nat
  initVersion : Nat
  initCaps : Nat
  controllerCaps : Nat
  configDoc : Option XmlDriverDoc
  writes : List (List Nat)
  notifications : List Notification
  sofCnt : Nat
  ackWaitingCnt : Nat
  readAborts : Nat
  badChecksum : Nat
  readCnt : Nat
  writeCnt : Nat
  canCnt : Nat
  nakCnt : Nat
  ackCnt : Nat
  oofCnt : Nat
  dropped : Nat
  retries : Nat
  controllerReadCnt : Nat
  controllerWriteCnt : Nat

/-- Pointwise update of the node table (`m_nodes[i] = v`). -/
def updNodes (f : Nat → Option CNode) (i : Nat) (v : Option CNode) : Nat → Option CNode :=
  fun j => if j = i then v else f j

/-- Pointwise update of one send queue. -/
def updQueues (f : MsgQueue → List MsgQueueItem) (q : MsgQueue) (v : List MsgQueueItem) :
    MsgQueue → List MsgQueueItem :=
  fun q2 => if q2 = q then v else f q2

/-- Pointwise update of one queue event flag (`Set`/`Reset`). -/
def updEvents (f : MsgQueue → Bool) (q : MsgQueue) (v : Bool) : MsgQueue → Bool :=
  fun q2 => if q2 = q then v else f q2

/-- QueueNotification (Driver.cpp:4481): producers append to the list. -/
def QueueNotification (s : DriverState) (n : Notification) : DriverState :=
  { s with notifications := s.notifications ++ [n] }

/-- True when the main loop is in a transaction: the count=2 condition
`m_waitingForAck || m_expectedCallbackId || m_expectedReply`
(Driver.cpp:315). -/
def transactionLive (s : DriverState) : Bool :=
  s.waitingForAck || (s.expectedCallbackId != 0) || (s.expectedReply != 0)

/-- Driver::RemoveCurrentMsg (Driver.cpp:890): delete the current message and
clear the whole expectation state. -/
def RemoveCurrentMsg (s : DriverState) : DriverState :=
  { s with currentMsg := none
           expectedCallbackId := 0
           expectedCommandClassId := 0
           expectedNodeId := 0
           expectedReply := 0
           waitingForAck := false }

/-- Driver::WriteMsg (Driver.cpp:828): transmit the current message.  With no
current message it fails.  When `GetSendAttempts() >= MAX_TRIES` the message
is dropped and the expectation state cleared.  Otherwise the attempt counter
is bumped, the expectations are armed from the message, the buffer is written
and the write counters are updated. -/
def WriteMsg (s : DriverState) : Bool × DriverState :=
  match s.currentMsg with
  | none => (false, s)
  | some msg =>
    if MAX_TRIES ≤ msg.sendAttempts then
      (false, { s with currentMsg := none
                       expectedCallbackId := 0
                       expectedCommandClassId := 0
                       expectedNodeId := 0
                       expectedReply := 0
                       waitingForAck := false })
    else
      let msg2 := { msg with sendAttempts := msg.sendAttempts + 1 }
      let s2 := { s with currentMsg := some msg2
                         expectedCallbackId := msg2.callbackId
                         expectedCommandClassId := msg2.expectedCommandClassId
                         expectedNodeId := msg2.targetNodeId
                         expectedReply := msg2.expectedReply
                         waitingForAck := true
                         writes := s.writes ++ [msg2.buffer]
                         writeCnt := s.writeCnt + 1 }
      if msg2.targetNodeId = 0xff then
        (true, { s2 with controllerWriteCnt := s2.controllerWriteCnt + 1 })
      else
        match s2.nodes msg2.targetNodeId with
        | some node =>
          (true, { s2 with nodes := (updNodes s2.nodes msg2.targetNodeId
                     (some { node with nodeWriteCnt := node.nodeWriteCnt + 1 })) })
        | none => (true, s2)

/-- Whether SendMsg / SendQueryStageComplete divert the item into the node's
own buffer: `!node->IsListeningDevice()` and a WakeUp command class whose
`IsAwake()` is false (Driver.cpp:702-715, 748-760). -/
def sleepingRedirect (node : CNode) : Bool :=
  if node.listening then false
  else
    match node.wakeUp with
    | some w => !w.awake
    | none => false

/-- Append an item to the sleeping buffer of the node found at table slot
`nid` (`wakeUp->QueueMsg( item )`; the WakeUp handler queried belongs to the
node the driver just looked up at that slot). -/
def queueOnNode (s : DriverState) (nid : Nat) (node : CNode) (item : MsgQueueItem) :
    DriverState :=
  match node.wakeUp with
  | some w =>
    { s with nodes := (updNodes s.nodes nid
        (some { node with wakeUp := some { w with pending := w.pending ++ [item] } })) }
  | none => s

/-- Driver::SendMsg (Driver.cpp:733): finalise the message; if its target
exists, is non-listening and has a WakeUp command class that reports
not-awake, queue the item on the node itself; otherwise push it on the chosen
queue and set the queue's event. -/
def SendMsg (s : DriverState) (m0 : Msg) (q : MsgQueue) : DriverState :=
  let m := finalize m0
  let item := MsgQueueItem.sendMsg m
  match s.nodes m.targetNodeId with
  | some node =>
    if sleepingRedirect node then
      queueOnNode s m.targetNodeId node item
    else
      { s with queues := updQueues s.queues q (s.queues q ++ [item])
               queueEvents := updEvents s.queueEvents q true }
  | none =>
    { s with queues := updQueues s.queues q (s.queues q ++ [item])
             queueEvents := updEvents s.queueEvents q true }

/-- Driver::SendQueryStageComplete (Driver.cpp:688): queue a marker item.
When the target node does not exist nothing is queued at all; a sleeping
target receives the item in its own buffer; otherwise the item goes on the
Query queue (the queue argument is ignored by the code). -/
def SendQueryStageComplete (s : DriverState) (nodeId : Nat) (stage : QueryStage) :
    DriverState :=
  let item := MsgQueueItem.queryStageComplete nodeId stage
  match s.nodes nodeId with
  | some node =>
    if sleepingRedirect node then
      queueOnNode s nodeId node item
    else
      { s with queues := updQueues s.queues MsgQueue.query (s.queues MsgQueue.query ++ [item])
               queueEvents := updEvents s.queueEvents MsgQueue.query true }
  | none => s

/-- Successor in the query-stage pipeline (spec 4.4). -/
def nextStage : QueryStage → QueryStage
  | QueryStage.protocolInfo => QueryStage.nodeInfo
  | QueryStage.nodeInfo => QueryStage.manufacturerSpecific
  | QueryStage.manufacturerSpecific => QueryStage.versions
  | QueryStage.versions => QueryStage.instances
  | QueryStage.instances => QueryStage.staticValues
  | QueryStage.staticValues => QueryStage.associations
  | QueryStage.associations => QueryStage.neighbours
  | QueryStage.neighbours => QueryStage.session
  | QueryStage.session => QueryStage.dynamic
  | QueryStage.dynamic => QueryStage.configuration
  | QueryStage.configuration => QueryStage.complete
  | QueryStage.complete => QueryStage.complete

/-- Modelled from the spec: `node->QueryStageComplete( stage )` followed by
`node->AdvanceQueries()` (Node.cpp is not in the source subset) validates the
stage and moves the node to the next stage; the requests the new stage sends
go through `SendMsg`, which the transition system models as separate events,
so here only the node-internal stage field advances. -/
def advanceNodeQueries (s : DriverState) (nodeId : Nat) : DriverState :=
  match s.nodes nodeId with
  | some node =>
    { s with nodes := (updNodes s.nodes nodeId
        (some { node with queryStage := nextStage node.queryStage })) }
  | none => s

/-- Driver::WriteNextMsg (Driver.cpp:777): pop the front of the given queue.
A SendMsg item becomes the current message and is written; a
QueryStageComplete item clears the current message and advances the node's
queries.  The queue's event is reset when the pop empties it. -/
def WriteNextMsg (s : DriverState) (q : MsgQueue) : Bool × DriverState :=
  match s.queues q with
  | [] => (false, s)
  | item :: rest =>
    let s2 := { s with queues := updQueues s.queues q rest
                       queueEvents := updEvents s.queueEvents q
                         (if rest.isEmpty then false else s.queueEvents q) }
    match item with
    | MsgQueueItem.sendMsg m =>
      WriteMsg { s2 with currentMsg := some m }
    | MsgQueueItem.queryStageComplete nodeId _ =>
      let s3 := { s2 with currentMsg := none }
      match s3.nodes nodeId with
      | some _ => (true, advanceNodeQueries s3 nodeId)
      | none => (false, s3)

/-- One pass of the queue walk in MoveMessagesToWakeUpQueue
(Driver.cpp:971-1015): returns the items kept on the queue and the items
moved to the sleeping buffer, in order.  A SendMsg item for the target is
moved unless it is a "Wake Up No More Information" command, which is deleted;
a QueryStageComplete item for the target is always moved. -/
def splitQueueForSleep (target : Nat) : List MsgQueueItem →
    List MsgQueueItem × List MsgQueueItem
  | [] => ([], [])
  | item :: rest =>
    match item with
    | MsgQueueItem.sendMsg m =>
      if m.targetNodeId = target then
        if m.isWakeUpNoMoreInformation then splitQueueForSleep target rest
        else ((splitQueueForSleep target rest).1,
          item :: (splitQueueForSleep target rest).2)
      else (item :: (splitQueueForSleep target rest).1,
        (splitQueueForSleep target rest).2)
    | MsgQueueItem.queryStageComplete nodeId _ =>
      if nodeId = target then
        ((splitQueueForSleep target rest).1, item :: (splitQueueForSleep target rest).2)
      else (item :: (splitQueueForSleep target rest).1,
        (splitQueueForSleep target rest).2)

/-- The contribution of the current message to the sleeping buffer
(Driver.cpp:933-959): it is moved when it targets the unresponsive node,
except a "Wake Up No More Information" command, which is deleted. -/
def moveFromCurrent (s : DriverState) (targetNodeId : Nat) : List MsgQueueItem :=
  match s.currentMsg with
  | some m =>
    if m.targetNodeId = targetNodeId && !m.isWakeUpNoMoreInformation then
      [MsgQueueItem.sendMsg m]
    else []
  | none => []

/-- Whether the current message was for the unresponsive node, in which case
the expectation state is cleared (Driver.cpp:961-966). -/
def moveClearCur (s : DriverState) (targetNodeId : Nat) : Bool :=
  match s.currentMsg with
  | some m => m.targetNodeId = targetNodeId
  | none => false

/-- The node's WakeUp state after the move: `SetAwake( false )` and the
buffer extended by the current message's contribution and by the items moved
off the five queues, in queue-index order. -/
def moveNewWakeUp (s : DriverState) (targetNodeId : Nat) (w0 : WakeUpCC) : WakeUpCC :=
  { awake := false
    pending := w0.pending ++ moveFromCurrent s targetNodeId ++
      msgQueueList.flatMap (fun q => (splitQueueForSleep targetNodeId (s.queues q)).2) }

/-- The table/queue part of the move: store the updated WakeUp state, keep
only the unmoved items on each queue and reset the event of every queue that
ends up empty (Driver.cpp:970-1022). -/
def moveQueuesApply (s : DriverState) (targetNodeId : Nat) (node : CNode)
    (w0 : WakeUpCC) : DriverState :=
  { s with nodes := (updNodes s.nodes targetNodeId
             (some { node with wakeUp := some (moveNewWakeUp s targetNodeId w0) }))
           queues := fun q => (splitQueueForSleep targetNodeId (s.queues q)).1
           queueEvents := fun q =>
             if ((splitQueueForSleep targetNodeId (s.queues q)).1).isEmpty then false
             else s.queueEvents q }

/-- Driver::MoveMessagesToWakeUpQueue (Driver.cpp:913): when the target is a
non-listening, non-frequent-listening, non-controller node with a WakeUp
command class, mark it asleep, move the current message (dropping a
"Wake Up No More Information" command) and every queued item for it into its
sleeping buffer, clear the expectation state when the current message was
for it, and reset the event of every queue that ends up empty.  Returns
whether the move happened. -/
def MoveMessagesToWakeUpQueue (s : DriverState) (targetNodeId : Nat) :
    Bool × DriverState :=
  match s.nodes targetNodeId with
  | none => (false, s)
  | some node =>
    if node.listening || node.frequentListening || node.isController then (false, s)
    else
      match node.wakeUp with
      | none => (false, s)
      | some w0 =>
        (true,
          if moveClearCur s targetNodeId then
            { moveQueuesApply s targetNodeId node w0 with
                currentMsg := none
                expectedCallbackId := 0
                expectedCommandClassId := 0
                expectedNodeId := 0
                expectedReply := 0
                waitingForAck := false }
          else moveQueuesApply s targetNodeId node w0)

/-- The `all` branch of CheckCompletedNodeQueries (Driver.cpp:1066-1075):
emit AllNodesQueried and latch both flags. -/
def checkAllDone (s : DriverState) : DriverState :=
  { QueueNotification s
      { ntype := NotificationType.allNodesQueried, nHomeId := s.homeId, nNodeId := 0xff }
    with awakeNodesQueried := true, allNodesQueried := true }

/-- The `sleepingOnly` branch of CheckCompletedNodeQueries
(Driver.cpp:1076-1087): emit AwakeNodesQueried and latch its flag. -/
def checkAwakeDone (s : DriverState) : DriverState :=
  { QueueNotification s
      { ntype := NotificationType.awakeNodesQueried, nHomeId := s.homeId, nNodeId := 0xff }
    with awakeNodesQueried := true }

/-- Driver::CheckCompletedNodeQueries (Driver.cpp:1040): scan the 256-entry
node table; if every node has reached QueryStage_Complete emit an
AllNodesQueried notification once and latch both flags; otherwise, if every
non-complete node is non-listening and AwakeNodesQueried has not been sent
yet, emit it once and latch its flag. -/
def CheckCompletedNodeQueries (s : DriverState) : DriverState :=
  if s.allNodesQueried then s
  else
    let all := (List.range 256).all (fun i =>
      match s.nodes i with
      | some node => node.queryStage = QueryStage.complete
      | none => true)
    let sleepingOnly := (List.range 256).all (fun i =>
      match s.nodes i with
      | some node => node.queryStage = QueryStage.complete || !node.listening
      | none => true)
    if all then checkAllDone s
    else if sleepingOnly then
      if !s.awakeNodesQueried then checkAwakeDone s
      else s
    else s

/-- Driver::IsVirtualNode (declared in Driver.h, which is not in the source
subset): tests bit `nodeId-1` of the m_virtualNeighbors bitmap, using the
same byte/bit layout the in-source walk at Driver.cpp:4640 uses
(`by<<3 + bi + 1` is the node id of byte `by`, bit `bi`). -/
def IsVirtualNode (s : DriverState) (nodeId : Nat) : Bool :=
  (s.virtualNeighbors.getD ((nodeId - 1) / 8) 0) &&& (1 <<< ((nodeId - 1) % 8)) != 0

/-- Driver::InitNode (Driver.cpp:3290): delete any existing node (emitting
NodeRemoved), create a fresh node, emit NodeAdded and start its interrogation
at QueryStage_ProtocolInfo. -/
def InitNode (s : DriverState) (nodeId : Nat) : DriverState :=
  let s2 :=
    match s.nodes nodeId with
    | some _ => QueueNotification s
        { ntype := NotificationType.nodeRemoved, nHomeId := s.homeId, nNodeId := nodeId }
    | none => s
  let s3 := { s2 with nodes := updNodes s2.nodes nodeId (some (newNode nodeId)) }
  let s4 := QueueNotification s3
    { ntype := NotificationType.nodeAdded, nHomeId := s.homeId, nNodeId := nodeId }
  -- m_nodes[_nodeId]->SetQueryStage( QueryStage_ProtocolInfo ); newNode already
  -- starts at protocolInfo, so the table is unchanged by the call.
  s4

/-- Load of one `<Node>` element (Driver.cpp:529-550): the id attribute is
cast to `uint8`, a fresh node is stored at that index, NodeAdded is emitted
and `node->ReadXML` (external, Node.cpp) fills in the persisted fields. -/
def readConfigNode (s : DriverState) (el : XmlNodeElem) : DriverState :=
  if el.elemName = "Node" then
    match el.idAttr with
    | some intVal =>
      let nodeId := toUInt8c intVal
      let s2 := { s with nodes := updNodes s.nodes nodeId (some (newNode nodeId)) }
      QueueNotification s2
        { ntype := NotificationType.nodeAdded, nHomeId := s.homeId, nNodeId := nodeId }
    | none => s
  else s

/-- Driver::ReadConfig (Driver.cpp:448): abort (returning false with the
state untouched) when the file is unreadable, the version attribute is
missing or differs from c_configVersion, the home_id attribute is missing or
its uint32 value differs from m_homeId, or the node_id attribute is missing
or its uint8 cast differs from m_nodeId.  Otherwise load the optional
capability attributes and every `<Node>` child. -/
def ReadConfig (s : DriverState) : Bool × DriverState :=
  match s.configDoc with
  | none => (false, s)
  | some doc =>
    match doc.version with
    | none => (false, s)
    | some v =>
      if toUInt32c v ≠ c_configVersion then (false, s)
      else
        match doc.homeIdAttr with
        | none => (false, s)
        | some h =>
          if toUInt32c h ≠ s.homeId then (false, s)
          else
            match doc.nodeIdAttr with
            | none => (false, s)
            | some nid =>
              if toUInt8c nid ≠ s.controllerNodeId then (false, s)
              else
                let s2 := match doc.apiCapabilities with
                  | some c => { s with initCaps := toUInt8c c }
                  | none => s
                let s3 := match doc.controllerCapabilities with
                  | some c => { s2 with controllerCaps := toUInt8c c }
                  | none => s2
                let s4 := match doc.pollIntervalAttr with
                  | some p => { s3 with pollIntervalVal := (p % 4294967296).toNat }
                  | none => s3
                (true, doc.nodeElements.foldl readConfigNode s4)

/-- Driver::EnablePoll (Driver.cpp:3023): fails when the node or the value
does not exist; returns true leaving the list unchanged when the ValueID is
already polled; otherwise appends it. -/
def EnablePoll (s : DriverState) (v : ValueID) : Bool × DriverState :=
  match s.nodes v.vNodeId with
  | none => (false, s)
  | some node =>
    if v ∈ node.values then
      if v ∈ s.pollList then (true, s)
      else (true, { s with pollList := s.pollList ++ [v] })
    else (false, s)

/-- One bit of the init-data reconciliation loop (Driver.cpp:1910-1965), for
the node id `(i*8)+j+1` of byte `i`, bit `j`: a set bit for a virtual node is
ignored; a set bit for a known node resets its stage to Associations
(`SetQueryStage( QueryStage_Associations )`, Node.cpp external) when this is
the first init-data response; a set bit for an unknown node emits NodeNew and
creates the node via InitNode; a clear bit for a known node deletes it and
emits NodeRemoved. -/
def initDataBitStep (data : List Nat) (i j : Nat) (s : DriverState) : DriverState :=
  let nodeId := i * 8 + j + 1
  if data.getD (i + 5) 0 &&& (1 <<< j) != 0 then
    if IsVirtualNode s nodeId then s
    else
      match s.nodes nodeId with
      | some node =>
        if !s.driverInit then
          { s with nodes := (updNodes s.nodes nodeId
              (some { node with queryStage := QueryStage.associations })) }
        else s
      | none =>
        let s2 := QueueNotification s
          { ntype := NotificationType.nodeNew, nHomeId := s.homeId, nNodeId := nodeId }
        InitNode s2 nodeId
  else
    match s.nodes nodeId with
    | some _ =>
      let s2 := { s with nodes := updNodes s.nodes nodeId none }
      QueueNotification s2
        { ntype := NotificationType.nodeRemoved, nHomeId := s.homeId, nNodeId := nodeId }
    | none => s

/-- First-response prologue of HandleSerialAPIGetInitDataResponse
(Driver.cpp:1894-1902): mark the driver ready (`Manager::SetDriverReady`,
which queues the DriverReady notification) and load the snapshot, ignoring
ReadConfig's return value as the code does. -/
def initDataFirstLoad (s : DriverState) : DriverState :=
  if !s.driverInit then
    (ReadConfig (QueueNotification s
      { ntype := NotificationType.driverReady, nHomeId := s.homeId
        nNodeId := s.controllerNodeId })).2
  else s

/-- The bitmap walk of HandleSerialAPIGetInitDataResponse
(Driver.cpp:1908-1966): when the length byte equals NUM_NODE_BITFIELD_BYTES,
process all 29*8 bits in order. -/
def initDataReconcile (data : List Nat) (s : DriverState) : DriverState :=
  if data.getD 4 0 = NUM_NODE_BITFIELD_BYTES then
    (List.range NUM_NODE_BITFIELD_BYTES).foldl
      (fun t i => (List.range 8).foldl (fun t2 j => initDataBitStep data i j t2) t) s
  else s

/-- Driver::HandleSerialAPIGetInitDataResponse (Driver.cpp:1887): on the
first response run the prologue, record the init version and capability
bytes, reconcile the bitmap, and finally latch m_init. -/
def HandleSerialAPIGetInitDataResponse (s : DriverState) (data : List Nat) :
    DriverState :=
  { initDataReconcile data
      { initDataFirstLoad s with initVersion := data.getD 2 0, initCaps := data.getD 3 0 }
    with driverInit := true }

/-- Driver::HandleSendDataRequest (Driver.cpp:2208): on a callback-id match,
a NOROUTE status drops the current message; a NO_ACK status first tries the
sleeping-node move for the current message's target, but only for plain
SEND_DATA (not replication) and only when a current message exists; a FAIL
status only logs; otherwise the callback expectation is cleared. -/
def HandleSendDataRequest (s : DriverState) (data : List Nat) (replication : Bool) :
    DriverState :=
  if data.getD 2 0 ≠ s.expectedCallbackId then s
  else if data.getD 3 0 &&& TRANSMIT_COMPLETE_NOROUTE != 0 then
    RemoveCurrentMsg s
  else if data.getD 3 0 &&& TRANSMIT_COMPLETE_NO_ACK != 0 then
    match s.currentMsg with
    | some m =>
      if !replication then (MoveMessagesToWakeUpQueue s m.targetNodeId).2 else s
    | none => s
  else if data.getD 3 0 &&& TRANSMIT_COMPLETE_FAIL != 0 then s
  else { s with expectedCallbackId := 0 }

/-- Driver::HandleApplicationUpdateRequest (Driver.cpp:2806...): returns the
`messageRemoved` flag.  DELETE_DONE removes the node and emits NodeRemoved;
NEW_ID_ASSIGNED re-creates it via InitNode; NODE_INFO_REQ_FAILED tries the
sleeping-node move for the current message's target and, when it succeeds,
the caller-side epilogue clears the expectation fields. -/
def handleAppUpdateCore (s : DriverState) (data : List Nat) : Bool × DriverState :=
  if data.getD 2 0 = UPDATE_STATE_DELETE_DONE then
    (false, QueueNotification { s with nodes := updNodes s.nodes (data.getD 3 0) none }
      { ntype := NotificationType.nodeRemoved, nHomeId := s.homeId
        nNodeId := data.getD 3 0 })
  else if data.getD 2 0 = UPDATE_STATE_NEW_ID_ASSIGNED then
    (false, InitNode s (data.getD 3 0))
  else if data.getD 2 0 = UPDATE_STATE_NODE_INFO_REQ_FAILED then
    match s.currentMsg with
    | some m =>
      match s.nodes m.targetNodeId with
      | some _ => MoveMessagesToWakeUpQueue s m.targetNodeId
      | none => (false, s)
    | none => (false, s)
  else (false, s)

/-- Epilogue of HandleApplicationUpdateRequest (Driver.cpp:2897-2906): when a
message was removed by the sleeping-node move, the expectation fields are
cleared and the caller skips the generic callback handling. -/
def HandleApplicationUpdateRequest (s : DriverState) (data : List Nat) :
    Bool × DriverState :=
  if (handleAppUpdateCore s data).1 then
    (true, { (handleAppUpdateCore s data).2 with
               waitingForAck := false
               expectedCallbackId := 0
               expectedReply := 0
               expectedCommandClassId := 0
               expectedNodeId := 0 })
  else handleAppUpdateCore s data

/-- The generic callback handling at the tail of Driver::ProcessMsg
(Driver.cpp:1643-1693): while a callback or a reply is expected, a matching
third byte clears the callback expectation; a matching function byte clears
the reply expectation (requiring in addition the command-class byte and the
source node byte to match when the expected reply is an application command);
when both have been cleared the transaction is complete, the current message
is freed and, when NotifyTransactions is set, MsgComplete is emitted.
The three blocks of the code are the three functions below, composed by
`processMsgGeneric` exactly in source order.  This is the
`if( m_expectedCallbackId )` block (Driver.cpp:1647-1654). -/
def genericClearCallback (s : DriverState) (data : List Nat) : DriverState :=
  if s.expectedCallbackId ≠ 0 ∧ s.expectedCallbackId = data.getD 2 0 then
    { s with expectedCallbackId := 0 }
  else s

/-- The `if( m_expectedReply )` block of the generic handling
(Driver.cpp:1655-1675). -/
def genericClearReply (s : DriverState) (data : List Nat) : DriverState :=
  if s.expectedReply ≠ 0 ∧ s.expectedReply = data.getD 1 0 then
    if s.expectedCommandClassId ≠ 0 ∧
        s.expectedReply = FUNC_ID_APPLICATION_COMMAND_HANDLER then
      if s.expectedCommandClassId = data.getD 5 0 ∧
          s.expectedNodeId = data.getD 3 0 then
        { s with expectedReply := 0, expectedCommandClassId := 0, expectedNodeId := 0 }
      else s
    else { s with expectedReply := 0 }
  else s

/-- The transaction-complete epilogue of the generic handling
(Driver.cpp:1677-1691). -/
def genericClose (s : DriverState) : DriverState :=
  if s.expectedCallbackId = 0 ∧ s.expectedReply = 0 then
    if s.notifytransactions then
      QueueNotification { s with currentMsg := none }
        { ntype := NotificationType.msgComplete, nHomeId := s.homeId, nNodeId := 0xff }
    else { s with currentMsg := none }
  else s

def processMsgGeneric (s : DriverState) (data : List Nat) : DriverState :=
  if s.expectedCallbackId ≠ 0 ∨ s.expectedReply ≠ 0 then
    genericClose (genericClearReply (genericClearCallback s data) data)
  else s

/-- Driver::ProcessMsg (Driver.cpp:1286): dispatch by direction and function
id, then run the generic callback handling unless the case disabled it.  The
cases whose handlers touch the state this embedding carries are translated;
the remaining handlers only log or mutate controller-command bookkeeping and
fall to the default, which runs the generic handling alone.  The
ASSIGN/DELETE_RETURN_ROUTE responses force the transaction to complete when
their handler reports failure (`_data[2]` zero, Driver.cpp:1345-1367). -/
def ProcessMsg (s : DriverState) (data : List Nat) : DriverState :=
  if data.getD 0 0 = RESPONSE then
    if data.getD 1 0 = FUNC_ID_SERIAL_API_GET_INIT_DATA then
      processMsgGeneric (HandleSerialAPIGetInitDataResponse s data) data
    else if data.getD 1 0 = FUNC_ID_ZW_SEND_DATA then s
    else if data.getD 1 0 = FUNC_ID_ZW_REPLICATION_SEND_DATA then s
    else if data.getD 1 0 = FUNC_ID_ZW_ASSIGN_RETURN_ROUTE ∨
        data.getD 1 0 = FUNC_ID_ZW_DELETE_RETURN_ROUTE then
      processMsgGeneric
        (if data.getD 2 0 = 0 then
          { s with expectedCallbackId := data.getD 2 0
                   expectedReply := 0
                   expectedCommandClassId := 0
                   expectedNodeId := 0 }
         else s) data
    else processMsgGeneric s data
  else if data.getD 0 0 = REQUEST then
    if data.getD 1 0 = FUNC_ID_ZW_SEND_DATA then
      processMsgGeneric (HandleSendDataRequest s data false) data
    else if data.getD 1 0 = FUNC_ID_ZW_REPLICATION_SEND_DATA then
      processMsgGeneric (HandleSendDataRequest s data true) data
    else if data.getD 1 0 = FUNC_ID_ZW_APPLICATION_UPDATE then
      if (HandleApplicationUpdateRequest s data).1 then
        (HandleApplicationUpdateRequest s data).2
      else processMsgGeneric (HandleApplicationUpdateRequest s data).2 data
    else processMsgGeneric s data
  else processMsgGeneric s data

/-- One inbound read of Driver::ReadMsg, classified by the first byte and,
for SOF, by whether the length byte and the body arrived in time.  For a full
frame `rest` lists the `buffer[1]` bytes read after the length byte (so the
length byte's value is `rest.length`). -/
inductive ReadEvent where
  | sofFrame (rest : List Nat)
  | sofLengthTimeout
  | sofBodyTimeout (lengthByte : Nat)
  | can
  | nak
  | ack
  | oof (b : Nat)
deriving DecidableEq, Repr

/-- Driver::ReadMsg (Driver.cpp:1135): SOF counts the frame (and a pending
ACK, when one was awaited), then either aborts on a timeout, or verifies the
XOR checksum over everything from the length byte to the second-to-last byte
against the trailing byte; a match writes one ACK and dispatches the payload
to ProcessMsg, a mismatch writes one NAK and counts a bad checksum.  CAN and
NAK trigger an immediate resend; ACK clears the wait and closes the
transaction when nothing further is expected; any other byte writes a NAK. -/
def ReadMsg (s : DriverState) (e : ReadEvent) : DriverState :=
  match e with
  | ReadEvent.sofFrame rest =>
    let s0 := { s with sofCnt := s.sofCnt + 1 }
    let s1 :=
      if s0.waitingForAck then { s0 with ackWaitingCnt := s0.ackWaitingCnt + 1 } else s0
    let cks := xorChecksum (rest.length :: rest.dropLast)
    if rest.getLast? = some cks then
      let s2 := { s1 with writes := s1.writes ++ [[ACK]], readCnt := s1.readCnt + 1 }
      ProcessMsg s2 rest
    else
      { s1 with badChecksum := s1.badChecksum + 1, writes := s1.writes ++ [[NAK]] }
  | ReadEvent.sofLengthTimeout =>
    let s0 := { s with sofCnt := s.sofCnt + 1 }
    let s1 :=
      if s0.waitingForAck then { s0 with ackWaitingCnt := s0.ackWaitingCnt + 1 } else s0
    { s1 with readAborts := s1.readAborts + 1 }
  | ReadEvent.sofBodyTimeout _ =>
    let s0 := { s with sofCnt := s.sofCnt + 1 }
    let s1 :=
      if s0.waitingForAck then { s0 with ackWaitingCnt := s0.ackWaitingCnt + 1 } else s0
    { s1 with readAborts := s1.readAborts + 1 }
  | ReadEvent.can =>
    (WriteMsg { s with canCnt := s.canCnt + 1 }).2
  | ReadEvent.nak =>
    (WriteMsg { s with nakCnt := s.nakCnt + 1 }).2
  | ReadEvent.ack =>
    let s1 := { s with ackCnt := s.ackCnt + 1, waitingForAck := false }
    if s1.expectedCallbackId = 0 ∧ s1.expectedReply = 0 then RemoveCurrentMsg s1 else s1
  | ReadEvent.oof _ =>
    { s with oofCnt := s.oofCnt + 1, writes := s.writes ++ [[NAK]] }

/-- External stage mutation: `Node::SetQueryStage` / stage bookkeeping done
by node code outside this file's source subset. -/
def setNodeStage (s : DriverState) (nodeId : Nat) (st : QueryStage) : DriverState :=
  match s.nodes nodeId with
  | some node =>
    { s with nodes := (updNodes s.nodes nodeId (some { node with queryStage := st })) }
  | none => s

/-- Modelled from the spec: wake delivery (spec 4.3; WakeUp.cpp is not in the
source subset).  When a node reports itself awake, all buffered items are
spliced onto the WakeUp queue in order and its signal is set. -/
def wakeNode (s : DriverState) (nodeId : Nat) : DriverState :=
  match s.nodes nodeId with
  | some node =>
    match node.wakeUp with
    | some w =>
      { s with nodes := (updNodes s.nodes nodeId
                 (some { node with wakeUp := some { w with awake := true, pending := [] } }))
               queues := (updQueues s.queues MsgQueue.wakeUp
                 (s.queues MsgQueue.wakeUp ++ w.pending))
               queueEvents := (updEvents s.queueEvents MsgQueue.wakeUp
                 (if w.pending.isEmpty then s.queueEvents MsgQueue.wakeUp else true)) }
    | none => s
  | none => s

/-- The events of the driver loop and its producers, each mapped to the
state transformer translated above.  A message enters the system through
SendMsg with a fresh attempt counter (`Msg` constructor); queue items are
dequeued only while no transaction is live (the count=7 wait of
DriverThreadProc); the retry timeout can only fire while one is
(Driver.cpp:307-360). -/
inductive Step : DriverState → DriverState → Prop where
  | sendMsg {s : DriverState} (m : Msg) (q : MsgQueue) (h : m.sendAttempts = 0) :
      Step s (SendMsg s m q)
  | sendQSC {s : DriverState} (nodeId : Nat) (stage : QueryStage) :
      Step s (SendQueryStageComplete s nodeId stage)
  | dequeue {s : DriverState} (q : MsgQueue) (h : transactionLive s = false) :
      Step s (WriteNextMsg s q).2
  | retryTimeout {s : DriverState} (h : transactionLive s = true) :
      Step s (WriteMsg s).2
  | read {s : DriverState} (e : ReadEvent) :
      Step s (ReadMsg s e)
  | checkQueries {s : DriverState} :
      Step s (CheckCompletedNodeQueries s)
  | setStage {s : DriverState} (nodeId : Nat) (st : QueryStage) :
      Step s (setNodeStage s nodeId st)
  | applyInitNode {s : DriverState} (nodeId : Nat) :
      Step s (InitNode s nodeId)
  | moveToWakeUp {s : DriverState} (nodeId : Nat) :
      Step s (MoveMessagesToWakeUpQueue s nodeId).2
  | wake {s : DriverState} (nodeId : Nat) :
      Step s (wakeNode s nodeId)

/-- Quiescent points of the driver loop: the states reachable from a given
state by the events above. -/
def Reachable : DriverState → DriverState → Prop :=
  Relation.ReflTransGen Step

/-- The state established by the Driver constructor (Driver.cpp:99-172):
no current message, no expectations, an empty node table, empty queues with
clear events, zeroed statistics. -/
def initialDriverState : DriverState :=
  { currentMsg := none
    waitingForAck := false
    expectedCallbackId := 0
    expectedReply := 0
    expectedCommandClassId := 0
    expectedNodeId := 0
    nodes := fun _ => none
    queues := fun _ => []
    queueEvents := fun _ => false
    virtualNeighbors := []
    driverInit := false
    awakeNodesQueried := false
    allNodesQueried := false
    notifytransactions := false
    homeId := 0
    controllerNodeId := 1
    pollList := []
    pollIntervalVal := 30
    initVersion := 0
    initCaps := 0
    controllerCaps := 0
    configDoc := none
    writes := []
    notifications := []
    sofCnt := 0
    ackWaitingCnt := 0
    readAborts := 0
    badChecksum := 0
    readCnt := 0
    writeCnt := 0
    canCnt := 0
    nakCnt := 0
    ackCnt := 0
    oofCnt := 0
    dropped := 0
    retries := 0
    controllerReadCnt := 0
    controllerWriteCnt := 0 }

/-! ### Invariant infrastructure -/

/-- The part of invariant P1 that the code maintains: while a callback or a
reply is still expected, a current message exists. -/
def InFlightOk (s : DriverState) : Prop :=
  s.expectedCallbackId ≠ 0 ∨ s.expectedReply ≠ 0 → s.currentMsg.isSome

theorem inFlightOk_of_isSome {s : DriverState} (h : s.currentMsg.isSome) :
    InFlightOk s := fun _ => h

theorem removeCurrentMsg_inFlight (s : DriverState) : InFlightOk (RemoveCurrentMsg s) := by
  intro h
  simp [RemoveCurrentMsg] at h

theorem writeMsg_inFlight {s : DriverState} (ih : InFlightOk s) :
    InFlightOk (WriteMsg s).2 := by
  unfold WriteMsg
  cases hm : s.currentMsg with
  | none => simpa using ih
  | some msg =>
    simp only
    split
    · intro h; simp at h
    · split
      · intro _; simp
      · split
        · intro _; simp
        · intro _; simp

theorem moveMessages_inFlight {s : DriverState} (nid : Nat) (ih : InFlightOk s) :
    InFlightOk (MoveMessagesToWakeUpQueue s nid).2 := by
  unfold MoveMessagesToWakeUpQueue
  cases hn : s.nodes nid with
  | none => simpa using ih
  | some node =>
    simp only
    split
    · simpa using ih
    · cases hw : node.wakeUp with
      | none => simpa using ih
      | some w0 =>
        simp only
        split
        · intro h; simp at h
        · intro h
          simp only [moveQueuesApply] at h ⊢
          exact ih h

theorem handleSendDataRequest_inFlight {s : DriverState} (data : List Nat)
    (rep : Bool) (ih : InFlightOk s) :
    InFlightOk (HandleSendDataRequest s data rep) := by
  unfold HandleSendDataRequest
  split
  · exact ih
  · split
    · exact removeCurrentMsg_inFlight s
    · split
      · cases hm : s.currentMsg with
        | none => simpa using ih
        | some m =>
          simp only
          split
          · exact moveMessages_inFlight m.targetNodeId ih
          · exact ih
      · split
        · exact ih
        · intro h
          simp only at h ⊢
          rcases h with h2 | h2
          · exact absurd rfl h2
          · exact ih (Or.inr h2)

theorem queueNotification_currentMsg (s : DriverState) (n : Notification) :
    (QueueNotification s n).currentMsg = s.currentMsg := rfl

theorem queueNotification_expectedCallbackId (s : DriverState) (n : Notification) :
    (QueueNotification s n).expectedCallbackId = s.expectedCallbackId := rfl

theorem queueNotification_expectedReply (s : DriverState) (n : Notification) :
    (QueueNotification s n).expectedReply = s.expectedReply := rfl

theorem genericClearCallback_effect (s : DriverState) (data : List Nat) :
    (genericClearCallback s data).currentMsg = s.currentMsg ∧
    (genericClearCallback s data).expectedReply = s.expectedReply ∧
    ((genericClearCallback s data).expectedCallbackId ≠ 0 →
      s.expectedCallbackId ≠ 0) := by
  unfold genericClearCallback
  split <;> simp

theorem genericClearReply_effect (s : DriverState) (data : List Nat) :
    (genericClearReply s data).currentMsg = s.currentMsg ∧
    (genericClearReply s data).expectedCallbackId = s.expectedCallbackId ∧
    ((genericClearReply s data).expectedReply ≠ 0 → s.expectedReply ≠ 0) := by
  unfold genericClearReply
  split
  · split
    · split <;> simp
    · simp
  · simp

theorem genericClose_inFlight {s : DriverState} (ih : InFlightOk s) :
    InFlightOk (genericClose s) := by
  unfold genericClose
  split
  · split
    · intro h
      simp only [queueNotification_expectedCallbackId, queueNotification_expectedReply] at h
      simp_all
    · intro h
      simp_all
  · exact ih

theorem processMsgGeneric_inFlight {s : DriverState} (data : List Nat)
    (ih : InFlightOk s) : InFlightOk (processMsgGeneric s data) := by
  unfold processMsgGeneric
  split
  · apply genericClose_inFlight
    intro h
    obtain ⟨e1, e2, e3⟩ :=
      genericClearReply_effect (genericClearCallback s data) data
    obtain ⟨d1, d2, d3⟩ := genericClearCallback_effect s data
    rw [e1, d1]
    rcases h with h | h
    · exact ih (Or.inl (d3 (e2 ▸ h)))
    · exact ih (Or.inr (d2 ▸ e3 h))
  · exact ih

/-- The three transaction fields of invariant P1 are untouched. -/
def txSame (s t : DriverState) : Prop :=
  t.currentMsg = s.currentMsg ∧ t.expectedCallbackId = s.expectedCallbackId ∧
    t.expectedReply = s.expectedReply

theorem txSame_refl (s : DriverState) : txSame s s := ⟨rfl, rfl, rfl⟩

theorem txSame_trans {s t u : DriverState} (h1 : txSame s t) (h2 : txSame t u) :
    txSame s u :=
  ⟨h2.1.trans h1.1, h2.2.1.trans h1.2.1, h2.2.2.trans h1.2.2⟩

theorem inFlightOk_of_txSame {s t : DriverState} (h : txSame s t)
    (ih : InFlightOk s) : InFlightOk t := by
  intro hf
  rw [h.1]
  exact ih (by rw [← h.2.1, ← h.2.2]; exact hf)

theorem txSame_queueNotification (s : DriverState) (n : Notification) :
    txSame s (QueueNotification s n) := ⟨rfl, rfl, rfl⟩

theorem txSame_foldl {α : Type} (f : DriverState → α → DriverState)
    (hf : ∀ s a, txSame s (f s a)) :
    ∀ (l : List α) (s : DriverState), txSame s (l.foldl f s) := by
  intro l
  induction l with
  | nil => intro s; exact txSame_refl s
  | cons a l ih =>
    intro s
    exact txSame_trans (hf s a) (ih (f s a))

theorem txSame_initNode (s : DriverState) (nodeId : Nat) :
    txSame s (InitNode s nodeId) := by
  unfold InitNode
  split <;> exact ⟨rfl, rfl, rfl⟩

theorem txSame_readConfigNode (s : DriverState) (el : XmlNodeElem) :
    txSame s (readConfigNode s el) := by
  unfold readConfigNode
  split
  · split <;> exact ⟨rfl, rfl, rfl⟩
  · exact txSame_refl s

theorem txSame_readConfig (s : DriverState) : txSame s (ReadConfig s).2 := by
  unfold ReadConfig
  cases s.configDoc with
  | none => exact txSame_refl s
  | some doc =>
    simp only
    cases doc.version with
    | none => exact txSame_refl s
    | some v =>
      simp only
      split
      · exact txSame_refl s
      · cases doc.homeIdAttr with
        | none => exact txSame_refl s
        | some h =>
          simp only
          split
          · exact txSame_refl s
          · cases doc.nodeIdAttr with
            | none => exact txSame_refl s
            | some nid =>
              simp only
              split
              · exact txSame_refl s
              · refine txSame_trans ?_
                  (txSame_foldl readConfigNode txSame_readConfigNode doc.nodeElements _)
                constructor
                · split <;> split <;> split <;> rfl
                constructor
                · split <;> split <;> split <;> rfl
                · split <;> split <;> split <;> rfl

theorem txSame_initDataBitStep (data : List Nat) (i j : Nat) (s : DriverState) :
    txSame s (initDataBitStep data i j s) := by
  unfold initDataBitStep
  dsimp only
  split
  · split
    · exact txSame_refl s
    · split
      · split
        · exact ⟨rfl, rfl, rfl⟩
        · exact txSame_refl s
      · exact txSame_trans (txSame_queueNotification s _) (txSame_initNode _ _)
  · split
    · exact ⟨rfl, rfl, rfl⟩
    · exact txSame_refl s

theorem txSame_initDataFirstLoad (s : DriverState) :
    txSame s (initDataFirstLoad s) := by
  unfold initDataFirstLoad
  split
  · exact txSame_trans (txSame_queueNotification s _) (txSame_readConfig _)
  · exact txSame_refl s

theorem txSame_initDataReconcile (data : List Nat) (s : DriverState) :
    txSame s (initDataReconcile data s) := by
  unfold initDataReconcile
  split
  · refine txSame_foldl _ ?_ _ s
    intro t i
    exact txSame_foldl _ (fun t2 j => txSame_initDataBitStep data i j t2) _ t
  · exact txSame_refl s

theorem txSame_handleInitData (s : DriverState) (data : List Nat) :
    txSame s (HandleSerialAPIGetInitDataResponse s data) := by
  unfold HandleSerialAPIGetInitDataResponse
  refine txSame_trans (txSame_initDataFirstLoad s) ?_
  have hrec : txSame (initDataFirstLoad s)
      { initDataFirstLoad s with
        initVersion := data.getD 2 0, initCaps := data.getD 3 0 } := ⟨rfl, rfl, rfl⟩
  refine txSame_trans hrec ?_
  exact txSame_trans (txSame_initDataReconcile data _) ⟨rfl, rfl, rfl⟩

theorem txSame_queueOnNode (s : DriverState) (nid : Nat) (node : CNode) (item : MsgQueueItem) :
    txSame s (queueOnNode s nid node item) := by
  unfold queueOnNode
  cases node.wakeUp <;> exact ⟨rfl, rfl, rfl⟩

theorem txSame_sendMsg (s : DriverState) (m : Msg) (q : MsgQueue) :
    txSame s (SendMsg s m q) := by
  unfold SendMsg
  dsimp only
  split
  · split
    · exact txSame_queueOnNode s _ _ _
    · exact ⟨rfl, rfl, rfl⟩
  · exact ⟨rfl, rfl, rfl⟩

theorem txSame_sendQSC (s : DriverState) (nodeId : Nat) (stage : QueryStage) :
    txSame s (SendQueryStageComplete s nodeId stage) := by
  unfold SendQueryStageComplete
  dsimp only
  split
  · split
    · exact txSame_queueOnNode s _ _ _
    · exact ⟨rfl, rfl, rfl⟩
  · exact txSame_refl s

theorem txSame_check (s : DriverState) : txSame s (CheckCompletedNodeQueries s) := by
  unfold CheckCompletedNodeQueries
  split
  · exact txSame_refl s
  · dsimp only
    split
    · exact ⟨rfl, rfl, rfl⟩
    · split
      · split
        · exact ⟨rfl, rfl, rfl⟩
        · exact txSame_refl s
      · exact txSame_refl s

theorem txSame_setNodeStage (s : DriverState) (nodeId : Nat) (st : QueryStage) :
    txSame s (setNodeStage s nodeId st) := by
  unfold setNodeStage
  split <;> exact ⟨rfl, rfl, rfl⟩

theorem txSame_wakeNode (s : DriverState) (nodeId : Nat) :
    txSame s (wakeNode s nodeId) := by
  unfold wakeNode
  split
  · split <;> exact ⟨rfl, rfl, rfl⟩
  · exact txSame_refl s

theorem txSame_advanceNodeQueries (s : DriverState) (nodeId : Nat) :
    txSame s (advanceNodeQueries s nodeId) := by
  unfold advanceNodeQueries
  split <;> exact ⟨rfl, rfl, rfl⟩

theorem handleAppUpdate_inFlight {s : DriverState} (data : List Nat)
    (ih : InFlightOk s) : InFlightOk (HandleApplicationUpdateRequest s data).2 := by
  unfold HandleApplicationUpdateRequest
  split
  · intro h; simp at h
  · unfold handleAppUpdateCore
    split
    · exact inFlightOk_of_txSame (txSame_queueNotification _ _) ih
    · split
      · exact inFlightOk_of_txSame (txSame_initNode s _) ih
      · split
        · cases hm : s.currentMsg with
          | none => simpa using ih
          | some m =>
            simp only
            cases hn : s.nodes m.targetNodeId with
            | none => simpa using ih
            | some node => exact moveMessages_inFlight m.targetNodeId ih
        · exact ih

theorem processMsg_inFlight {s : DriverState} (data : List Nat)
    (ih : InFlightOk s) : InFlightOk (ProcessMsg s data) := by
  unfold ProcessMsg
  split
  · split
    · exact processMsgGeneric_inFlight data
        (inFlightOk_of_txSame (txSame_handleInitData s data) ih)
    · split
      · exact ih
      · split
        · exact ih
        · split
          · apply processMsgGeneric_inFlight data
            split
            next hz =>
              intro hflag
              rcases hflag with hflag | hflag
              · exact absurd hz hflag
              · exact absurd rfl hflag
            next _ => exact ih
          · exact processMsgGeneric_inFlight data ih
  · split
    · split
      · exact processMsgGeneric_inFlight data (handleSendDataRequest_inFlight data false ih)
      · split
        · exact processMsgGeneric_inFlight data (handleSendDataRequest_inFlight data true ih)
        · split
          · split
            · exact handleAppUpdate_inFlight data ih
            · exact processMsgGeneric_inFlight data (handleAppUpdate_inFlight data ih)
          · exact processMsgGeneric_inFlight data ih
    · exact processMsgGeneric_inFlight data ih

theorem readMsg_inFlight {s : DriverState} (e : ReadEvent) (ih : InFlightOk s) :
    InFlightOk (ReadMsg s e) := by
  cases e with
  | sofFrame rest =>
    unfold ReadMsg
    dsimp only
    split
    · apply processMsg_inFlight
      split <;> exact ih
    · split <;> exact ih
  | sofLengthTimeout =>
    unfold ReadMsg
    dsimp only
    split <;> exact ih
  | sofBodyTimeout lengthByte =>
    unfold ReadMsg
    dsimp only
    split <;> exact ih
  | can => exact writeMsg_inFlight ih
  | nak => exact writeMsg_inFlight ih
  | ack =>
    unfold ReadMsg
    dsimp only
    split
    · exact removeCurrentMsg_inFlight _
    · exact ih
  | oof b => exact ih

theorem writeNextMsg_inFlight {s : DriverState} (q : MsgQueue)
    (h : transactionLive s = false) : InFlightOk (WriteNextMsg s q).2 := by
  have hflags : s.expectedCallbackId = 0 ∧ s.expectedReply = 0 := by
    unfold transactionLive at h
    constructor
    · by_contra hc
      simp [hc] at h
    · by_contra hc
      simp [hc] at h
  unfold WriteNextMsg
  cases hq : s.queues q with
  | nil => intro hf; exact absurd hf (by simp [hflags.1, hflags.2])
  | cons item rest =>
    cases item with
    | sendMsg m =>
      exact writeMsg_inFlight (inFlightOk_of_isSome (by simp))
    | queryStageComplete nodeId stage =>
      simp only
      split
      · apply inFlightOk_of_txSame (txSame_advanceNodeQueries _ nodeId)
        intro hf
        exact absurd hf (by simp [hflags.1, hflags.2])
      · intro hf
        exact absurd hf (by simp [hflags.1, hflags.2])

/-- One driver-loop event preserves the in-flight implication. -/
theorem step_inFlight {s t : DriverState} (hst : Step s t) (ih : InFlightOk s) :
    InFlightOk t := by
  cases hst with
  | sendMsg m q h => exact inFlightOk_of_txSame (txSame_sendMsg s m q) ih
  | sendQSC nodeId stage => exact inFlightOk_of_txSame (txSame_sendQSC s nodeId stage) ih
  | dequeue q h => exact writeNextMsg_inFlight q h
  | retryTimeout h => exact writeMsg_inFlight ih
  | read e => exact readMsg_inFlight e ih
  | checkQueries => exact inFlightOk_of_txSame (txSame_check s) ih
  | setStage nodeId st => exact inFlightOk_of_txSame (txSame_setNodeStage s nodeId st) ih
  | applyInitNode nodeId => exact inFlightOk_of_txSame (txSame_initNode s nodeId) ih
  | moveToWakeUp nodeId => exact moveMessages_inFlight nodeId ih
  | wake nodeId => exact inFlightOk_of_txSame (txSame_wakeNode s nodeId) ih

/-! ### Claim C1 -/

/-- A message used to probe the transaction engine: no callback id, an
expected reply 0xAA (a function the dispatch routes to its default case). -/
def probeMsg : Msg :=
  { targetNodeId := 5, msgType := REQUEST, function := 0xAA, payload := []
    callbackId := 0, expectedReply := 0xAA, expectedCommandClassId := 0
    sendAttempts := 0, buffer := [], isWakeUpNoMoreInformation := false }

/-- The state after queueing and arming `probeMsg`: a transaction is live,
`waitingForAck` is set and the reply 0xAA is expected. -/
def armedState : DriverState :=
  (WriteNextMsg (SendMsg initialDriverState probeMsg MsgQueue.send) MsgQueue.send).2

/-- The state after the expected reply frame arrives while the ACK is still
pending (ReadMsg processes an SOF received while `m_waitingForAck` holds,
Driver.cpp:1152-1156): the generic handling closes the transaction and frees
the current message, but `m_waitingForAck` is never cleared on that path. -/
def replyBeforeAckState : DriverState :=
  ReadMsg armedState (ReadEvent.sofFrame [0x00, 0xAA, 0x56])

/-- C1, counterexample: the claimed two-way invariant "current message
non-null iff (waiting_for_ack or expected_callback_id nonzero or
expected_reply nonzero)" fails at a reachable quiescent point: when the
expected reply frame is processed before the ACK byte arrives, ProcessMsg
frees the current message (Driver.cpp:1677-1682) without touching
`m_waitingForAck`, leaving waiting_for_ack set with no current message. -/
theorem C1_counterexample :
    ¬ (∀ s : DriverState, Reachable initialDriverState s →
        (s.currentMsg.isSome = true ↔
          (s.waitingForAck = true ∨ s.expectedCallbackId ≠ 0 ∨ s.expectedReply ≠ 0))) := by
  intro hclaim
  have hreach : Reachable initialDriverState replyBeforeAckState :=
    Relation.ReflTransGen.tail
      (Relation.ReflTransGen.tail
        (Relation.ReflTransGen.single (Step.sendMsg probeMsg MsgQueue.send rfl))
        (Step.dequeue MsgQueue.send rfl))
      (Step.read (ReadEvent.sofFrame [0x00, 0xAA, 0x56]))
  have hbad := (hclaim replyBeforeAckState hreach).2 (Or.inl (by decide))
  have hnone : replyBeforeAckState.currentMsg.isSome = false := by decide
  rw [hbad] at hnone
  exact absurd hnone (by decide)

/-- C1, amended: at every quiescent point of the driver loop, if
expected_callback_id ≠ 0 or expected_reply_opcode ≠ 0 then the current
message is non-null.  (The original iff fails in both directions:
processing the matched reply before the ACK leaves waiting_for_ack set with
no current message, see `C1_counterexample`.) -/
theorem C1_inflight_invariant (s0 s : DriverState)
    (hcb : s0.expectedCallbackId = 0) (hr : s0.expectedReply = 0)
    (hre : Reachable s0 s) :
    s.expectedCallbackId ≠ 0 ∨ s.expectedReply ≠ 0 → s.currentMsg.isSome := by
  induction hre with
  | refl =>
    intro h
    rcases h with h | h
    · exact absurd hcb h
    · exact absurd hr h
  | tail hseg hstep ih => exact step_inFlight hstep ih

/-- C1 witness: the invariant applied to the concrete armed state reached by
queueing and dequeuing `probeMsg` from the constructor state. -/
theorem C1_inflight_invariant_witness :
    initialDriverState.expectedCallbackId = 0 ∧ initialDriverState.expectedReply = 0 ∧
      (armedState.expectedCallbackId ≠ 0 ∨ armedState.expectedReply ≠ 0 →
        armedState.currentMsg.isSome) := by
  refine ⟨rfl, rfl, C1_inflight_invariant initialDriverState armedState rfl rfl ?_⟩
  exact Relation.ReflTransGen.tail
    (Relation.ReflTransGen.single (Step.sendMsg probeMsg MsgQueue.send rfl))
    (Step.dequeue MsgQueue.send rfl)

/-! ### Claim C2 -/

/-- The armed message's attempt counter never exceeds MAX_TRIES. -/
def CurrentAttemptsOk (s : DriverState) : Prop :=
  ∀ m : Msg, s.currentMsg = some m → m.sendAttempts ≤ MAX_TRIES

/-- The operation leaves the current message alone or drops it. -/
def msgSameOrNone (s t : DriverState) : Prop :=
  t.currentMsg = s.currentMsg ∨ t.currentMsg = none

theorem msgSameOrNone_refl (s : DriverState) : msgSameOrNone s s := Or.inl rfl

theorem msgSameOrNone_trans {s t u : DriverState} (h1 : msgSameOrNone s t)
    (h2 : msgSameOrNone t u) : msgSameOrNone s u := by
  rcases h2 with h2 | h2
  · rcases h1 with h1 | h1
    · exact Or.inl (h2.trans h1)
    · exact Or.inr (h2.trans h1)
  · exact Or.inr h2

theorem msgSameOrNone_of_txSame {s t : DriverState} (h : txSame s t) :
    msgSameOrNone s t := Or.inl h.1

theorem currentAttempts_of_msgSameOrNone {s t : DriverState} (h : msgSameOrNone s t)
    (ih : CurrentAttemptsOk s) : CurrentAttemptsOk t := by
  intro m hm
  rcases h with h | h
  · exact ih m (h ▸ hm)
  · rw [h] at hm; cases hm

theorem writeMsg_currentAttempts_some {s : DriverState} {msg : Msg}
    (hm : s.currentMsg = some msg) : CurrentAttemptsOk (WriteMsg s).2 := by
  unfold WriteMsg
  rw [hm]
  simp only
  split
  · intro m hm2; cases hm2
  · next hlt =>
    have hb : msg.sendAttempts + 1 ≤ MAX_TRIES := Nat.lt_of_not_le hlt
    split
    · intro m hm2
      cases hm2
      exact hb
    · split
      · intro m hm2
        cases hm2
        exact hb
      · intro m hm2
        cases hm2
        exact hb

theorem writeMsg_currentAttempts {s : DriverState} (ih : CurrentAttemptsOk s) :
    CurrentAttemptsOk (WriteMsg s).2 := by
  cases hm : s.currentMsg with
  | none =>
    unfold WriteMsg
    rw [hm]
    exact ih
  | some msg => exact writeMsg_currentAttempts_some hm

theorem msgSameOrNone_removeCurrentMsg (s : DriverState) :
    msgSameOrNone s (RemoveCurrentMsg s) := Or.inr rfl

theorem msgSameOrNone_move (s : DriverState) (nid : Nat) :
    msgSameOrNone s (MoveMessagesToWakeUpQueue s nid).2 := by
  unfold MoveMessagesToWakeUpQueue
  cases s.nodes nid with
  | none => exact msgSameOrNone_refl s
  | some node =>
    simp only
    split
    · exact msgSameOrNone_refl s
    · cases node.wakeUp with
      | none => exact msgSameOrNone_refl s
      | some w0 =>
        simp only
        split
        · exact Or.inr rfl
        · exact Or.inl rfl

theorem msgSameOrNone_genericClose (s : DriverState) :
    msgSameOrNone s (genericClose s) := by
  unfold genericClose
  split
  · split
    · exact Or.inr rfl
    · exact Or.inr rfl
  · exact msgSameOrNone_refl s

theorem msgSameOrNone_processMsgGeneric (s : DriverState) (data : List Nat) :
    msgSameOrNone s (processMsgGeneric s data) := by
  unfold processMsgGeneric
  split
  · have hmid : msgSameOrNone s (genericClearReply (genericClearCallback s data) data) :=
      Or.inl ((genericClearReply_effect _ data).1.trans
        (genericClearCallback_effect s data).1)
    exact msgSameOrNone_trans hmid (msgSameOrNone_genericClose _)
  · exact msgSameOrNone_refl s

theorem msgSameOrNone_handleSendDataRequest (s : DriverState) (data : List Nat)
    (rep : Bool) : msgSameOrNone s (HandleSendDataRequest s data rep) := by
  unfold HandleSendDataRequest
  split
  · exact msgSameOrNone_refl s
  · split
    · exact msgSameOrNone_removeCurrentMsg s
    · split
      · cases s.currentMsg with
        | none => exact msgSameOrNone_refl s
        | some m =>
          simp only
          split
          · exact msgSameOrNone_move s m.targetNodeId
          · exact msgSameOrNone_refl s
      · split
        · exact msgSameOrNone_refl s
        · exact Or.inl rfl

theorem msgSameOrNone_handleAppUpdate (s : DriverState) (data : List Nat) :
    msgSameOrNone s (HandleApplicationUpdateRequest s data).2 := by
  unfold HandleApplicationUpdateRequest
  have hcore : msgSameOrNone s (handleAppUpdateCore s data).2 := by
    unfold handleAppUpdateCore
    split
    · exact Or.inl rfl
    · split
      · exact msgSameOrNone_of_txSame (txSame_initNode s _)
      · split
        · cases s.currentMsg with
          | none => exact msgSameOrNone_refl s
          | some m =>
            simp only
            cases s.nodes m.targetNodeId with
            | none => exact msgSameOrNone_refl s
            | some node => exact msgSameOrNone_move s m.targetNodeId
        · exact msgSameOrNone_refl s
  split
  · rcases hcore with h | h
    · exact Or.inl h
    · exact Or.inr h
  · exact hcore

theorem msgSameOrNone_processMsg (s : DriverState) (data : List Nat) :
    msgSameOrNone s (ProcessMsg s data) := by
  unfold ProcessMsg
  split
  · split
    · exact msgSameOrNone_trans
        (msgSameOrNone_of_txSame (txSame_handleInitData s data))
        (msgSameOrNone_processMsgGeneric _ data)
    · split
      · exact msgSameOrNone_refl s
      · split
        · exact msgSameOrNone_refl s
        · split
          · have hmid : msgSameOrNone s (if data.getD 2 0 = 0 then
                { s with expectedCallbackId := data.getD 2 0
                         expectedReply := 0
                         expectedCommandClassId := 0
                         expectedNodeId := 0 }
               else s) := by
              split
              · exact Or.inl rfl
              · exact msgSameOrNone_refl s
            exact msgSameOrNone_trans hmid (msgSameOrNone_processMsgGeneric _ data)
          · exact msgSameOrNone_processMsgGeneric s data
  · split
    · split
      · exact msgSameOrNone_trans (msgSameOrNone_handleSendDataRequest s data false)
          (msgSameOrNone_processMsgGeneric _ data)
      · split
        · exact msgSameOrNone_trans (msgSameOrNone_handleSendDataRequest s data true)
            (msgSameOrNone_processMsgGeneric _ data)
        · split
          · split
            · exact msgSameOrNone_handleAppUpdate s data
            · exact msgSameOrNone_trans (msgSameOrNone_handleAppUpdate s data)
                (msgSameOrNone_processMsgGeneric _ data)
          · exact msgSameOrNone_processMsgGeneric s data
    · exact msgSameOrNone_processMsgGeneric s data

theorem step_currentAttempts {s t : DriverState} (hst : Step s t)
    (ih : CurrentAttemptsOk s) : CurrentAttemptsOk t := by
  cases hst with
  | sendMsg m q h =>
    exact currentAttempts_of_msgSameOrNone (msgSameOrNone_of_txSame (txSame_sendMsg s m q)) ih
  | sendQSC nodeId stage =>
    exact currentAttempts_of_msgSameOrNone
      (msgSameOrNone_of_txSame (txSame_sendQSC s nodeId stage)) ih
  | dequeue q h =>
    unfold WriteNextMsg
    cases hq : s.queues q with
    | nil => exact ih
    | cons item rest =>
      cases item with
      | sendMsg m => exact writeMsg_currentAttempts_some rfl
      | queryStageComplete nodeId stage =>
        simp only
        split
        · apply currentAttempts_of_msgSameOrNone
            (msgSameOrNone_of_txSame (txSame_advanceNodeQueries _ nodeId))
          intro m hm; cases hm
        · intro m hm; cases hm
  | retryTimeout h => exact writeMsg_currentAttempts ih
  | read e =>
    cases e with
    | sofFrame rest =>
      unfold ReadMsg
      dsimp only
      split
      · apply currentAttempts_of_msgSameOrNone (msgSameOrNone_processMsg _ rest)
        intro m hm
        split at hm <;> exact ih m hm
      · intro m hm
        split at hm <;> exact ih m hm
    | sofLengthTimeout =>
      unfold ReadMsg
      dsimp only
      intro m hm
      split at hm <;> exact ih m hm
    | sofBodyTimeout lengthByte =>
      unfold ReadMsg
      dsimp only
      intro m hm
      split at hm <;> exact ih m hm
    | can => exact writeMsg_currentAttempts ih
    | nak => exact writeMsg_currentAttempts ih
    | ack =>
      unfold ReadMsg
      dsimp only
      split
      · intro m hm; cases hm
      · exact ih
    | oof b => exact ih
  | checkQueries =>
    exact currentAttempts_of_msgSameOrNone (msgSameOrNone_of_txSame (txSame_check s)) ih
  | setStage nodeId st =>
    exact currentAttempts_of_msgSameOrNone
      (msgSameOrNone_of_txSame (txSame_setNodeStage s nodeId st)) ih
  | applyInitNode nodeId =>
    exact currentAttempts_of_msgSameOrNone
      (msgSameOrNone_of_txSame (txSame_initNode s nodeId)) ih
  | moveToWakeUp nodeId =>
    exact currentAttempts_of_msgSameOrNone (msgSameOrNone_move s nodeId) ih
  | wake nodeId =>
    exact currentAttempts_of_msgSameOrNone
      (msgSameOrNone_of_txSame (txSame_wakeNode s nodeId)) ih

/-- The effect of an arm or resend when the attempt budget is not exhausted
(the write path of Driver::WriteMsg): the same buffer is written once, the
attempt counter is incremented, the expectations are armed from the message,
and the retries/dropped statistics counters are untouched. -/
theorem writeMsg_arm_effect {s : DriverState} {msg : Msg} (hm : s.currentMsg = some msg)
    (hlt : msg.sendAttempts < MAX_TRIES) :
    (WriteMsg s).2.currentMsg = some { msg with sendAttempts := msg.sendAttempts + 1 } ∧
    (WriteMsg s).2.writes = s.writes ++ [msg.buffer] ∧
    (WriteMsg s).2.waitingForAck = true ∧
    (WriteMsg s).2.expectedCallbackId = msg.callbackId ∧
    (WriteMsg s).2.expectedReply = msg.expectedReply ∧
    (WriteMsg s).2.retries = s.retries ∧
    (WriteMsg s).2.dropped = s.dropped := by
  unfold WriteMsg
  rw [hm]
  simp only
  rw [if_neg (Nat.not_le.mpr hlt)]
  split
  · exact ⟨rfl, rfl, rfl, rfl, rfl, rfl, rfl⟩
  · split <;> exact ⟨rfl, rfl, rfl, rfl, rfl, rfl, rfl⟩

/-- The effect of a resend with the attempt budget exhausted (the drop path
of Driver::WriteMsg): the message is dropped and all transaction state is
cleared; nothing is written and no statistics counter changes. -/
theorem writeMsg_drop_effect {s : DriverState} {msg : Msg} (hm : s.currentMsg = some msg)
    (hge : MAX_TRIES ≤ msg.sendAttempts) :
    (WriteMsg s).2 = { s with currentMsg := none
                              expectedCallbackId := 0
                              expectedCommandClassId := 0
                              expectedNodeId := 0
                              expectedReply := 0
                              waitingForAck := false } := by
  unfold WriteMsg
  rw [hm]
  simp only
  rw [if_pos hge]

/-- The effect of dequeueing a SendMsg item (Driver::WriteNextMsg, SendMsg
branch): the popped message becomes current and is written by WriteMsg. -/
theorem writeNextMsg_pop_effect {s : DriverState} {q : MsgQueue} {m : Msg}
    {rest : List MsgQueueItem} (hq : s.queues q = MsgQueueItem.sendMsg m :: rest)
    (h0 : m.sendAttempts = 0) :
    (WriteNextMsg s q).2.currentMsg = some { m with sendAttempts := 1 } ∧
    (WriteNextMsg s q).2.writes = s.writes ++ [m.buffer] ∧
    (WriteNextMsg s q).2.waitingForAck = true ∧
    (WriteNextMsg s q).2.retries = s.retries ∧
    (WriteNextMsg s q).2.dropped = s.dropped := by
  unfold WriteNextMsg
  rw [hq]
  simp only
  have harm := @writeMsg_arm_effect
    { s with queues := updQueues s.queues q rest
             queueEvents := updEvents s.queueEvents q
               (if rest.isEmpty then false else s.queueEvents q)
             currentMsg := some m }
    m rfl (by rw [h0]; exact Nat.zero_lt_succ 2)
  rw [h0] at harm
  exact ⟨harm.1, harm.2.1, harm.2.2.1, harm.2.2.2.2.2.1, harm.2.2.2.2.2.2⟩

/-- C2, amended: for every armed message send_attempts ≤ MAX_TRIES (3), and
when the expected callback never arrives the identical frame bytes are
written exactly three times (one arm plus two timeout resends), after which
the message is dropped and all transaction state cleared; the retries and
dropped statistics counters are NOT updated (the code never increments
m_retries or m_dropped), so they keep their previous values.  (The original
claim's "retries increments by 2, dropped increments by 1" fails, see
`C2_counterexample`.) -/
theorem C2_retry_budget :
    (∀ s0 s : DriverState, CurrentAttemptsOk s0 → Reachable s0 s → CurrentAttemptsOk s) ∧
    (∀ (s : DriverState) (q : MsgQueue) (m : Msg) (rest : List MsgQueueItem),
      s.queues q = MsgQueueItem.sendMsg m :: rest → m.sendAttempts = 0 →
      ((WriteMsg (WriteMsg (WriteMsg (WriteNextMsg s q).2).2).2).2.writes
          = s.writes ++ [m.buffer, m.buffer, m.buffer] ∧
       (WriteMsg (WriteMsg (WriteMsg (WriteNextMsg s q).2).2).2).2.currentMsg = none ∧
       (WriteMsg (WriteMsg (WriteMsg (WriteNextMsg s q).2).2).2).2.waitingForAck = false ∧
       (WriteMsg (WriteMsg (WriteMsg (WriteNextMsg s q).2).2).2).2.expectedCallbackId = 0 ∧
       (WriteMsg (WriteMsg (WriteMsg (WriteNextMsg s q).2).2).2).2.expectedReply = 0 ∧
       (WriteMsg (WriteMsg (WriteMsg (WriteNextMsg s q).2).2).2).2.retries = s.retries ∧
       (WriteMsg (WriteMsg (WriteMsg (WriteNextMsg s q).2).2).2).2.dropped = s.dropped)) := by
  constructor
  · intro s0 s h0 hre
    induction hre with
    | refl => exact h0
    | tail hseg hstep ih => exact step_currentAttempts hstep ih
  · intro s q m rest hq h0
    obtain ⟨p1, p2, _, p4, p5⟩ := writeNextMsg_pop_effect hq h0
    obtain ⟨a1, a2, _, _, _, a6, a7⟩ := writeMsg_arm_effect p1
      (by show (1 : Nat) < MAX_TRIES; decide)
    obtain ⟨b1, b2, _, _, _, b6, b7⟩ := writeMsg_arm_effect a1
      (by show (2 : Nat) < MAX_TRIES; decide)
    have hdrop := writeMsg_drop_effect b1 (by show MAX_TRIES ≤ (3 : Nat); decide)
    rw [hdrop]
    refine ⟨?_, rfl, rfl, rfl, rfl, ?_, ?_⟩
    · show (WriteMsg (WriteMsg (WriteNextMsg s q).2).2).2.writes
        = s.writes ++ [m.buffer, m.buffer, m.buffer]
      rw [b2, a2, p2]
      simp
    · show (WriteMsg (WriteMsg (WriteNextMsg s q).2).2).2.retries = s.retries
      rw [b6, a6, p4]
    · show (WriteMsg (WriteMsg (WriteNextMsg s q).2).2).2.dropped = s.dropped
      rw [b7, a7, p5]

/-- A SEND_DATA message to node 5 whose callback (id 0x0b) never arrives. -/
def c2Msg : Msg :=
  { targetNodeId := 5, msgType := REQUEST, function := FUNC_ID_ZW_SEND_DATA
    payload := [5, 1, 0x25, 0x01], callbackId := 0x0b
    expectedReply := FUNC_ID_APPLICATION_COMMAND_HANDLER
    expectedCommandClassId := 0x25, sendAttempts := 0, buffer := []
    isWakeUpNoMoreInformation := false }

/-- The constructor state with `c2Msg` queued on the Send queue. -/
def c2Queued : DriverState := SendMsg initialDriverState c2Msg MsgQueue.send

/-- The state after the arm and three retry timeouts: the retry budget is
exhausted and the message dropped. -/
def c2Final : DriverState :=
  (WriteMsg (WriteMsg (WriteMsg (WriteNextMsg c2Queued MsgQueue.send).2).2).2).2

/-- C2, counterexample: running the retry-exhaustion scenario from the
constructor state writes the identical finalized frame three times and drops
the message, but the retries and dropped statistics counters stay 0: no code
path in Driver.cpp ever increments m_retries or m_dropped, so the claimed
"retries increments by 2 and dropped increments by 1" is false. -/
theorem C2_counterexample :
    Reachable initialDriverState c2Final ∧
    c2Final.writes =
      [(finalize c2Msg).buffer, (finalize c2Msg).buffer, (finalize c2Msg).buffer] ∧
    c2Final.currentMsg = none ∧
    ¬ (c2Final.retries = initialDriverState.retries + 2 ∧
       c2Final.dropped = initialDriverState.dropped + 1) := by
  refine ⟨?_, by decide, by decide, by decide⟩
  exact Relation.ReflTransGen.tail
    (Relation.ReflTransGen.tail
      (Relation.ReflTransGen.tail
        (Relation.ReflTransGen.tail
          (Relation.ReflTransGen.single (Step.sendMsg c2Msg MsgQueue.send rfl))
          (Step.dequeue MsgQueue.send rfl))
        (Step.retryTimeout rfl))
      (Step.retryTimeout rfl))
    (Step.retryTimeout rfl)

/-- C2 witness: the amended theorem applied to the concrete scenario above
(part one at the constructor state, part two at the queued SEND_DATA). -/
theorem C2_retry_budget_witness :
    CurrentAttemptsOk initialDriverState ∧
    (c2Final.writes = c2Queued.writes ++
        [(finalize c2Msg).buffer, (finalize c2Msg).buffer, (finalize c2Msg).buffer] ∧
      c2Final.currentMsg = none ∧ c2Final.retries = c2Queued.retries ∧
      c2Final.dropped = c2Queued.dropped) := by
  constructor
  · exact C2_retry_budget.1 initialDriverState initialDriverState
      (fun m hm => by cases hm) Relation.ReflTransGen.refl
  · have h := C2_retry_budget.2 c2Queued MsgQueue.send (finalize c2Msg) [] rfl rfl
    exact ⟨h.1, h.2.1, h.2.2.2.2.2.1, h.2.2.2.2.2.2⟩

/-! ### Claim C3 -/

/-- The node a queue item is bound for. -/
def itemTarget : MsgQueueItem → Nat
  | MsgQueueItem.sendMsg m => m.targetNodeId
  | MsgQueueItem.queryStageComplete nid _ => nid

/-- Whether a table slot holds a sleeping non-listening target in the sense
of the claim: a non-listening, non-frequent-listening, non-controller node
whose WakeUp command class caches not-awake. -/
def sleepingNode : Option CNode → Bool
  | some node =>
    !node.listening && !node.frequentListening && !node.isController &&
      (match node.wakeUp with
       | some w => !w.awake
       | none => false)
  | none => false

/-- Invariant P3: no scheduler queue holds an item whose target is a
sleeping non-listening node with a cached not-awake state. -/
def NoSleepingOnQueues (s : DriverState) : Prop :=
  ∀ (q : MsgQueue) (item : MsgQueueItem), item ∈ s.queues q →
    sleepingNode (s.nodes (itemTarget item)) = false

/-- Every item in a node's sleeping buffer is bound for that node (the
buffer belongs to the node's own WakeUp handler). -/
def BufferTargetsOk (s : DriverState) : Prop :=
  ∀ (nid : Nat) (node : CNode) (w : WakeUpCC) (item : MsgQueueItem),
    s.nodes nid = some node → node.wakeUp = some w → item ∈ w.pending →
      itemTarget item = nid

/-- The compound invariant for claim C3. -/
def SleepInv (s : DriverState) : Prop :=
  NoSleepingOnQueues s ∧ BufferTargetsOk s

/-- An operation only removes or keeps queue items. -/
def queuesSub (s t : DriverState) : Prop :=
  ∀ (q : MsgQueue) (item : MsgQueueItem), item ∈ t.queues q → item ∈ s.queues q

/-- An operation changes the node table benignly for the sleeping invariant:
a slot that is sleeping afterwards was sleeping before, and a slot holding a
WakeUp handler afterwards held the same handler before. -/
def benignNodes (s t : DriverState) : Prop :=
  ∀ nid : Nat,
    (sleepingNode (t.nodes nid) = true → sleepingNode (s.nodes nid) = true) ∧
    (∀ (b : CNode) (w : WakeUpCC), t.nodes nid = some b → b.wakeUp = some w →
      ∃ a : CNode, s.nodes nid = some a ∧ a.wakeUp = some w)

theorem benignNodes_refl (s : DriverState) : benignNodes s s :=
  fun _ => ⟨fun h => h, fun b w hb hw => ⟨b, hb, hw⟩⟩

theorem benignNodes_trans {s t u : DriverState} (h1 : benignNodes s t)
    (h2 : benignNodes t u) : benignNodes s u := by
  intro nid
  constructor
  · exact fun h => (h1 nid).1 ((h2 nid).1 h)
  · intro b w hb hw
    obtain ⟨a, ha, haw⟩ := (h2 nid).2 b w hb hw
    exact (h1 nid).2 a w ha haw

theorem queuesSub_refl (s : DriverState) : queuesSub s s := fun _ _ h => h

theorem queuesSub_trans {s t u : DriverState} (h1 : queuesSub s t)
    (h2 : queuesSub t u) : queuesSub s u := fun q item h => h1 q item (h2 q item h)

/-- Master preservation: an operation that only removes queue items and
changes the node table benignly preserves the sleeping invariant. -/
theorem sleepInv_of_benign {s t : DriverState} (hq : queuesSub s t)
    (hn : benignNodes s t) (ih : SleepInv s) : SleepInv t := by
  constructor
  · intro q item hitem
    by_contra hc
    have hslp : sleepingNode (t.nodes (itemTarget item)) = true := by
      cases h : sleepingNode (t.nodes (itemTarget item))
      · exact absurd h hc
      · rfl
    have := (hn (itemTarget item)).1 hslp
    rw [ih.1 q item (hq q item hitem)] at this
    cases this
  · intro nid node w item hb hw hmem
    obtain ⟨a, ha, haw⟩ := (hn nid).2 node w hb hw
    exact ih.2 nid a w item ha haw hmem

theorem updNodes_self (f : Nat → Option CNode) (i : Nat) (v : Option CNode) :
    updNodes f i v i = v := by
  unfold updNodes
  simp

theorem updNodes_other (f : Nat → Option CNode) {i j : Nat} (v : Option CNode)
    (h : j ≠ i) : updNodes f i v j = f j := by
  unfold updNodes
  simp [h]

/-- Per-slot analysis of a pointwise table update with a benign new value. -/
theorem benignNodes_of_upd (s : DriverState) (i : Nat) (v : Option CNode)
    (hslp : sleepingNode v = true → sleepingNode (s.nodes i) = true)
    (hwk : ∀ (b : CNode) (w : WakeUpCC), v = some b → b.wakeUp = some w →
      ∃ a : CNode, s.nodes i = some a ∧ a.wakeUp = some w)
    {t : DriverState} (ht : t.nodes = updNodes s.nodes i v) :
    benignNodes s t := by
  intro nid
  by_cases hd : nid = i
  · subst hd
    rw [ht, updNodes_self]
    exact ⟨hslp, hwk⟩
  · rw [ht, updNodes_other _ _ hd]
    exact ⟨fun h => h, fun b w hb hw => ⟨b, hb, hw⟩⟩

theorem benignNodes_of_eq {s t : DriverState} (hn : t.nodes = s.nodes) :
    benignNodes s t := by
  intro nid
  rw [hn]
  exact ⟨fun h => h, fun b w hb hw => ⟨b, hb, hw⟩⟩

theorem queuesSub_of_eq {s t : DriverState} (hq : t.queues = s.queues) :
    queuesSub s t := by
  intro q item
  rw [hq]
  exact fun h => h

/-- A pointwise update of one node that keeps the protocol flags and the
WakeUp handler (stage or write-counter bookkeeping) is benign. -/
theorem benignNodes_of_similar (s : DriverState) (i : Nat) (a b : CNode)
    (ha : s.nodes i = some a)
    (hl : b.listening = a.listening) (hf : b.frequentListening = a.frequentListening)
    (hc : b.isController = a.isController) (hw : b.wakeUp = a.wakeUp)
    {t : DriverState} (ht : t.nodes = updNodes s.nodes i (some b)) :
    benignNodes s t := by
  refine benignNodes_of_upd s i (some b) ?_ ?_ ht
  · intro h
    rw [ha]
    simp only [sleepingNode] at h ⊢
    rw [hl, hf, hc, hw] at h
    exact h
  · intro b2 w hb2 hw2
    cases hb2
    rw [hw] at hw2
    exact ⟨a, ha, hw2⟩

/-- A fresh node (no command classes) or a deleted slot is benign. -/
theorem benignNodes_of_fresh (s : DriverState) (i k : Nat)
    {t : DriverState} (ht : t.nodes = updNodes s.nodes i (some (newNode k))) :
    benignNodes s t := by
  refine benignNodes_of_upd s i (some (newNode k)) ?_ ?_ ht
  · intro h
    simp [sleepingNode, newNode] at h
  · intro b w hb hw
    cases hb
    simp [newNode] at hw

theorem benignNodes_of_delete (s : DriverState) (i : Nat)
    {t : DriverState} (ht : t.nodes = updNodes s.nodes i none) :
    benignNodes s t := by
  refine benignNodes_of_upd s i none ?_ ?_ ht
  · intro h
    simp [sleepingNode] at h
  · intro b w hb hw
    cases hb

/-- Specification of the queue walk: kept items are original items not bound
for the target; moved items are bound for the target. -/
theorem splitQueueForSleep_spec (target : Nat) (l : List MsgQueueItem) :
    (∀ item ∈ (splitQueueForSleep target l).1, item ∈ l ∧ itemTarget item ≠ target) ∧
    (∀ item ∈ (splitQueueForSleep target l).2, itemTarget item = target) := by
  induction l with
  | nil => simp [splitQueueForSleep]
  | cons hd tl ih =>
    obtain ⟨ih1, ih2⟩ := ih
    cases hd with
    | sendMsg m =>
      by_cases h1 : m.targetNodeId = target
      · by_cases h2 : m.isWakeUpNoMoreInformation
        · simp only [splitQueueForSleep, h1, if_pos, h2, if_true]
          constructor
          · intro item hmem
            exact ⟨List.mem_cons_of_mem _ (ih1 item hmem).1, (ih1 item hmem).2⟩
          · exact ih2
        · simp only [splitQueueForSleep, h1, if_pos, h2, if_false, Bool.false_eq_true]
          constructor
          · intro item hmem
            exact ⟨List.mem_cons_of_mem _ (ih1 item hmem).1, (ih1 item hmem).2⟩
          · intro item hmem
            rcases List.mem_cons.mp hmem with h | h
            · subst h; exact h1
            · exact ih2 item h
      · simp only [splitQueueForSleep, h1, if_neg, if_false]
        constructor
        · intro item hmem
          rcases List.mem_cons.mp hmem with h | h
          · subst h
            exact ⟨List.mem_cons_self _ _, h1⟩
          · exact ⟨List.mem_cons_of_mem _ (ih1 item h).1, (ih1 item h).2⟩
        · exact ih2
    | queryStageComplete nid stage =>
      by_cases h1 : nid = target
      · simp only [splitQueueForSleep, h1, if_pos]
        constructor
        · intro item hmem
          exact ⟨List.mem_cons_of_mem _ (ih1 item hmem).1, (ih1 item hmem).2⟩
        · intro item hmem
          rcases List.mem_cons.mp hmem with h | h
          · subst h; rfl
          · exact ih2 item h
      · simp only [splitQueueForSleep, h1, if_neg]
        constructor
        · intro item hmem
          rcases List.mem_cons.mp hmem with h | h
          · subst h
            exact ⟨List.mem_cons_self _ _, h1⟩
          · exact ⟨List.mem_cons_of_mem _ (ih1 item h).1, (ih1 item h).2⟩
        · exact ih2

/-- Items contributed by the current message are bound for the target. -/
theorem moveFromCurrent_target {s : DriverState} {nid : Nat} {item : MsgQueueItem}
    (h : item ∈ moveFromCurrent s nid) : itemTarget item = nid := by
  unfold moveFromCurrent at h
  cases hm : s.currentMsg with
  | none => rw [hm] at h; cases h
  | some m =>
    rw [hm] at h
    dsimp only at h
    by_cases hc : (m.targetNodeId = nid && !m.isWakeUpNoMoreInformation) = true
    · rw [if_pos hc] at h
      rcases List.mem_singleton.mp h with rfl
      exact of_decide_eq_true ((Bool.and_eq_true _ _).mp hc).1
    · rw [if_neg hc] at h
      cases h

/-- The sleeping invariant is preserved by MoveMessagesToWakeUpQueue. -/
theorem sleepInv_moveQueuesApply {s : DriverState} {nid : Nat} {node : CNode}
    {w0 : WakeUpCC} (hn : s.nodes nid = some node) (hw : node.wakeUp = some w0)
    (ih : SleepInv s) : SleepInv (moveQueuesApply s nid node w0) := by
  constructor
  · intro q item hitem
    have hspec := (splitQueueForSleep_spec nid (s.queues q)).1 item hitem
    show sleepingNode (updNodes s.nodes nid _ (itemTarget item)) = false
    rw [updNodes_other _ _ hspec.2]
    exact ih.1 q item hspec.1
  · intro nid2 b w item hb hw2 hmem
    by_cases hd : nid2 = nid
    · subst hd
      rw [show (moveQueuesApply s nid2 node w0).nodes = updNodes s.nodes nid2
          (some { node with wakeUp := some (moveNewWakeUp s nid2 w0) }) from rfl,
        updNodes_self] at hb
      cases hb
      rw [show ({ node with wakeUp := some (moveNewWakeUp s nid2 w0) } : CNode).wakeUp
          = some (moveNewWakeUp s nid2 w0) from rfl] at hw2
      cases hw2
      unfold moveNewWakeUp at hmem
      simp only at hmem
      rcases List.mem_append.mp hmem with hmem2 | hmem2
      · rcases List.mem_append.mp hmem2 with hmem3 | hmem3
        · exact ih.2 nid2 node w0 item hn hw hmem3
        · exact moveFromCurrent_target hmem3
      · obtain ⟨q, _, hin⟩ := List.mem_flatMap.mp hmem2
        exact (splitQueueForSleep_spec nid2 (s.queues q)).2 item hin
    · rw [show (moveQueuesApply s nid node w0).nodes = updNodes s.nodes nid
          (some { node with wakeUp := some (moveNewWakeUp s nid w0) }) from rfl,
        updNodes_other _ _ hd] at hb
      exact ih.2 nid2 b w item hb hw2 hmem

theorem sleepInv_move {s : DriverState} (nid : Nat) (ih : SleepInv s) :
    SleepInv (MoveMessagesToWakeUpQueue s nid).2 := by
  unfold MoveMessagesToWakeUpQueue
  cases hn : s.nodes nid with
  | none => exact ih
  | some node =>
    simp only
    split
    · exact ih
    · cases hw : node.wakeUp with
      | none => exact ih
      | some w0 =>
        simp only
        split
        · exact sleepInv_moveQueuesApply hn hw ih
        · exact sleepInv_moveQueuesApply hn hw ih

theorem sleepInv_of_eqs {s t : DriverState} (hq : t.queues = s.queues)
    (hn : t.nodes = s.nodes) (ih : SleepInv s) : SleepInv t :=
  sleepInv_of_benign (queuesSub_of_eq hq) (benignNodes_of_eq hn) ih

theorem foldl_preserve {α : Type} (f : DriverState → α → DriverState)
    (P : DriverState → Prop) (hf : ∀ s a, P s → P (f s a)) :
    ∀ (l : List α) (s : DriverState), P s → P (l.foldl f s) := by
  intro l
  induction l with
  | nil => intro s h; exact h
  | cons a l ihl =>
    intro s h
    exact ihl (f s a) (hf s a h)

theorem sleepingNode_false_of_not_redirect {node : CNode}
    (h : sleepingRedirect node = false) : sleepingNode (some node) = false := by
  unfold sleepingRedirect at h
  split at h
  · next hl => simp [sleepingNode, hl]
  · next hl =>
    cases hw : node.wakeUp with
    | none => simp [sleepingNode, hw]
    | some w =>
      rw [hw] at h
      dsimp only at h
      cases ha : w.awake
      · rw [ha] at h; cases h
      · simp [sleepingNode, hw, ha]

theorem sleepInv_writeMsg {s : DriverState} (ih : SleepInv s) :
    SleepInv (WriteMsg s).2 := by
  unfold WriteMsg
  cases hm : s.currentMsg with
  | none => exact ih
  | some msg =>
    simp only
    split
    · exact ih
    · split
      · exact ih
      · split
        · next node heq =>
          dsimp only
          refine sleepInv_of_benign ?_ ?_ ih
          · exact queuesSub_of_eq rfl
          · exact benignNodes_of_similar s msg.targetNodeId node
              { node with nodeWriteCnt := node.nodeWriteCnt + 1 } heq rfl rfl rfl rfl rfl
        · exact ih

theorem sleepInv_initNode {s : DriverState} (nid : Nat) (ih : SleepInv s) :
    SleepInv (InitNode s nid) := by
  unfold InitNode
  cases hn : s.nodes nid with
  | some node =>
    refine sleepInv_of_benign ?_ ?_ ih
    · exact queuesSub_of_eq rfl
    · exact benignNodes_of_fresh s nid nid rfl
  | none =>
    refine sleepInv_of_benign ?_ ?_ ih
    · exact queuesSub_of_eq rfl
    · exact benignNodes_of_fresh s nid nid rfl

theorem sleepInv_readConfigNode {s : DriverState} (el : XmlNodeElem)
    (ih : SleepInv s) : SleepInv (readConfigNode s el) := by
  unfold readConfigNode
  split
  · split
    · refine sleepInv_of_benign ?_ ?_ ih
      · exact queuesSub_of_eq rfl
      · exact benignNodes_of_fresh s _ _ rfl
    · exact ih
  · exact ih

theorem sleepInv_readConfig {s : DriverState} (ih : SleepInv s) :
    SleepInv (ReadConfig s).2 := by
  unfold ReadConfig
  cases s.configDoc with
  | none => exact ih
  | some doc =>
    simp only
    cases doc.version with
    | none => exact ih
    | some v =>
      simp only
      split
      · exact ih
      · cases doc.homeIdAttr with
        | none => exact ih
        | some h =>
          simp only
          split
          · exact ih
          · cases doc.nodeIdAttr with
            | none => exact ih
            | some nid =>
              simp only
              split
              · exact ih
              · apply foldl_preserve readConfigNode SleepInv
                  (fun s2 el ih2 => sleepInv_readConfigNode el ih2)
                split <;> split <;> split <;> exact ih

theorem sleepInv_initDataBitStep {s : DriverState} (data : List Nat) (i j : Nat)
    (ih : SleepInv s) : SleepInv (initDataBitStep data i j s) := by
  unfold initDataBitStep
  dsimp only
  split
  · split
    · exact ih
    · split
      · next node heq =>
        split
        · refine sleepInv_of_benign ?_ ?_ ih
          · exact queuesSub_of_eq rfl
          · exact benignNodes_of_similar s (i * 8 + j + 1) node
              { node with queryStage := QueryStage.associations } heq rfl rfl rfl rfl rfl
        · exact ih
      · exact sleepInv_initNode _ ih
  · split
    · refine sleepInv_of_benign ?_ ?_ ih
      · exact queuesSub_of_eq rfl
      · exact benignNodes_of_delete s (i * 8 + j + 1) rfl
    · exact ih

theorem sleepInv_handleInitData {s : DriverState} (data : List Nat)
    (ih : SleepInv s) : SleepInv (HandleSerialAPIGetInitDataResponse s data) := by
  unfold HandleSerialAPIGetInitDataResponse
  have h1 : SleepInv (initDataFirstLoad s) := by
    unfold initDataFirstLoad
    split
    · exact sleepInv_readConfig ih
    · exact ih
  have h2 : SleepInv (initDataReconcile data
      { initDataFirstLoad s with initVersion := data.getD 2 0, initCaps := data.getD 3 0 }) := by
    unfold initDataReconcile
    split
    · apply foldl_preserve _ SleepInv
      · intro s2 i ih2
        exact foldl_preserve _ SleepInv
          (fun s3 j ih3 => sleepInv_initDataBitStep data i j ih3) _ s2 ih2
      · exact h1
    · exact h1
  exact h2

theorem sleepInv_handleSendDataRequest {s : DriverState} (data : List Nat)
    (rep : Bool) (ih : SleepInv s) :
    SleepInv (HandleSendDataRequest s data rep) := by
  unfold HandleSendDataRequest
  split
  · exact ih
  · split
    · exact ih
    · split
      · cases s.currentMsg with
        | none => exact ih
        | some m =>
          simp only
          split
          · exact sleepInv_move m.targetNodeId ih
          · exact ih
      · split
        · exact ih
        · exact ih

theorem sleepInv_handleAppUpdate {s : DriverState} (data : List Nat)
    (ih : SleepInv s) : SleepInv (HandleApplicationUpdateRequest s data).2 := by
  unfold HandleApplicationUpdateRequest
  have hcore : SleepInv (handleAppUpdateCore s data).2 := by
    unfold handleAppUpdateCore
    split
    · refine sleepInv_of_benign ?_ ?_ ih
      · exact queuesSub_of_eq rfl
      · exact benignNodes_of_delete s (data.getD 3 0) rfl
    · split
      · exact sleepInv_initNode _ ih
      · split
        · cases s.currentMsg with
          | none => exact ih
          | some m =>
            simp only
            cases s.nodes m.targetNodeId with
            | none => exact ih
            | some node => exact sleepInv_move m.targetNodeId ih
        · exact ih
  split
  · exact hcore
  · exact hcore

theorem sleepInv_processMsgGeneric {s : DriverState} (data : List Nat)
    (ih : SleepInv s) : SleepInv (processMsgGeneric s data) := by
  unfold processMsgGeneric
  split
  · have h1 : SleepInv (genericClearCallback s data) := by
      unfold genericClearCallback
      split
      · exact ih
      · exact ih
    have h2 : SleepInv (genericClearReply (genericClearCallback s data) data) := by
      unfold genericClearReply
      split
      · split
        · split
          · exact h1
          · exact h1
        · exact h1
      · exact h1
    unfold genericClose
    split
    · split
      · exact h2
      · exact h2
    · exact h2
  · exact ih

theorem sleepInv_processMsg {s : DriverState} (data : List Nat)
    (ih : SleepInv s) : SleepInv (ProcessMsg s data) := by
  unfold ProcessMsg
  split
  · split
    · exact sleepInv_processMsgGeneric data (sleepInv_handleInitData data ih)
    · split
      · exact ih
      · split
        · exact ih
        · split
          · apply sleepInv_processMsgGeneric data
            split
            · exact ih
            · exact ih
          · exact sleepInv_processMsgGeneric data ih
  · split
    · split
      · exact sleepInv_processMsgGeneric data (sleepInv_handleSendDataRequest data false ih)
      · split
        · exact sleepInv_processMsgGeneric data (sleepInv_handleSendDataRequest data true ih)
        · split
          · split
            · exact sleepInv_handleAppUpdate data ih
            · exact sleepInv_processMsgGeneric data (sleepInv_handleAppUpdate data ih)
          · exact sleepInv_processMsgGeneric data ih
    · exact sleepInv_processMsgGeneric data ih

theorem sleepInv_readMsg {s : DriverState} (e : ReadEvent) (ih : SleepInv s) :
    SleepInv (ReadMsg s e) := by
  cases e with
  | sofFrame rest =>
    unfold ReadMsg
    dsimp only
    split
    · apply sleepInv_processMsg rest
      split <;> exact ih
    · split <;> exact ih
  | sofLengthTimeout =>
    unfold ReadMsg
    dsimp only
    split <;> exact ih
  | sofBodyTimeout lengthByte =>
    unfold ReadMsg
    dsimp only
    split <;> exact ih
  | can => exact sleepInv_writeMsg ih
  | nak => exact sleepInv_writeMsg ih
  | ack =>
    unfold ReadMsg
    dsimp only
    split
    · exact ih
    · exact ih
  | oof b => exact ih

/-- Redirection into the node's buffer preserves the sleeping invariant:
queues are untouched, the slot's sleeping status is unchanged, and the
appended item is bound for that slot. -/
theorem sleepInv_queueOnNode {s : DriverState} {nid : Nat} {node : CNode}
    (hn : s.nodes nid = some node) {item : MsgQueueItem}
    (hitem : itemTarget item = nid) (ih : SleepInv s) :
    SleepInv (queueOnNode s nid node item) := by
  unfold queueOnNode
  cases hw : node.wakeUp with
  | none => exact ih
  | some w =>
    constructor
    · intro q2 item2 hmem
      show sleepingNode (updNodes s.nodes nid _ (itemTarget item2)) = false
      by_cases hd : itemTarget item2 = nid
      · rw [hd, updNodes_self]
        have := ih.1 q2 item2 hmem
        rw [hd, hn] at this
        simp only [sleepingNode, hw] at this ⊢
        exact this
      · rw [updNodes_other _ _ hd]
        exact ih.1 q2 item2 hmem
    · intro nid2 b w2 item2 hb hw2 hmem
      dsimp only at hb
      by_cases hd : nid2 = nid
      · subst hd
        rw [updNodes_self] at hb
        injection hb with hb2
        subst hb2
        dsimp only at hw2
        injection hw2 with hw3
        subst hw3
        rcases List.mem_append.mp hmem with h2 | h2
        · exact ih.2 nid2 node w item2 hn hw h2
        · rcases List.mem_singleton.mp h2 with rfl
          exact hitem
      · rw [updNodes_other _ _ hd] at hb
        exact ih.2 nid2 b w2 item2 hb hw2 hmem

/-- Enqueueing an item whose target is not redirected preserves the
invariant: the target slot is not a sleeping node. -/
theorem sleepInv_enqueue {s : DriverState} {q : MsgQueue} {item : MsgQueueItem}
    (hslp : sleepingNode (s.nodes (itemTarget item)) = false) (ih : SleepInv s)
    {t : DriverState} (htq : t.queues = updQueues s.queues q (s.queues q ++ [item]))
    (htn : t.nodes = s.nodes) : SleepInv t := by
  constructor
  · intro q2 item2 hmem
    rw [htq] at hmem
    rw [htn]
    simp only [updQueues] at hmem
    by_cases hd : q2 = q
    · rw [if_pos hd] at hmem
      rcases List.mem_append.mp hmem with h2 | h2
      · exact ih.1 q item2 h2
      · rcases List.mem_singleton.mp h2 with rfl
        exact hslp
    · rw [if_neg hd] at hmem
      exact ih.1 q2 item2 hmem
  · intro nid b w item2 hb hw hmem
    rw [htn] at hb
    exact ih.2 nid b w item2 hb hw hmem

theorem sleepInv_sendMsg {s : DriverState} (m : Msg) (q : MsgQueue)
    (ih : SleepInv s) : SleepInv (SendMsg s m q) := by
  unfold SendMsg
  dsimp only
  cases hn : s.nodes (finalize m).targetNodeId with
  | some node =>
    simp only
    split
    · exact sleepInv_queueOnNode hn rfl ih
    · next hred =>
      refine sleepInv_enqueue ?_ ih rfl rfl
      show sleepingNode (s.nodes (finalize m).targetNodeId) = false
      rw [hn]
      exact sleepingNode_false_of_not_redirect (Bool.of_not_eq_true hred)
  | none =>
    simp only
    refine sleepInv_enqueue ?_ ih rfl rfl
    show sleepingNode (s.nodes (finalize m).targetNodeId) = false
    rw [hn]
    rfl

theorem sleepInv_sendQSC {s : DriverState} (nodeId : Nat) (stage : QueryStage)
    (ih : SleepInv s) : SleepInv (SendQueryStageComplete s nodeId stage) := by
  unfold SendQueryStageComplete
  dsimp only
  cases hn : s.nodes nodeId with
  | some node =>
    simp only
    split
    · exact sleepInv_queueOnNode hn rfl ih
    · next hred =>
      refine sleepInv_enqueue ?_ ih rfl rfl
      show sleepingNode (s.nodes nodeId) = false
      rw [hn]
      exact sleepingNode_false_of_not_redirect (Bool.of_not_eq_true hred)
  | none => exact ih

theorem sleepInv_wakeNode {s : DriverState} (nid : Nat) (ih : SleepInv s) :
    SleepInv (wakeNode s nid) := by
  unfold wakeNode
  cases hn : s.nodes nid with
  | none => exact ih
  | some node =>
    simp only
    cases hw : node.wakeUp with
    | none => exact ih
    | some w =>
      simp only
      constructor
      · intro q2 item hmem
        show sleepingNode (updNodes s.nodes nid _ (itemTarget item)) = false
        simp only [updQueues] at hmem
        by_cases hd : itemTarget item = nid
        · rw [hd, updNodes_self]
          simp [sleepingNode]
        · rw [updNodes_other _ _ hd]
          by_cases hq : q2 = MsgQueue.wakeUp
          · rw [if_pos hq] at hmem
            rcases List.mem_append.mp hmem with h2 | h2
            · exact ih.1 MsgQueue.wakeUp item h2
            · exact absurd (ih.2 nid node w item hn hw h2) hd
          · rw [if_neg hq] at hmem
            exact ih.1 q2 item hmem
      · intro nid2 b w2 item hb hw2 hmem
        dsimp only at hb
        by_cases hd : nid2 = nid
        · subst hd
          rw [updNodes_self] at hb
          injection hb with hb2
          subst hb2
          dsimp only at hw2
          injection hw2 with hw3
          subst hw3
          cases hmem
        · rw [updNodes_other _ _ hd] at hb
          exact ih.2 nid2 b w2 item hb hw2 hmem

theorem queuesSub_updQueues_pop {s : DriverState} {q : MsgQueue}
    {item : MsgQueueItem} {rest : List MsgQueueItem}
    (hq : s.queues q = item :: rest)
    {t : DriverState} (ht : t.queues = updQueues s.queues q rest) : queuesSub s t := by
  intro q2 item2 hmem
  rw [ht] at hmem
  simp only [updQueues] at hmem
  by_cases hd : q2 = q
  · rw [if_pos hd] at hmem
    rw [hd, hq]
    exact List.mem_cons_of_mem _ hmem
  · rw [if_neg hd] at hmem
    exact hmem

theorem sleepInv_writeNextMsg {s : DriverState} (q : MsgQueue) (ih : SleepInv s) :
    SleepInv (WriteNextMsg s q).2 := by
  unfold WriteNextMsg
  cases hq : s.queues q with
  | nil => exact ih
  | cons item rest =>
    have hpop : SleepInv { s with
        queues := updQueues s.queues q rest
        queueEvents := updEvents s.queueEvents q
          (if rest.isEmpty then false else s.queueEvents q) } :=
      sleepInv_of_benign (queuesSub_updQueues_pop hq rfl) (benignNodes_of_eq rfl) ih
    cases item with
    | sendMsg m => exact sleepInv_writeMsg hpop
    | queryStageComplete nodeId stage =>
      simp only
      split
      · next node heq =>
        unfold advanceNodeQueries
        cases heq2 : ((({ s with
            queues := updQueues s.queues q rest
            queueEvents := updEvents s.queueEvents q
              (if rest.isEmpty then false else s.queueEvents q) }
            : DriverState)).nodes nodeId) with
        | none => exact hpop
        | some node2 =>
          simp only
          refine sleepInv_of_benign ?_ ?_ hpop
          · exact queuesSub_of_eq rfl
          · exact benignNodes_of_similar _ nodeId node2
              { node2 with queryStage := nextStage node2.queryStage } heq2 rfl rfl rfl rfl rfl
      · exact hpop

theorem sleepInv_setNodeStage {s : DriverState} (nodeId : Nat) (st : QueryStage)
    (ih : SleepInv s) : SleepInv (setNodeStage s nodeId st) := by
  unfold setNodeStage
  cases hn : s.nodes nodeId with
  | none => exact ih
  | some node =>
    simp only
    refine sleepInv_of_benign ?_ ?_ ih
    · exact queuesSub_of_eq rfl
    · exact benignNodes_of_similar s nodeId node
        { node with queryStage := st } hn rfl rfl rfl rfl rfl

theorem sleepInv_check {s : DriverState} (ih : SleepInv s) :
    SleepInv (CheckCompletedNodeQueries s) := by
  unfold CheckCompletedNodeQueries
  split
  · exact ih
  · dsimp only
    split
    · exact ih
    · split
      · split
        · exact ih
        · exact ih
      · exact ih

/-- One driver-loop event preserves the sleeping invariant. -/
theorem step_sleepInv {s t : DriverState} (hst : Step s t) (ih : SleepInv s) :
    SleepInv t := by
  cases hst with
  | sendMsg m q h => exact sleepInv_sendMsg m q ih
  | sendQSC nodeId stage => exact sleepInv_sendQSC nodeId stage ih
  | dequeue q h => exact sleepInv_writeNextMsg q ih
  | retryTimeout h => exact sleepInv_writeMsg ih
  | read e => exact sleepInv_readMsg e ih
  | checkQueries => exact sleepInv_check ih
  | setStage nodeId st => exact sleepInv_setNodeStage nodeId st ih
  | applyInitNode nodeId => exact sleepInv_initNode nodeId ih
  | moveToWakeUp nodeId => exact sleepInv_move nodeId ih
  | wake nodeId => exact sleepInv_wakeNode nodeId ih

/-- C3: a SendMessage or QueryStageComplete submission whose target exists,
is non-listening, non-frequent-listening, non-controller, and has a WakeUp
command class reporting not-awake is appended to that node's sleeping buffer
and placed on no scheduler queue; and invariant P3 holds at every reachable
quiescent point: no scheduler queue ever holds an item for a sleeping
non-listening target whose cached WakeUp state is not-awake. -/
theorem C3_sleeping_redirection :
    (∀ (s : DriverState) (m : Msg) (q : MsgQueue) (node : CNode) (w : WakeUpCC),
      s.nodes m.targetNodeId = some node → node.listening = false →
      node.frequentListening = false → node.isController = false →
      node.wakeUp = some w → w.awake = false →
      ((SendMsg s m q).queues = s.queues ∧
        (SendMsg s m q).nodes m.targetNodeId = some { node with
          wakeUp := (some { w with
            pending := w.pending ++ [MsgQueueItem.sendMsg (finalize m)] }) })) ∧
    (∀ (s : DriverState) (nodeId : Nat) (stage : QueryStage) (node : CNode) (w : WakeUpCC),
      s.nodes nodeId = some node → node.listening = false →
      node.frequentListening = false → node.isController = false →
      node.wakeUp = some w → w.awake = false →
      ((SendQueryStageComplete s nodeId stage).queues = s.queues ∧
        (SendQueryStageComplete s nodeId stage).nodes nodeId = some { node with
          wakeUp := (some { w with
            pending := w.pending ++ [MsgQueueItem.queryStageComplete nodeId stage] }) })) ∧
    (∀ s0 s : DriverState, SleepInv s0 → Reachable s0 s →
      ∀ (q : MsgQueue) (item : MsgQueueItem), item ∈ s.queues q →
        sleepingNode (s.nodes (itemTarget item)) = false) := by
  refine ⟨?_, ?_, ?_⟩
  · intro s m q node w hn hl hf hc hw ha
    unfold SendMsg
    dsimp only
    rw [show s.nodes (finalize m).targetNodeId = some node from hn]
    simp only
    rw [if_pos (show sleepingRedirect node = true by
      unfold sleepingRedirect
      rw [if_neg (by rw [hl]; exact Bool.false_ne_true), hw]
      dsimp only
      rw [ha]
      rfl)]
    unfold queueOnNode
    rw [hw]
    exact ⟨rfl, updNodes_self _ _ _⟩
  · intro s nodeId stage node w hn hl hf hc hw ha
    unfold SendQueryStageComplete
    dsimp only
    rw [hn]
    simp only
    rw [if_pos (show sleepingRedirect node = true by
      unfold sleepingRedirect
      rw [if_neg (by rw [hl]; exact Bool.false_ne_true), hw]
      dsimp only
      rw [ha]
      rfl)]
    unfold queueOnNode
    rw [hw]
    exact ⟨rfl, updNodes_self _ _ _⟩
  · intro s0 s h0 hre
    have : SleepInv s := by
      induction hre with
      | refl => exact h0
      | tail hseg hstep ih => exact step_sleepInv hstep ih
    exact fun q item hmem => this.1 q item hmem

/-- A sleeping battery node used to witness the redirection claim. -/
def c3Node : CNode :=
  { nodeId := 7, listening := false, frequentListening := false, isController := false
    queryStage := QueryStage.nodeInfo, wakeUp := some { awake := false, pending := [] }
    values := [], nodeWriteCnt := 0 }

/-- A driver state whose table holds only the sleeping node 7. -/
def c3State : DriverState :=
  { initialDriverState with nodes := updNodes initialDriverState.nodes 7 (some c3Node) }

/-- A message bound for the sleeping node 7. -/
def c3Msg : Msg :=
  { targetNodeId := 7, msgType := REQUEST, function := FUNC_ID_ZW_SEND_DATA
    payload := [7, 1, 0x20, 0x02], callbackId := 0x0c
    expectedReply := FUNC_ID_APPLICATION_COMMAND_HANDLER
    expectedCommandClassId := 0x20, sendAttempts := 0, buffer := []
    isWakeUpNoMoreInformation := false }

/-- C3 witness: redirecting `c3Msg` and a QueryStageComplete marker for the
sleeping node 7 buffers both and leaves the queues alone, and the invariant
holds along the concrete trace of both submissions. -/
theorem C3_sleeping_redirection_witness :
    ((SendMsg c3State c3Msg MsgQueue.send).queues = c3State.queues ∧
      (SendMsg c3State c3Msg MsgQueue.send).nodes 7 = some { c3Node with
        wakeUp := (some { awake := false
                          pending := [MsgQueueItem.sendMsg (finalize c3Msg)] }) }) ∧
    (∀ (q : MsgQueue) (item : MsgQueueItem),
      item ∈ (SendMsg c3State c3Msg MsgQueue.send).queues q →
        sleepingNode ((SendMsg c3State c3Msg MsgQueue.send).nodes (itemTarget item))
          = false) := by
  constructor
  · exact C3_sleeping_redirection.1 c3State c3Msg MsgQueue.send c3Node
      { awake := false, pending := [] } rfl rfl rfl rfl rfl rfl
  · apply C3_sleeping_redirection.2.2 c3State (SendMsg c3State c3Msg MsgQueue.send)
    · constructor
      · intro q item hmem
        have : item ∈ ([] : List MsgQueueItem) := hmem
        cases this
      · intro nid node w item hb hw hmem
        by_cases hd : nid = 7
        · subst hd
          rw [show c3State.nodes 7 = some c3Node from rfl] at hb
          injection hb with hb2
          subst hb2
          injection hw with hw2
          subst hw2
          cases hmem
        · rw [show c3State.nodes nid = updNodes initialDriverState.nodes 7
              (some c3Node) nid from rfl, updNodes_other _ _ hd] at hb
          cases hb
    · exact Relation.ReflTransGen.single (Step.sendMsg c3Msg MsgQueue.send rfl)

/-! ### Claim C4 -/

theorem writes_queueNotification (s : DriverState) (n : Notification) :
    (QueueNotification s n).writes = s.writes := rfl

theorem writes_move (s : DriverState) (nid : Nat) :
    (MoveMessagesToWakeUpQueue s nid).2.writes = s.writes := by
  unfold MoveMessagesToWakeUpQueue
  cases s.nodes nid with
  | none => rfl
  | some node =>
    simp only
    split
    · rfl
    · cases node.wakeUp with
      | none => rfl
      | some w0 =>
        simp only
        split <;> rfl

theorem writes_initNode (s : DriverState) (nid : Nat) :
    (InitNode s nid).writes = s.writes := by
  unfold InitNode
  cases s.nodes nid <;> rfl

theorem writes_readConfig (s : DriverState) : (ReadConfig s).2.writes = s.writes := by
  unfold ReadConfig
  cases s.configDoc with
  | none => rfl
  | some doc =>
    simp only
    cases doc.version with
    | none => rfl
    | some v =>
      simp only
      split
      · rfl
      · cases doc.homeIdAttr with
        | none => rfl
        | some h =>
          simp only
          split
          · rfl
          · cases doc.nodeIdAttr with
            | none => rfl
            | some nid =>
              simp only
              split
              · rfl
              · have hfold : ∀ (l : List XmlNodeElem) (t : DriverState),
                    (l.foldl readConfigNode t).writes = t.writes := by
                  intro l
                  induction l with
                  | nil => intro t; rfl
                  | cons el tl ihl =>
                    intro t
                    rw [List.foldl_cons, ihl]
                    unfold readConfigNode
                    split
                    · split <;> rfl
                    · rfl
                rw [hfold]
                split <;> split <;> split <;> rfl

theorem writes_initDataBitStep (data : List Nat) (i j : Nat) (s : DriverState) :
    (initDataBitStep data i j s).writes = s.writes := by
  unfold initDataBitStep
  dsimp only
  split
  · split
    · rfl
    · split
      · split <;> rfl
      · rw [writes_initNode]
        rfl
  · split <;> rfl

theorem writes_handleInitData (s : DriverState) (data : List Nat) :
    (HandleSerialAPIGetInitDataResponse s data).writes = s.writes := by
  unfold HandleSerialAPIGetInitDataResponse
  have h1 : (initDataFirstLoad s).writes = s.writes := by
    unfold initDataFirstLoad
    split
    · rw [writes_readConfig]; rfl
    · rfl
  show (initDataReconcile data _).writes = s.writes
  unfold initDataReconcile
  split
  · have hfold : ∀ (l : List Nat) (t : DriverState),
        ((l.foldl (fun t2 i => (List.range 8).foldl
          (fun t3 j => initDataBitStep data i j t3) t2) t)).writes = t.writes := by
      intro l
      induction l with
      | nil => intro t; rfl
      | cons i tl ihl =>
        intro t
        rw [List.foldl_cons, ihl]
        have hfold8 : ∀ (l8 : List Nat) (u : DriverState),
            ((l8.foldl (fun t3 j => initDataBitStep data i j t3) u)).writes = u.writes := by
          intro l8
          induction l8 with
          | nil => intro u; rfl
          | cons j tl8 ihl8 =>
            intro u
            rw [List.foldl_cons, ihl8, writes_initDataBitStep]
        rw [hfold8]
    rw [hfold]
    exact h1
  · exact h1

theorem writes_handleSendDataRequest (s : DriverState) (data : List Nat) (rep : Bool) :
    (HandleSendDataRequest s data rep).writes = s.writes := by
  unfold HandleSendDataRequest
  split
  · rfl
  · split
    · rfl
    · split
      · cases s.currentMsg with
        | none => rfl
        | some m =>
          simp only
          split
          · exact writes_move s m.targetNodeId
          · rfl
      · split <;> rfl

theorem writes_handleAppUpdate (s : DriverState) (data : List Nat) :
    (HandleApplicationUpdateRequest s data).2.writes = s.writes := by
  unfold HandleApplicationUpdateRequest
  have hcore : (handleAppUpdateCore s data).2.writes = s.writes := by
    unfold handleAppUpdateCore
    split
    · rfl
    · split
      · exact writes_initNode s _
      · split
        · cases s.currentMsg with
          | none => rfl
          | some m =>
            simp only
            cases s.nodes m.targetNodeId with
            | none => rfl
            | some node => exact writes_move s m.targetNodeId
        · rfl
  split
  · exact hcore
  · exact hcore

theorem writes_genericClearCallback (s : DriverState) (data : List Nat) :
    (genericClearCallback s data).writes = s.writes := by
  unfold genericClearCallback
  split <;> rfl

theorem writes_genericClearReply (s : DriverState) (data : List Nat) :
    (genericClearReply s data).writes = s.writes := by
  unfold genericClearReply
  split
  · split
    · split <;> rfl
    · rfl
  · rfl

theorem writes_genericClose (s : DriverState) :
    (genericClose s).writes = s.writes := by
  unfold genericClose
  split
  · split <;> rfl
  · rfl

theorem writes_processMsgGeneric (s : DriverState) (data : List Nat) :
    (processMsgGeneric s data).writes = s.writes := by
  unfold processMsgGeneric
  split
  · rw [writes_genericClose, writes_genericClearReply, writes_genericClearCallback]
  · rfl

theorem writes_processMsg (s : DriverState) (data : List Nat) :
    (ProcessMsg s data).writes = s.writes := by
  unfold ProcessMsg
  split
  · split
    · rw [writes_processMsgGeneric, writes_handleInitData]
    · split
      · rfl
      · split
        · rfl
        · split
          · rw [writes_processMsgGeneric]
            split <;> rfl
          · rw [writes_processMsgGeneric]
  · split
    · split
      · rw [writes_processMsgGeneric, writes_handleSendDataRequest]
      · split
        · rw [writes_processMsgGeneric, writes_handleSendDataRequest]
        · split
          · split
            · rw [writes_handleAppUpdate]
            · rw [writes_processMsgGeneric, writes_handleAppUpdate]
          · rw [writes_processMsgGeneric]
    · rw [writes_processMsgGeneric]

/-- C4: for every fully received SOF frame (length byte followed by `front`
and the trailing byte `ck`), the driver accepts the frame exactly when `ck`
equals 0xff xor the length byte xor every byte of `front` (type, function
and payload).  On a match it writes exactly one ACK, counts the read and
dispatches the payload to ProcessMsg; on a mismatch it writes exactly one
NAK, increments badChecksum by exactly one, and changes nothing else — in
particular it dispatches nothing and emits no notification. -/
theorem C4_frame_checksum (s : DriverState) (front : List Nat) (ck : Nat) :
    (ck = xorChecksum ((front.length + 1) :: front) →
      (ReadMsg s (ReadEvent.sofFrame (front ++ [ck]))
          = ProcessMsg { s with
              sofCnt := s.sofCnt + 1
              ackWaitingCnt :=
                if s.waitingForAck then s.ackWaitingCnt + 1 else s.ackWaitingCnt
              writes := s.writes ++ [[ACK]]
              readCnt := s.readCnt + 1 } (front ++ [ck]) ∧
        (ReadMsg s (ReadEvent.sofFrame (front ++ [ck]))).writes
          = s.writes ++ [[ACK]])) ∧
    (ck ≠ xorChecksum ((front.length + 1) :: front) →
      (ReadMsg s (ReadEvent.sofFrame (front ++ [ck]))
          = { s with
              sofCnt := s.sofCnt + 1
              ackWaitingCnt :=
                if s.waitingForAck then s.ackWaitingCnt + 1 else s.ackWaitingCnt
              badChecksum := s.badChecksum + 1
              writes := s.writes ++ [[NAK]] } ∧
        (ReadMsg s (ReadEvent.sofFrame (front ++ [ck]))).badChecksum
          = s.badChecksum + 1 ∧
        (ReadMsg s (ReadEvent.sofFrame (front ++ [ck]))).notifications
          = s.notifications)) := by
  have hlen : (front ++ [ck]).length = front.length + 1 := by simp
  have hdrop : (front ++ [ck]).dropLast = front := by simp
  have hlast : (front ++ [ck]).getLast? = some ck := List.getLast?_concat _
  constructor
  · intro hck
    have heq : ReadMsg s (ReadEvent.sofFrame (front ++ [ck]))
        = ProcessMsg { s with
            sofCnt := s.sofCnt + 1
            ackWaitingCnt :=
              if s.waitingForAck then s.ackWaitingCnt + 1 else s.ackWaitingCnt
            writes := s.writes ++ [[ACK]]
            readCnt := s.readCnt + 1 } (front ++ [ck]) := by
      unfold ReadMsg
      dsimp only
      rw [hlen, hdrop, hlast, if_pos (by rw [hck])]
      by_cases hw : s.waitingForAck
      · rw [if_pos hw, if_pos hw]
      · rw [if_neg hw, if_neg hw]
    refine ⟨heq, ?_⟩
    rw [heq, writes_processMsg]
  · intro hck
    have heq : ReadMsg s (ReadEvent.sofFrame (front ++ [ck]))
        = { s with
            sofCnt := s.sofCnt + 1
            ackWaitingCnt :=
              if s.waitingForAck then s.ackWaitingCnt + 1 else s.ackWaitingCnt
            badChecksum := s.badChecksum + 1
            writes := s.writes ++ [[NAK]] } := by
      unfold ReadMsg
      dsimp only
      rw [hlen, hdrop, hlast, if_neg (by
        intro hx
        exact hck (Option.some.inj hx))]
      by_cases hw : s.waitingForAck
      · rw [if_pos hw, if_pos hw]
      · rw [if_neg hw, if_neg hw]
    refine ⟨heq, ?_, ?_⟩ <;> rw [heq]

/-- C4 witness: the theorem applied to the GET_VERSION response-style frame
`01 03 00 15 E9` (whose checksum matches) and to the corrupted frame
`01 03 00 15 00`. -/
theorem C4_frame_checksum_witness :
    (0xE9 = xorChecksum (([0x00, 0x15].length + 1) :: [0x00, 0x15]) ∧
      (ReadMsg initialDriverState (ReadEvent.sofFrame ([0x00, 0x15] ++ [0xE9]))).writes
        = initialDriverState.writes ++ [[ACK]]) ∧
    ((0 : Nat) ≠ xorChecksum (([0x00, 0x15].length + 1) :: [0x00, 0x15]) ∧
      (ReadMsg initialDriverState (ReadEvent.sofFrame ([0x00, 0x15] ++ [0]))).badChecksum
        = initialDriverState.badChecksum + 1 ∧
      (ReadMsg initialDriverState (ReadEvent.sofFrame ([0x00, 0x15] ++ [0]))).notifications
        = initialDriverState.notifications) := by
  constructor
  · exact ⟨by decide,
      ((C4_frame_checksum initialDriverState [0x00, 0x15] 0xE9).1 (by decide)).2⟩
  · refine ⟨by decide, ?_, ?_⟩
    · exact ((C4_frame_checksum initialDriverState [0x00, 0x15] 0).2 (by decide)).2.1
    · exact ((C4_frame_checksum initialDriverState [0x00, 0x15] 0).2 (by decide)).2.2

/-! ### Claim C5 -/

theorem processMsgGeneric_noop {s : DriverState} (data : List Nat)
    (h1 : s.expectedCallbackId = 0) (h2 : s.expectedReply = 0) :
    processMsgGeneric s data = s := by
  unfold processMsgGeneric
  rw [if_neg (by
    intro h
    rcases h with h | h
    · exact h h1
    · exact h h2)]

/-- A sleeping-capable node 7 whose WakeUp class currently reports awake. -/
def c5Node : CNode :=
  { nodeId := 7, listening := false, frequentListening := false, isController := false
    queryStage := QueryStage.dynamic, wakeUp := some { awake := true, pending := [] }
    values := [], nodeWriteCnt := 0 }

/-- The message in flight to node 7 when its SEND_DATA callback reports
NO_ACK: callback id 9, expecting an application-command reply. -/
def c5Msg : Msg :=
  { targetNodeId := 7, msgType := REQUEST, function := FUNC_ID_ZW_SEND_DATA
    payload := [7, 1, 0x20, 0x02], callbackId := 9
    expectedReply := FUNC_ID_APPLICATION_COMMAND_HANDLER
    expectedCommandClassId := 0x20, sendAttempts := 1, buffer := [1, 2, 3]
    isWakeUpNoMoreInformation := false }

/-- A driver state with `c5Msg` armed towards the sleep-capable node 7. -/
def c5State : DriverState :=
  { initialDriverState with
      nodes := updNodes initialDriverState.nodes 7 (some c5Node)
      currentMsg := some c5Msg
      waitingForAck := false
      expectedCallbackId := 9
      expectedReply := FUNC_ID_APPLICATION_COMMAND_HANDLER
      expectedCommandClassId := 0x20
      expectedNodeId := 7 }

/-- The REPLICATION_SEND_DATA callback frame with matching id and NO_ACK. -/
def c5RepData : List Nat :=
  [REQUEST, FUNC_ID_ZW_REPLICATION_SEND_DATA, 9, TRANSMIT_COMPLETE_NO_ACK]

/-- C5, counterexample: for a REPLICATION_SEND_DATA callback with matching
id and the NO_ACK bit, the driver does NOT attempt the sleeping-node move:
the `!_replication` guard (Driver.cpp:2234) skips it, so node 7's WakeUp
state (which the move would have marked asleep, as the successful move shows)
is completely untouched. -/
theorem C5_counterexample :
    (MoveMessagesToWakeUpQueue c5State 7).1 = true ∧
    (MoveMessagesToWakeUpQueue c5State 7).2.nodes 7 ≠ c5State.nodes 7 ∧
    (ProcessMsg c5State c5RepData).nodes 7 = c5State.nodes 7 := by
  refine ⟨by decide, by decide, by decide⟩

/-- C5, amended: for a SEND_DATA or REPLICATION_SEND_DATA callback frame
whose id matches the expectation, a set NO_ROUTE bit drops the current
message and clears the transaction state; and for a plain (non-replication)
SEND_DATA callback with NO_ACK set (and NO_ROUTE clear) while a current
message is in flight to a sleeping-capable target, the driver performs
MoveMessagesToWakeUpQueue: the target is marked asleep, its sleeping buffer
receives the pending traffic, every queue keeps only the items not bound for
it, and the transaction state is cleared (so no retry of the moved message
can happen).  REPLICATION_SEND_DATA callbacks skip the redirection. -/
theorem C5_send_data_callback (s : DriverState) (data : List Nat)
    (hd0 : data.getD 0 0 = REQUEST)
    (hd2 : data.getD 2 0 = s.expectedCallbackId) :
    ((data.getD 1 0 = FUNC_ID_ZW_SEND_DATA ∨
        data.getD 1 0 = FUNC_ID_ZW_REPLICATION_SEND_DATA) →
      data.getD 3 0 &&& TRANSMIT_COMPLETE_NOROUTE ≠ 0 →
      ((ProcessMsg s data).currentMsg = none ∧
        (ProcessMsg s data).expectedCallbackId = 0 ∧
        (ProcessMsg s data).expectedReply = 0 ∧
        (ProcessMsg s data).waitingForAck = false)) ∧
    (∀ (m : Msg) (node : CNode) (w : WakeUpCC),
      data.getD 1 0 = FUNC_ID_ZW_SEND_DATA →
      data.getD 3 0 &&& TRANSMIT_COMPLETE_NOROUTE = 0 →
      data.getD 3 0 &&& TRANSMIT_COMPLETE_NO_ACK ≠ 0 →
      s.currentMsg = some m →
      s.nodes m.targetNodeId = some node →
      node.listening = false → node.frequentListening = false →
      node.isController = false → node.wakeUp = some w →
      ((ProcessMsg s data).nodes m.targetNodeId
          = some { node with wakeUp := (some (moveNewWakeUp s m.targetNodeId w)) } ∧
        (moveNewWakeUp s m.targetNodeId w).awake = false ∧
        (ProcessMsg s data).currentMsg = none ∧
        (ProcessMsg s data).expectedCallbackId = 0 ∧
        (ProcessMsg s data).expectedReply = 0 ∧
        (ProcessMsg s data).waitingForAck = false ∧
        (ProcessMsg s data).queues
          = fun q => (splitQueueForSleep m.targetNodeId (s.queues q)).1)) := by
  constructor
  · intro hfn hbit
    have hsdr : ∀ rep : Bool, HandleSendDataRequest s data rep = RemoveCurrentMsg s := by
      intro rep
      unfold HandleSendDataRequest
      rw [if_neg (by rw [hd2]; exact fun h => h rfl), if_pos (by simpa using hbit)]
    rcases hfn with hfn | hfn
    · unfold ProcessMsg
      rw [if_neg (by rw [hd0]; decide), if_pos hd0, if_pos hfn, hsdr false,
        processMsgGeneric_noop data rfl rfl]
      exact ⟨rfl, rfl, rfl, rfl⟩
    · unfold ProcessMsg
      rw [if_neg (by rw [hd0]; decide), if_pos hd0,
        if_neg (by rw [hfn]; decide), if_pos hfn, hsdr true,
        processMsgGeneric_noop data rfl rfl]
      exact ⟨rfl, rfl, rfl, rfl⟩
  · intro m node w hfn hnoroute hnoack hm hn hl hf hc hw
    have hmove : (MoveMessagesToWakeUpQueue s m.targetNodeId).2
        = { moveQueuesApply s m.targetNodeId node w with
            currentMsg := none
            expectedCallbackId := 0
            expectedCommandClassId := 0
            expectedNodeId := 0
            expectedReply := 0
            waitingForAck := false } := by
      unfold MoveMessagesToWakeUpQueue
      rw [hn]
      simp only
      rw [if_neg (by rw [hl, hf, hc]; decide), hw]
      simp only
      rw [if_pos (by unfold moveClearCur; rw [hm]; simp)]
    have hhsdr : HandleSendDataRequest s data false
        = { moveQueuesApply s m.targetNodeId node w with
            currentMsg := none
            expectedCallbackId := 0
            expectedCommandClassId := 0
            expectedNodeId := 0
            expectedReply := 0
            waitingForAck := false } := by
      unfold HandleSendDataRequest
      rw [if_neg (by rw [hd2]; exact fun h => h rfl),
        if_neg (by simpa using hnoroute),
        if_pos (by simpa using hnoack), hm]
      dsimp only
      exact hmove
    have hp : ProcessMsg s data
        = { moveQueuesApply s m.targetNodeId node w with
            currentMsg := none
            expectedCallbackId := 0
            expectedCommandClassId := 0
            expectedNodeId := 0
            expectedReply := 0
            waitingForAck := false } := by
      unfold ProcessMsg
      rw [if_neg (by rw [hd0]; decide), if_pos hd0, if_pos hfn, hhsdr,
        processMsgGeneric_noop data rfl rfl]
    rw [hp]
    refine ⟨?_, rfl, rfl, rfl, rfl, rfl, rfl⟩
    show (moveQueuesApply s m.targetNodeId node w).nodes m.targetNodeId = _
    exact updNodes_self _ _ _

/-- Witness for C5: the amended theorem instantiated at the concrete armed
state `c5State`, once for a SEND_DATA callback reporting NO_ROUTE (the
message is dropped and the transaction cleared) and once for one reporting
NO_ACK (node 7 is marked asleep and the transaction cleared). -/
theorem C5_send_data_callback_witness :
    ((ProcessMsg c5State [REQUEST, FUNC_ID_ZW_SEND_DATA, 9, TRANSMIT_COMPLETE_NOROUTE]).currentMsg
        = none ∧
      (ProcessMsg c5State
          [REQUEST, FUNC_ID_ZW_SEND_DATA, 9, TRANSMIT_COMPLETE_NOROUTE]).expectedCallbackId
        = 0 ∧
      (ProcessMsg c5State [REQUEST, FUNC_ID_ZW_SEND_DATA, 9, TRANSMIT_COMPLETE_NOROUTE]).waitingForAck
        = false) ∧
    ((ProcessMsg c5State [REQUEST, FUNC_ID_ZW_SEND_DATA, 9, TRANSMIT_COMPLETE_NO_ACK]).nodes
          c5Msg.targetNodeId
        = some { c5Node with
            wakeUp := (some (moveNewWakeUp c5State c5Msg.targetNodeId
              { awake := true, pending := [] })) } ∧
      (moveNewWakeUp c5State c5Msg.targetNodeId { awake := true, pending := [] }).awake = false ∧
      (ProcessMsg c5State [REQUEST, FUNC_ID_ZW_SEND_DATA, 9, TRANSMIT_COMPLETE_NO_ACK]).currentMsg
        = none) := by
  constructor
  · have h := (C5_send_data_callback c5State
      [REQUEST, FUNC_ID_ZW_SEND_DATA, 9, TRANSMIT_COMPLETE_NOROUTE] rfl rfl).1
      (Or.inl rfl) (by decide)
    exact ⟨h.1, h.2.1, h.2.2.2⟩
  · have h := (C5_send_data_callback c5State
      [REQUEST, FUNC_ID_ZW_SEND_DATA, 9, TRANSMIT_COMPLETE_NO_ACK] rfl rfl).2
      c5Msg c5Node { awake := true, pending := [] } rfl (by decide) (by decide)
      rfl rfl rfl rfl rfl rfl
    exact ⟨h.1, h.2.1, h.2.2.1⟩

/-! ### Claim C6 -/

/-- Number of notifications of the given type emitted so far. -/
def countNote (t : NotificationType) (s : DriverState) : Nat :=
  (s.notifications.filter (fun n => n.ntype == t)).length

/-- The query-completion latches agree between `s` and `t` and `t` only
appended notifications of other types than AllNodesQueried and
AwakeNodesQueried.  Every driver operation except
CheckCompletedNodeQueries relates its input to its output this way. -/
def queriedIntact (s t : DriverState) : Prop :=
  t.allNodesQueried = s.allNodesQueried ∧
  t.awakeNodesQueried = s.awakeNodesQueried ∧
  ∃ l, t.notifications = s.notifications ++ l ∧
    ∀ n ∈ l, n.ntype ≠ NotificationType.allNodesQueried ∧
      n.ntype ≠ NotificationType.awakeNodesQueried

theorem queriedIntact_refl (s : DriverState) : queriedIntact s s :=
  ⟨rfl, rfl, [], (List.append_nil _).symm, fun n hn => absurd hn (List.not_mem_nil n)⟩

theorem queriedIntact_trans {s t u : DriverState} (hst : queriedIntact s t)
    (htu : queriedIntact t u) : queriedIntact s u := by
  obtain ⟨a1, b1, l1, e1, ben1⟩ := hst
  obtain ⟨a2, b2, l2, e2, ben2⟩ := htu
  refine ⟨a2.trans a1, b2.trans b1, l1 ++ l2, ?_, ?_⟩
  · rw [e2, e1, List.append_assoc]
  · intro x hx
    rcases List.mem_append.mp hx with hx | hx
    · exact ben1 x hx
    · exact ben2 x hx

/-- Forward congruence: a state with the same latches and notification log
as `t` stays intact from `s`. -/
theorem queriedIntact_eqs {s t u : DriverState}
    (h1 : u.allNodesQueried = t.allNodesQueried)
    (h2 : u.awakeNodesQueried = t.awakeNodesQueried)
    (h3 : u.notifications = t.notifications)
    (h : queriedIntact s t) : queriedIntact s u := by
  obtain ⟨ha, hb, l, hl, hben⟩ := h
  exact ⟨h1.trans ha, h2.trans hb, l, h3.trans hl, hben⟩

theorem queriedIntact_of_eqs {s t : DriverState}
    (h1 : t.allNodesQueried = s.allNodesQueried)
    (h2 : t.awakeNodesQueried = s.awakeNodesQueried)
    (h3 : t.notifications = s.notifications) : queriedIntact s t :=
  queriedIntact_eqs h1 h2 h3 (queriedIntact_refl s)

/-- Queueing a notification of any other type keeps the relation. -/
theorem queriedIntact_queue {s t : DriverState} (n : Notification)
    (h1 : n.ntype ≠ NotificationType.allNodesQueried)
    (h2 : n.ntype ≠ NotificationType.awakeNodesQueried)
    (h : queriedIntact s t) : queriedIntact s (QueueNotification t n) := by
  obtain ⟨ha, hb, l, hl, hben⟩ := h
  refine ⟨ha, hb, l ++ [n], ?_, ?_⟩
  · show t.notifications ++ [n] = s.notifications ++ (l ++ [n])
    rw [hl, List.append_assoc]
  · intro x hx
    rcases List.mem_append.mp hx with hx | hx
    · exact hben x hx
    · rw [List.mem_singleton.mp hx]
      exact ⟨h1, h2⟩

theorem countNote_of_intact {s t : DriverState} (h : queriedIntact s t) :
    countNote NotificationType.allNodesQueried t
        = countNote NotificationType.allNodesQueried s ∧
    countNote NotificationType.awakeNodesQueried t
        = countNote NotificationType.awakeNodesQueried s := by
  obtain ⟨-, -, l, hl, hben⟩ := h
  have hall : (List.filter (fun n => n.ntype == NotificationType.allNodesQueried) l).length
      = 0 := by
    rw [List.length_eq_zero, List.filter_eq_nil_iff]
    intro a ha hb
    exact (hben a ha).1 (by simpa using hb)
  have hawake : (List.filter (fun n => n.ntype == NotificationType.awakeNodesQueried) l).length
      = 0 := by
    rw [List.length_eq_zero, List.filter_eq_nil_iff]
    intro a ha hb
    exact (hben a ha).2 (by simpa using hb)
  constructor
  · unfold countNote
    rw [hl, List.filter_append, List.length_append, hall, Nat.add_zero]
  · unfold countNote
    rw [hl, List.filter_append, List.length_append, hawake, Nat.add_zero]

/-- Appending one notification raises the matching count by one and leaves
the other counts alone. -/
theorem countNote_queue (t : NotificationType) (s : DriverState) (n : Notification) :
    countNote t (QueueNotification s n)
      = countNote t s + (if n.ntype = t then 1 else 0) := by
  unfold countNote QueueNotification
  simp only [List.filter_append, List.length_append, List.filter_singleton]
  cases hb : n.ntype == t with
  | true =>
    rw [if_pos (by simpa using hb)]
    simp
  | false =>
    rw [if_neg (by simpa using hb)]
    simp

theorem notes_removeCurrentMsg (s : DriverState) :
    queriedIntact s (RemoveCurrentMsg s) :=
  queriedIntact_of_eqs rfl rfl rfl

theorem notes_queueOnNode (s : DriverState) (nid : Nat) (node : CNode)
    (item : MsgQueueItem) : queriedIntact s (queueOnNode s nid node item) := by
  unfold queueOnNode
  cases node.wakeUp <;> exact queriedIntact_of_eqs rfl rfl rfl

theorem notes_sendMsg (s : DriverState) (m : Msg) (q : MsgQueue) :
    queriedIntact s (SendMsg s m q) := by
  unfold SendMsg
  dsimp only
  split
  · split
    · exact notes_queueOnNode s _ _ _
    · exact queriedIntact_of_eqs rfl rfl rfl
  · exact queriedIntact_of_eqs rfl rfl rfl

theorem notes_sendQSC (s : DriverState) (nodeId : Nat) (stage : QueryStage) :
    queriedIntact s (SendQueryStageComplete s nodeId stage) := by
  unfold SendQueryStageComplete
  dsimp only
  split
  · split
    · exact notes_queueOnNode s _ _ _
    · exact queriedIntact_of_eqs rfl rfl rfl
  · exact queriedIntact_refl s

theorem notes_writeMsg (s : DriverState) : queriedIntact s (WriteMsg s).2 := by
  unfold WriteMsg
  cases hm : s.currentMsg with
  | none => exact queriedIntact_refl s
  | some msg =>
    simp only
    split
    · exact queriedIntact_of_eqs rfl rfl rfl
    · split
      · exact queriedIntact_of_eqs rfl rfl rfl
      · split
        · exact queriedIntact_of_eqs rfl rfl rfl
        · exact queriedIntact_of_eqs rfl rfl rfl

theorem notes_advanceNodeQueries (s : DriverState) (nodeId : Nat) :
    queriedIntact s (advanceNodeQueries s nodeId) := by
  unfold advanceNodeQueries
  cases s.nodes nodeId <;> exact queriedIntact_of_eqs rfl rfl rfl

theorem notes_writeNextMsg (s : DriverState) (q : MsgQueue) :
    queriedIntact s (WriteNextMsg s q).2 := by
  unfold WriteNextMsg
  cases hq : s.queues q with
  | nil => exact queriedIntact_refl s
  | cons item rest =>
    have hpop : queriedIntact s { s with
        queues := updQueues s.queues q rest
        queueEvents := updEvents s.queueEvents q
          (if rest.isEmpty then false else s.queueEvents q) } :=
      queriedIntact_of_eqs rfl rfl rfl
    cases item with
    | sendMsg m =>
      exact queriedIntact_trans (queriedIntact_eqs rfl rfl rfl hpop) (notes_writeMsg _)
    | queryStageComplete nodeId stage =>
      simp only
      split
      · exact queriedIntact_trans hpop (notes_advanceNodeQueries _ nodeId)
      · exact queriedIntact_eqs rfl rfl rfl hpop

theorem notes_moveQueuesApply (s : DriverState) (nid : Nat) (node : CNode)
    (w0 : WakeUpCC) : queriedIntact s (moveQueuesApply s nid node w0) :=
  queriedIntact_of_eqs rfl rfl rfl

theorem notes_move (s : DriverState) (nid : Nat) :
    queriedIntact s (MoveMessagesToWakeUpQueue s nid).2 := by
  unfold MoveMessagesToWakeUpQueue
  cases s.nodes nid with
  | none => exact queriedIntact_refl s
  | some node =>
    simp only
    split
    · exact queriedIntact_refl s
    · cases node.wakeUp with
      | none => exact queriedIntact_refl s
      | some w0 =>
        simp only
        split
        · exact queriedIntact_of_eqs rfl rfl rfl
        · exact queriedIntact_of_eqs rfl rfl rfl

theorem notes_initNode (s : DriverState) (nid : Nat) :
    queriedIntact s (InitNode s nid) := by
  unfold InitNode
  dsimp only
  cases s.nodes nid with
  | some node =>
    refine queriedIntact_queue _ ?_ ?_ ?_
    · exact fun h => nomatch h
    · exact fun h => nomatch h
    · refine queriedIntact_eqs rfl rfl rfl ?_
      refine queriedIntact_queue _ ?_ ?_ (queriedIntact_refl s)
      · exact fun h => nomatch h
      · exact fun h => nomatch h
  | none =>
    refine queriedIntact_queue _ ?_ ?_ ?_
    · exact fun h => nomatch h
    · exact fun h => nomatch h
    · exact queriedIntact_of_eqs rfl rfl rfl

theorem notes_readConfigNode (s : DriverState) (el : XmlNodeElem) :
    queriedIntact s (readConfigNode s el) := by
  unfold readConfigNode
  split
  · split
    · dsimp only
      refine queriedIntact_queue _ ?_ ?_ ?_
      · exact fun h => nomatch h
      · exact fun h => nomatch h
      · exact queriedIntact_of_eqs rfl rfl rfl
    · exact queriedIntact_refl s
  · exact queriedIntact_refl s

theorem notes_readConfig (s : DriverState) : queriedIntact s (ReadConfig s).2 := by
  unfold ReadConfig
  cases s.configDoc with
  | none => exact queriedIntact_refl s
  | some doc =>
    simp only
    cases doc.version with
    | none => exact queriedIntact_refl s
    | some v =>
      simp only
      split
      · exact queriedIntact_refl s
      · cases doc.homeIdAttr with
        | none => exact queriedIntact_refl s
        | some h =>
          simp only
          split
          · exact queriedIntact_refl s
          · cases doc.nodeIdAttr with
            | none => exact queriedIntact_refl s
            | some nid =>
              simp only
              split
              · exact queriedIntact_refl s
              · apply foldl_preserve readConfigNode (queriedIntact s)
                  (fun s2 el ih2 => queriedIntact_trans ih2 (notes_readConfigNode s2 el))
                split <;> split <;> split <;> exact queriedIntact_of_eqs rfl rfl rfl

theorem notes_initDataBitStep (s : DriverState) (data : List Nat) (i j : Nat) :
    queriedIntact s (initDataBitStep data i j s) := by
  unfold initDataBitStep
  dsimp only
  split
  · split
    · exact queriedIntact_refl s
    · split
      · split
        · exact queriedIntact_of_eqs rfl rfl rfl
        · exact queriedIntact_refl s
      · refine queriedIntact_trans ?_ (notes_initNode _ _)
        refine queriedIntact_queue _ ?_ ?_ (queriedIntact_refl s)
        · exact fun h => nomatch h
        · exact fun h => nomatch h
  · split
    · refine queriedIntact_queue _ ?_ ?_ ?_
      · exact fun h => nomatch h
      · exact fun h => nomatch h
      · exact queriedIntact_of_eqs rfl rfl rfl
    · exact queriedIntact_refl s

theorem notes_initDataFirstLoad (s : DriverState) :
    queriedIntact s (initDataFirstLoad s) := by
  unfold initDataFirstLoad
  split
  · refine queriedIntact_trans ?_ (notes_readConfig _)
    refine queriedIntact_queue _ ?_ ?_ (queriedIntact_refl s)
    · exact fun h => nomatch h
    · exact fun h => nomatch h
  · exact queriedIntact_refl s

theorem notes_initDataReconcile (s : DriverState) (data : List Nat) :
    queriedIntact s (initDataReconcile data s) := by
  unfold initDataReconcile
  split
  · apply foldl_preserve _ (queriedIntact s)
    · intro s2 i ih2
      exact foldl_preserve _ (queriedIntact s)
        (fun s3 j ih3 => queriedIntact_trans ih3 (notes_initDataBitStep s3 data i j)) _ s2 ih2
    · exact queriedIntact_refl s
  · exact queriedIntact_refl s

theorem notes_handleInitData (s : DriverState) (data : List Nat) :
    queriedIntact s (HandleSerialAPIGetInitDataResponse s data) := by
  unfold HandleSerialAPIGetInitDataResponse
  refine queriedIntact_eqs rfl rfl rfl ?_
  refine queriedIntact_trans ?_ (notes_initDataReconcile _ data)
  exact queriedIntact_eqs rfl rfl rfl (notes_initDataFirstLoad s)

theorem notes_handleSendDataRequest (s : DriverState) (data : List Nat) (rep : Bool) :
    queriedIntact s (HandleSendDataRequest s data rep) := by
  unfold HandleSendDataRequest
  split
  · exact queriedIntact_refl s
  · split
    · exact notes_removeCurrentMsg s
    · split
      · cases s.currentMsg with
        | none => exact queriedIntact_refl s
        | some m =>
          simp only
          split
          · exact notes_move s _
          · exact queriedIntact_refl s
      · split
        · exact queriedIntact_refl s
        · exact queriedIntact_of_eqs rfl rfl rfl

theorem notes_handleAppUpdateCore (s : DriverState) (data : List Nat) :
    queriedIntact s (handleAppUpdateCore s data).2 := by
  unfold handleAppUpdateCore
  split
  · dsimp only
    refine queriedIntact_queue _ ?_ ?_ ?_
    · exact fun h => nomatch h
    · exact fun h => nomatch h
    · exact queriedIntact_of_eqs rfl rfl rfl
  · split
    · exact notes_initNode s _
    · split
      · cases s.currentMsg with
        | none => exact queriedIntact_refl s
        | some m =>
          simp only
          cases s.nodes m.targetNodeId with
          | some node => exact notes_move s _
          | none => exact queriedIntact_refl s
      · exact queriedIntact_refl s

theorem notes_handleAppUpdate (s : DriverState) (data : List Nat) :
    queriedIntact s (HandleApplicationUpdateRequest s data).2 := by
  unfold HandleApplicationUpdateRequest
  split
  · exact queriedIntact_eqs rfl rfl rfl (notes_handleAppUpdateCore s data)
  · exact notes_handleAppUpdateCore s data

theorem notes_genericClearCallback (s : DriverState) (data : List Nat) :
    queriedIntact s (genericClearCallback s data) := by
  unfold genericClearCallback
  split
  · exact queriedIntact_of_eqs rfl rfl rfl
  · exact queriedIntact_refl s

theorem notes_genericClearReply (s : DriverState) (data : List Nat) :
    queriedIntact s (genericClearReply s data) := by
  unfold genericClearReply
  split
  · split
    · split
      · exact queriedIntact_of_eqs rfl rfl rfl
      · exact queriedIntact_refl s
    · exact queriedIntact_of_eqs rfl rfl rfl
  · exact queriedIntact_refl s

theorem notes_genericClose (s : DriverState) :
    queriedIntact s (genericClose s) := by
  unfold genericClose
  split
  · split
    · refine queriedIntact_queue _ ?_ ?_ ?_
      · exact fun h => nomatch h
      · exact fun h => nomatch h
      · exact queriedIntact_of_eqs rfl rfl rfl
    · exact queriedIntact_of_eqs rfl rfl rfl
  · exact queriedIntact_refl s

theorem notes_processMsgGeneric (s : DriverState) (data : List Nat) :
    queriedIntact s (processMsgGeneric s data) := by
  unfold processMsgGeneric
  split
  · exact queriedIntact_trans
      (queriedIntact_trans (notes_genericClearCallback s data)
        (notes_genericClearReply _ data))
      (notes_genericClose _)
  · exact queriedIntact_refl s

theorem notes_processMsg (s : DriverState) (data : List Nat) :
    queriedIntact s (ProcessMsg s data) := by
  unfold ProcessMsg
  split
  · split
    · exact queriedIntact_trans (notes_handleInitData s data)
        (notes_processMsgGeneric _ data)
    · split
      · exact queriedIntact_refl s
      · split
        · exact queriedIntact_refl s
        · split
          · refine queriedIntact_trans ?_ (notes_processMsgGeneric _ data)
            split
            · exact queriedIntact_of_eqs rfl rfl rfl
            · exact queriedIntact_refl s
          · exact notes_processMsgGeneric s data
  · split
    · split
      · exact queriedIntact_trans (notes_handleSendDataRequest s data false)
          (notes_processMsgGeneric _ data)
      · split
        · exact queriedIntact_trans (notes_handleSendDataRequest s data true)
            (notes_processMsgGeneric _ data)
        · split
          · split
            · exact notes_handleAppUpdate s data
            · exact queriedIntact_trans (notes_handleAppUpdate s data)
                (notes_processMsgGeneric _ data)
          · exact notes_processMsgGeneric s data
    · exact notes_processMsgGeneric s data

theorem notes_readMsg (s : DriverState) (e : ReadEvent) :
    queriedIntact s (ReadMsg s e) := by
  cases e with
  | sofFrame rest =>
    unfold ReadMsg
    dsimp only
    split
    · refine queriedIntact_trans ?_ (notes_processMsg _ rest)
      split <;> exact queriedIntact_of_eqs rfl rfl rfl
    · split <;> exact queriedIntact_of_eqs rfl rfl rfl
  | sofLengthTimeout =>
    unfold ReadMsg
    dsimp only
    split <;> exact queriedIntact_of_eqs rfl rfl rfl
  | sofBodyTimeout lengthByte =>
    unfold ReadMsg
    dsimp only
    split <;> exact queriedIntact_of_eqs rfl rfl rfl
  | can =>
    exact queriedIntact_trans (queriedIntact_of_eqs rfl rfl rfl) (notes_writeMsg _)
  | nak =>
    exact queriedIntact_trans (queriedIntact_of_eqs rfl rfl rfl) (notes_writeMsg _)
  | ack =>
    unfold ReadMsg
    dsimp only
    split
    · exact queriedIntact_of_eqs rfl rfl rfl
    · exact queriedIntact_of_eqs rfl rfl rfl
  | oof b => exact queriedIntact_of_eqs rfl rfl rfl

theorem notes_setNodeStage (s : DriverState) (nodeId : Nat) (st : QueryStage) :
    queriedIntact s (setNodeStage s nodeId st) := by
  unfold setNodeStage
  cases s.nodes nodeId <;> exact queriedIntact_of_eqs rfl rfl rfl

theorem notes_wakeNode (s : DriverState) (nid : Nat) :
    queriedIntact s (wakeNode s nid) := by
  unfold wakeNode
  cases s.nodes nid with
  | none => exact queriedIntact_refl s
  | some node =>
    simp only
    cases node.wakeUp with
    | none => exact queriedIntact_refl s
    | some w => exact queriedIntact_of_eqs rfl rfl rfl

theorem countAll_checkAllDone (s : DriverState) :
    countNote NotificationType.allNodesQueried (checkAllDone s)
      = countNote NotificationType.allNodesQueried s + 1 := by
  show countNote NotificationType.allNodesQueried (QueueNotification s
    { ntype := NotificationType.allNodesQueried, nHomeId := s.homeId, nNodeId := 0xff }) = _
  rw [countNote_queue, if_pos rfl]

theorem countAwake_checkAllDone (s : DriverState) :
    countNote NotificationType.awakeNodesQueried (checkAllDone s)
      = countNote NotificationType.awakeNodesQueried s := by
  show countNote NotificationType.awakeNodesQueried (QueueNotification s
    { ntype := NotificationType.allNodesQueried, nHomeId := s.homeId, nNodeId := 0xff }) = _
  rw [countNote_queue, if_neg (fun h => nomatch h), Nat.add_zero]

theorem countAll_checkAwakeDone (s : DriverState) :
    countNote NotificationType.allNodesQueried (checkAwakeDone s)
      = countNote NotificationType.allNodesQueried s := by
  show countNote NotificationType.allNodesQueried (QueueNotification s
    { ntype := NotificationType.awakeNodesQueried, nHomeId := s.homeId, nNodeId := 0xff }) = _
  rw [countNote_queue, if_neg (fun h => nomatch h), Nat.add_zero]

theorem countAwake_checkAwakeDone (s : DriverState) :
    countNote NotificationType.awakeNodesQueried (checkAwakeDone s)
      = countNote NotificationType.awakeNodesQueried s + 1 := by
  show countNote NotificationType.awakeNodesQueried (QueueNotification s
    { ntype := NotificationType.awakeNodesQueried, nHomeId := s.homeId, nNodeId := 0xff }) = _
  rw [countNote_queue, if_pos rfl]

/-- The table scan of the `all` flag, read back as a property of the table. -/
theorem scanAll_complete {s : DriverState}
    (hall : ((List.range 256).all (fun i =>
      match s.nodes i with
      | some node => node.queryStage = QueryStage.complete
      | none => true)) = true) :
    ∀ i, i < 256 → ∀ node, s.nodes i = some node →
      node.queryStage = QueryStage.complete := by
  intro i hi node hnode
  have h2 := List.all_eq_true.mp hall i (List.mem_range.mpr hi)
  rw [hnode] at h2
  exact of_decide_eq_true h2

/-- The table scan of the `sleepingOnly` flag, read back as a property. -/
theorem scanSleeping_ok {s : DriverState}
    (hsleep : ((List.range 256).all (fun i =>
      match s.nodes i with
      | some node => node.queryStage = QueryStage.complete || !node.listening
      | none => true)) = true) :
    ∀ i, i < 256 → ∀ node, s.nodes i = some node →
      node.queryStage ≠ QueryStage.complete → node.listening = false := by
  intro i hi node hnode hne
  have h2 := List.all_eq_true.mp hsleep i (List.mem_range.mpr hi)
  rw [hnode] at h2
  dsimp only at h2
  have h3 : node.queryStage = QueryStage.complete ∨ node.listening = false := by
    simpa using h2
  rcases h3 with h3 | h3
  · exact absurd h3 hne
  · exact h3

theorem check_eq_latched {s : DriverState} (hallt : s.allNodesQueried = true) :
    CheckCompletedNodeQueries s = s := by
  unfold CheckCompletedNodeQueries
  rw [hallt, if_pos rfl]

theorem check_eq_all {s : DriverState} (hallf : s.allNodesQueried = false)
    (hall : ((List.range 256).all (fun i =>
      match s.nodes i with
      | some node => node.queryStage = QueryStage.complete
      | none => true)) = true) :
    CheckCompletedNodeQueries s = checkAllDone s := by
  unfold CheckCompletedNodeQueries
  rw [hallf, if_neg (by decide)]
  dsimp only
  rw [if_pos hall]

theorem check_eq_awake {s : DriverState} (hallf : s.allNodesQueried = false)
    (hawakef : s.awakeNodesQueried = false)
    (hall : ((List.range 256).all (fun i =>
      match s.nodes i with
      | some node => node.queryStage = QueryStage.complete
      | none => true)) = false)
    (hsleep : ((List.range 256).all (fun i =>
      match s.nodes i with
      | some node => node.queryStage = QueryStage.complete || !node.listening
      | none => true)) = true) :
    CheckCompletedNodeQueries s = checkAwakeDone s := by
  unfold CheckCompletedNodeQueries
  rw [hallf, if_neg (by decide)]
  dsimp only
  rw [hall, if_neg (by decide), if_pos hsleep, hawakef, if_pos (by decide)]

theorem check_eq_id_noScan {s : DriverState} (hallf : s.allNodesQueried = false)
    (hall : ((List.range 256).all (fun i =>
      match s.nodes i with
      | some node => node.queryStage = QueryStage.complete
      | none => true)) = false)
    (hsleep : ((List.range 256).all (fun i =>
      match s.nodes i with
      | some node => node.queryStage = QueryStage.complete || !node.listening
      | none => true)) = false) :
    CheckCompletedNodeQueries s = s := by
  unfold CheckCompletedNodeQueries
  rw [hallf, if_neg (by decide)]
  dsimp only
  rw [hall, if_neg (by decide), hsleep, if_neg (by decide)]

theorem check_eq_id_awakeLatched {s : DriverState} (hallf : s.allNodesQueried = false)
    (hawaket : s.awakeNodesQueried = true)
    (hall : ((List.range 256).all (fun i =>
      match s.nodes i with
      | some node => node.queryStage = QueryStage.complete
      | none => true)) = false)
    (hsleep : ((List.range 256).all (fun i =>
      match s.nodes i with
      | some node => node.queryStage = QueryStage.complete || !node.listening
      | none => true)) = true) :
    CheckCompletedNodeQueries s = s := by
  unfold CheckCompletedNodeQueries
  rw [hallf, if_neg (by decide)]
  dsimp only
  rw [hall, if_neg (by decide), if_pos hsleep, hawaket, if_neg (by decide)]

/-- CheckCompletedNodeQueries either leaves the state unchanged, or emits
exactly one AllNodesQueried at a point where every table node is complete
(latching both flags), or emits exactly one AwakeNodesQueried at a point
where every incomplete table node is non-listening (latching its flag). -/
theorem check_cases (s : DriverState) :
    CheckCompletedNodeQueries s = s ∨
    ((∀ i, i < 256 → ∀ node, s.nodes i = some node →
        node.queryStage = QueryStage.complete) ∧
      s.allNodesQueried = false ∧
      countNote NotificationType.allNodesQueried (CheckCompletedNodeQueries s)
        = countNote NotificationType.allNodesQueried s + 1 ∧
      countNote NotificationType.awakeNodesQueried (CheckCompletedNodeQueries s)
        = countNote NotificationType.awakeNodesQueried s ∧
      (CheckCompletedNodeQueries s).allNodesQueried = true ∧
      (CheckCompletedNodeQueries s).awakeNodesQueried = true) ∨
    ((∀ i, i < 256 → ∀ node, s.nodes i = some node →
        node.queryStage ≠ QueryStage.complete → node.listening = false) ∧
      s.allNodesQueried = false ∧ s.awakeNodesQueried = false ∧
      countNote NotificationType.allNodesQueried (CheckCompletedNodeQueries s)
        = countNote NotificationType.allNodesQueried s ∧
      countNote NotificationType.awakeNodesQueried (CheckCompletedNodeQueries s)
        = countNote NotificationType.awakeNodesQueried s + 1 ∧
      (CheckCompletedNodeQueries s).allNodesQueried = s.allNodesQueried ∧
      (CheckCompletedNodeQueries s).awakeNodesQueried = true) := by
  cases hall0 : s.allNodesQueried with
  | true => exact Or.inl (check_eq_latched hall0)
  | false =>
    cases hscan : ((List.range 256).all (fun i =>
      match s.nodes i with
      | some node => node.queryStage = QueryStage.complete
      | none => true)) with
    | true =>
      have heq := check_eq_all hall0 hscan
      refine Or.inr (Or.inl ⟨scanAll_complete hscan, rfl, ?_, ?_, ?_, ?_⟩)
      · rw [heq, countAll_checkAllDone]
      · rw [heq, countAwake_checkAllDone]
      · rw [heq]; rfl
      · rw [heq]; rfl
    | false =>
      cases hsleep : ((List.range 256).all (fun i =>
        match s.nodes i with
        | some node => node.queryStage = QueryStage.complete || !node.listening
        | none => true)) with
      | false => exact Or.inl (check_eq_id_noScan hall0 hscan hsleep)
      | true =>
        cases hawake0 : s.awakeNodesQueried with
        | true => exact Or.inl (check_eq_id_awakeLatched hall0 hawake0 hscan hsleep)
        | false =>
          have heq := check_eq_awake hall0 hawake0 hscan hsleep
          refine Or.inr (Or.inr ⟨scanSleeping_ok hsleep, rfl, rfl, ?_, ?_, ?_, ?_⟩)
          · rw [heq, countAll_checkAwakeDone]
          · rw [heq, countAwake_checkAwakeDone]
          · rw [heq]; exact hall0
          · rw [heq]; rfl

/-- The inductive invariant behind C6: each of the two query-completion
notifications was emitted at most once, and cannot have been emitted at all
while its latch is still clear. -/
def QueriedOk (s : DriverState) : Prop :=
  countNote NotificationType.allNodesQueried s ≤ 1 ∧
  countNote NotificationType.awakeNodesQueried s ≤ 1 ∧
  (s.allNodesQueried = false → countNote NotificationType.allNodesQueried s = 0) ∧
  (s.awakeNodesQueried = false → countNote NotificationType.awakeNodesQueried s = 0)

theorem queriedOk_of_intact {s t : DriverState} (h : queriedIntact s t)
    (ih : QueriedOk s) : QueriedOk t := by
  obtain ⟨hc1, hc2⟩ := countNote_of_intact h
  obtain ⟨hf1, hf2, -⟩ := h
  refine ⟨?_, ?_, ?_, ?_⟩
  · rw [hc1]; exact ih.1
  · rw [hc2]; exact ih.2.1
  · intro hf
    rw [hc1]
    rw [hf1] at hf
    exact ih.2.2.1 hf
  · intro hf
    rw [hc2]
    rw [hf2] at hf
    exact ih.2.2.2 hf

theorem queriedOk_check {s : DriverState} (ih : QueriedOk s) :
    QueriedOk (CheckCompletedNodeQueries s) := by
  rcases check_cases s with heq | ⟨-, hallf, hc1, hc2, hf1, hf2⟩
    | ⟨-, hallf, hawakef, hc1, hc2, hf1, hf2⟩
  · rw [heq]; exact ih
  · refine ⟨?_, ?_, ?_, ?_⟩
    · rw [hc1, ih.2.2.1 hallf]
    · rw [hc2]; exact ih.2.1
    · intro hf; rw [hf1] at hf; exact absurd hf (by decide)
    · intro hf; rw [hf2] at hf; exact absurd hf (by decide)
  · refine ⟨?_, ?_, ?_, ?_⟩
    · rw [hc1]; exact ih.1
    · rw [hc2, ih.2.2.2 hawakef]
    · intro hf
      rw [hc1]
      rw [hf1] at hf
      exact ih.2.2.1 hf
    · intro hf; rw [hf2] at hf; exact absurd hf (by decide)

/-- Every driver event except CheckCompletedNodeQueries keeps the two
notifications and their latches intact. -/
theorem step_queriedIntact {s t : DriverState} (hst : Step s t) :
    queriedIntact s t ∨ t = CheckCompletedNodeQueries s := by
  cases hst with
  | sendMsg m q h => exact Or.inl (notes_sendMsg s m q)
  | sendQSC nodeId stage => exact Or.inl (notes_sendQSC s nodeId stage)
  | dequeue q h => exact Or.inl (notes_writeNextMsg s q)
  | retryTimeout h => exact Or.inl (notes_writeMsg s)
  | read e => exact Or.inl (notes_readMsg s e)
  | checkQueries => exact Or.inr rfl
  | setStage nodeId st => exact Or.inl (notes_setNodeStage s nodeId st)
  | applyInitNode nodeId => exact Or.inl (notes_initNode s nodeId)
  | moveToWakeUp nodeId => exact Or.inl (notes_move s nodeId)
  | wake nodeId => exact Or.inl (notes_wakeNode s nodeId)

theorem step_queriedOk {s t : DriverState} (hst : Step s t) (ih : QueriedOk s) :
    QueriedOk t := by
  rcases step_queriedIntact hst with h | h
  · exact queriedOk_of_intact h ih
  · rw [h]; exact queriedOk_check ih

theorem queriedOk_initial : QueriedOk initialDriverState :=
  ⟨by decide, by decide, fun _ => by decide, fun _ => by decide⟩

/-- C6: over every execution from the constructor state, the AllNodesQueried
notification is emitted at most once and the AwakeNodesQueried notification
is emitted at most once (so neither is ever emitted twice); and any event
that emits an AllNodesQueried does so at a point where every node in the
256-entry table has query stage Complete, while any event that emits an
AwakeNodesQueried does so at a point where every table node whose stage is
not Complete is a non-listening device. -/
theorem C6_queried_once :
    (∀ s, Reachable initialDriverState s →
      countNote NotificationType.allNodesQueried s ≤ 1 ∧
      countNote NotificationType.awakeNodesQueried s ≤ 1) ∧
    (∀ s t, Step s t →
      (countNote NotificationType.allNodesQueried s
          < countNote NotificationType.allNodesQueried t →
        ∀ i, i < 256 → ∀ node, s.nodes i = some node →
          node.queryStage = QueryStage.complete) ∧
      (countNote NotificationType.awakeNodesQueried s
          < countNote NotificationType.awakeNodesQueried t →
        ∀ i, i < 256 → ∀ node, s.nodes i = some node →
          node.queryStage ≠ QueryStage.complete → node.listening = false)) := by
  constructor
  · intro s hre
    have h : QueriedOk s := by
      induction hre with
      | refl => exact queriedOk_initial
      | tail hre2 hst ih => exact step_queriedOk hst ih
    exact ⟨h.1, h.2.1⟩
  · intro s t hst
    constructor
    · intro hlt
      rcases step_queriedIntact hst with h | h
      · rw [(countNote_of_intact h).1] at hlt
        exact absurd hlt (lt_irrefl _)
      · subst h
        rcases check_cases s with heq | ⟨hprop, -⟩ | ⟨-, -, -, hc1, -⟩
        · rw [heq] at hlt
          exact absurd hlt (lt_irrefl _)
        · exact hprop
        · rw [hc1] at hlt
          exact absurd hlt (lt_irrefl _)
    · intro hlt
      rcases step_queriedIntact hst with h | h
      · rw [(countNote_of_intact h).2] at hlt
        exact absurd hlt (lt_irrefl _)
      · subst h
        rcases check_cases s with heq | ⟨-, -, -, hc2, -⟩ | ⟨hprop, -⟩
        · rw [heq] at hlt
          exact absurd hlt (lt_irrefl _)
        · rw [hc2] at hlt
          exact absurd hlt (lt_irrefl _)
        · exact hprop

/-- A fully interrogated listening node, giving a table where the
AllNodesQueried scan succeeds. -/
def c6CompleteNode : CNode :=
  { nodeId := 4, listening := true, frequentListening := false, isController := false
    queryStage := QueryStage.complete, wakeUp := none, values := [], nodeWriteCnt := 0 }

/-- A driver state whose only table entry is the complete node 4. -/
def c6State : DriverState :=
  { initialDriverState with
      nodes := updNodes initialDriverState.nodes 4 (some c6CompleteNode) }

set_option maxRecDepth 4096 in
/-- Witness for C6: the bound instantiated at the constructor state, and the
emission condition instantiated at a concrete CheckCompletedNodeQueries
event that does emit AllNodesQueried. -/
theorem C6_queried_once_witness :
    countNote NotificationType.allNodesQueried initialDriverState ≤ 1 ∧
    c6CompleteNode.queryStage = QueryStage.complete := by
  refine ⟨(C6_queried_once.1 initialDriverState Relation.ReflTransGen.refl).1, ?_⟩
  exact (C6_queried_once.2 c6State (CheckCompletedNodeQueries c6State)
    Step.checkQueries).1 (by decide) 4 (by decide) c6CompleteNode (by decide)

/-! ### Claim C7 -/

theorem foldl_preserve_mem {α β : Type} (f : β → α → β) (P : β → Prop) :
    ∀ (l : List α), (∀ a ∈ l, ∀ t, P t → P (f t a)) →
      ∀ (s : β), P s → P (l.foldl f s) := by
  intro l
  induction l with
  | nil => intro _ s h; exact h
  | cons a l2 ihl =>
    intro hf s h
    exact ihl (fun b hb t ht => hf b (List.mem_cons_of_mem a hb) t ht)
      (f s a) (hf a (List.mem_cons_self a l2) s h)

/-- Splitting a fold over `range n` at position `k < n`: first the prefix,
then element `k`, then the shifted suffix. -/
theorem foldl_range_split {β : Type} (f : β → Nat → β) (k : Nat) :
    ∀ (n : Nat), k < n → ∀ (s : β),
      (List.range n).foldl f s
        = ((List.range (n - (k + 1))).map (fun d => k + 1 + d)).foldl f
            (f ((List.range k).foldl f s) k) := by
  intro n
  induction n with
  | zero => intro h s; exact absurd h (Nat.not_lt_zero k)
  | succ n ih =>
    intro h s
    rcases Nat.lt_succ_iff_lt_or_eq.mp h with h2 | h2
    · rw [List.range_succ, List.foldl_append, ih h2 s,
        show n + 1 - (k + 1) = (n - (k + 1)) + 1 from by omega,
        List.range_succ, List.map_append, List.foldl_append]
      simp only [List.map_cons, List.map_nil, List.foldl_cons, List.foldl_nil]
      rw [show k + 1 + (n - (k + 1)) = n from by omega]
    · subst h2
      rw [List.range_succ, List.foldl_append,
        show k + 1 - (k + 1) = 0 from by omega]
      rfl

/-- Frame of the init-data reconciliation walk relative to `base`, at table
slot `nid`: the slot, the virtual-node map, the init flag and the home id are
untouched, and notifications have only been appended. -/
def frameAt (nid : Nat) (base t : DriverState) : Prop :=
  t.nodes nid = base.nodes nid ∧
  t.virtualNeighbors = base.virtualNeighbors ∧
  t.driverInit = base.driverInit ∧
  t.homeId = base.homeId ∧
  ∃ l, t.notifications = base.notifications ++ l

theorem frameAt_refl (nid : Nat) (s : DriverState) : frameAt nid s s :=
  ⟨rfl, rfl, rfl, rfl, [], (List.append_nil _).symm⟩

theorem frameAt_trans {nid : Nat} {s t u : DriverState} (h1 : frameAt nid s t)
    (h2 : frameAt nid t u) : frameAt nid s u := by
  obtain ⟨a1, b1, c1, d1, l1, e1⟩ := h1
  obtain ⟨a2, b2, c2, d2, l2, e2⟩ := h2
  exact ⟨a2.trans a1, b2.trans b1, c2.trans c1, d2.trans d1, l1 ++ l2,
    by rw [e2, e1, List.append_assoc]⟩

/-- The configuration-level fields the snapshot load never touches. -/
def cfgSame (s t : DriverState) : Prop :=
  t.virtualNeighbors = s.virtualNeighbors ∧
  t.driverInit = s.driverInit ∧
  t.homeId = s.homeId

theorem cfgSame_refl (s : DriverState) : cfgSame s s := ⟨rfl, rfl, rfl⟩

theorem cfgSame_trans {s t u : DriverState} (h1 : cfgSame s t) (h2 : cfgSame t u) :
    cfgSame s u :=
  ⟨h2.1.trans h1.1, h2.2.1.trans h1.2.1, h2.2.2.trans h1.2.2⟩

theorem cfgSame_readConfigNode (t : DriverState) (el : XmlNodeElem) :
    cfgSame t (readConfigNode t el) := by
  unfold readConfigNode
  split
  · split
    · exact ⟨rfl, rfl, rfl⟩
    · exact cfgSame_refl t
  · exact cfgSame_refl t

theorem cfgSame_readConfig (s : DriverState) : cfgSame s (ReadConfig s).2 := by
  unfold ReadConfig
  cases s.configDoc with
  | none => exact cfgSame_refl s
  | some doc =>
    simp only
    cases doc.version with
    | none => exact cfgSame_refl s
    | some v =>
      simp only
      split
      · exact cfgSame_refl s
      · cases doc.homeIdAttr with
        | none => exact cfgSame_refl s
        | some h =>
          simp only
          split
          · exact cfgSame_refl s
          · cases doc.nodeIdAttr with
            | none => exact cfgSame_refl s
            | some nid =>
              simp only
              split
              · exact cfgSame_refl s
              · apply foldl_preserve_mem readConfigNode (cfgSame s)
                · intro el _ u hu
                  exact cfgSame_trans hu (cfgSame_readConfigNode u el)
                · split <;> split <;> split <;> exact cfgSame_refl s

theorem cfgSame_firstLoad (s : DriverState) : cfgSame s (initDataFirstLoad s) := by
  unfold initDataFirstLoad
  split
  · exact cfgSame_trans (⟨rfl, rfl, rfl⟩ : cfgSame s (QueueNotification s
      { ntype := NotificationType.driverReady, nHomeId := s.homeId
        nNodeId := s.controllerNodeId })) (cfgSame_readConfig _)
  · exact cfgSame_refl s

theorem isVirtualNode_congr {s t : DriverState}
    (h : t.virtualNeighbors = s.virtualNeighbors) (n : Nat) :
    IsVirtualNode t n = IsVirtualNode s n := by
  unfold IsVirtualNode
  rw [h]

/-- InitNode touches nothing at a different table slot. -/
theorem initNode_frame {nid : Nat} (t : DriverState) (k : Nat) (hne : k ≠ nid) :
    frameAt nid t (InitNode t k) := by
  unfold InitNode
  dsimp only
  cases t.nodes k with
  | some node =>
    refine ⟨?_, rfl, rfl, rfl,
      [{ ntype := NotificationType.nodeRemoved, nHomeId := t.homeId, nNodeId := k },
       { ntype := NotificationType.nodeAdded, nHomeId := t.homeId, nNodeId := k }], ?_⟩
    · exact updNodes_other _ _ (fun h => hne h.symm)
    · show (t.notifications ++ [_]) ++ [_] = t.notifications ++ _
      rw [List.append_assoc]
      rfl
  | none =>
    refine ⟨?_, rfl, rfl, rfl,
      [{ ntype := NotificationType.nodeAdded, nHomeId := t.homeId, nNodeId := k }], rfl⟩
    exact updNodes_other _ _ (fun h => hne h.symm)

/-- A reconciliation bit step for a different node id keeps the frame. -/
theorem bitStep_frame {nid : Nat} (data : List Nat) (i j : Nat) (t : DriverState)
    (hne : i * 8 + j + 1 ≠ nid) :
    frameAt nid t (initDataBitStep data i j t) := by
  unfold initDataBitStep
  dsimp only
  split
  · split
    · exact frameAt_refl nid t
    · split
      · split
        · refine ⟨?_, rfl, rfl, rfl, [], (List.append_nil _).symm⟩
          exact updNodes_other _ _ (fun h => hne h.symm)
        · exact frameAt_refl nid t
      · refine frameAt_trans ?_ (initNode_frame _ _ hne)
        exact ⟨rfl, rfl, rfl, rfl,
          [{ ntype := NotificationType.nodeNew, nHomeId := t.homeId
             nNodeId := i * 8 + j + 1 }], rfl⟩
  · split
    · refine ⟨?_, rfl, rfl, rfl,
        [{ ntype := NotificationType.nodeRemoved, nHomeId := t.homeId
           nNodeId := i * 8 + j + 1 }], rfl⟩
      exact updNodes_other _ _ (fun h => hne h.symm)
    · exact frameAt_refl nid t

/-- One row of the reconciliation walk for a byte holding no bit of `nid`
keeps the frame. -/
theorem row_frame {nid : Nat} (data : List Nat) (i : Nat) (t : DriverState)
    (h : ∀ j2, j2 < 8 → i * 8 + j2 + 1 ≠ nid) :
    frameAt nid t
      ((List.range 8).foldl (fun t2 j2 => initDataBitStep data i j2 t2) t) := by
  apply foldl_preserve_mem _ (frameAt nid t)
  · intro j2 hj2 u hu
    exact frameAt_trans hu (bitStep_frame data i j2 u (h j2 (List.mem_range.mp hj2)))
  · exact frameAt_refl nid t

/-- Effect of the bit step at its own bit: a set bit for an unknown,
non-virtual id emits NodeNew, creates the node via InitNode (which emits
NodeAdded) and starts it at QueryStage_ProtocolInfo. -/
theorem bitStep_new {data : List Nat} {i j : Nat} {t : DriverState}
    (hbit : data.getD (i + 5) 0 &&& (1 <<< j) ≠ 0)
    (hvirt : IsVirtualNode t (i * 8 + j + 1) = false)
    (hnone : t.nodes (i * 8 + j + 1) = none) :
    (initDataBitStep data i j t).nodes (i * 8 + j + 1)
        = some (newNode (i * 8 + j + 1)) ∧
    (initDataBitStep data i j t).notifications
        = t.notifications ++
          [{ ntype := NotificationType.nodeNew, nHomeId := t.homeId
             nNodeId := i * 8 + j + 1 },
           { ntype := NotificationType.nodeAdded, nHomeId := t.homeId
             nNodeId := i * 8 + j + 1 }] := by
  unfold initDataBitStep
  dsimp only
  rw [if_pos (by simpa using hbit), hvirt, if_neg (by decide), hnone]
  dsimp only
  unfold InitNode QueueNotification
  dsimp only
  rw [hnone]
  dsimp only
  refine ⟨updNodes_self _ _ _, ?_⟩
  rw [List.append_assoc]
  rfl

/-- Effect of the bit step at its own bit: a set bit for a known, non-virtual
id on the first response resets the node's stage to Associations. -/
theorem bitStep_known {data : List Nat} {i j : Nat} {t : DriverState} {node : CNode}
    (hbit : data.getD (i + 5) 0 &&& (1 <<< j) ≠ 0)
    (hvirt : IsVirtualNode t (i * 8 + j + 1) = false)
    (hsome : t.nodes (i * 8 + j + 1) = some node)
    (hinit : t.driverInit = false) :
    (initDataBitStep data i j t).nodes (i * 8 + j + 1)
        = some { node with queryStage := QueryStage.associations } ∧
    (initDataBitStep data i j t).notifications = t.notifications := by
  unfold initDataBitStep
  dsimp only
  rw [if_pos (by simpa using hbit), hvirt, if_neg (by decide), hsome]
  dsimp only
  rw [hinit]
  rw [if_pos (by decide)]
  exact ⟨updNodes_self _ _ _, rfl⟩

/-- Effect of the bit step at its own bit: a clear bit for a known id deletes
the node and emits NodeRemoved. -/
theorem bitStep_removed {data : List Nat} {i j : Nat} {t : DriverState} {node : CNode}
    (hbit : data.getD (i + 5) 0 &&& (1 <<< j) = 0)
    (hsome : t.nodes (i * 8 + j + 1) = some node) :
    (initDataBitStep data i j t).nodes (i * 8 + j + 1) = none ∧
    (initDataBitStep data i j t).notifications
        = t.notifications ++
          [{ ntype := NotificationType.nodeRemoved, nHomeId := t.homeId
             nNodeId := i * 8 + j + 1 }] := by
  unfold initDataBitStep
  dsimp only
  rw [if_neg (by simpa using hbit), hsome]
  dsimp only
  exact ⟨updNodes_self _ _ _, rfl⟩

/-- Surgery on the reconciliation walk: processing the full bitmap factors
through an intermediate state `t` which agrees with the start on bit
(i0, j0)'s slot, then the bit step for (i0, j0), after which the slot is
final. -/
theorem reconcile_surgery (data : List Nat) (s1 : DriverState) (i0 j0 : Nat)
    (hi0 : i0 < NUM_NODE_BITFIELD_BYTES) (hj0 : j0 < 8)
    (hlen : data.getD 4 0 = NUM_NODE_BITFIELD_BYTES) :
    ∃ t, frameAt (i0 * 8 + j0 + 1) s1 t ∧
      frameAt (i0 * 8 + j0 + 1) (initDataBitStep data i0 j0 t)
        (initDataReconcile data s1) := by
  have hi0' : i0 < 29 := hi0
  unfold initDataReconcile
  rw [if_pos hlen]
  rw [foldl_range_split _ i0 NUM_NODE_BITFIELD_BYTES hi0]
  rw [foldl_range_split _ j0 8 hj0]
  refine ⟨(List.range j0).foldl (fun t2 j => initDataBitStep data i0 j t2)
      ((List.range i0).foldl
        (fun t i => (List.range 8).foldl (fun t2 j => initDataBitStep data i j t2) t)
        s1), ?_, ?_⟩
  · have h1 : frameAt (i0 * 8 + j0 + 1) s1
        ((List.range i0).foldl
          (fun t i => (List.range 8).foldl (fun t2 j => initDataBitStep data i j t2) t)
          s1) := by
      apply foldl_preserve_mem _ (frameAt (i0 * 8 + j0 + 1) s1)
      · intro i hi u hu
        have hii := List.mem_range.mp hi
        refine frameAt_trans hu (row_frame data i u ?_)
        intro j2 hj2
        omega
      · exact frameAt_refl _ _
    refine frameAt_trans h1 ?_
    apply foldl_preserve_mem _ (frameAt (i0 * 8 + j0 + 1) _)
    · intro j2 hj2 u hu
      have hjj := List.mem_range.mp hj2
      refine frameAt_trans hu (bitStep_frame data i0 j2 u ?_)
      omega
    · exact frameAt_refl _ _
  · have h2 : ∀ u : DriverState, frameAt (i0 * 8 + j0 + 1) u
        (((List.range (8 - (j0 + 1))).map (fun d => j0 + 1 + d)).foldl
          (fun t2 j => initDataBitStep data i0 j t2) u) := by
      intro u
      apply foldl_preserve_mem _ (frameAt (i0 * 8 + j0 + 1) u)
      · intro a ha v hv
        obtain ⟨d, hd, rfl⟩ := List.mem_map.mp ha
        refine frameAt_trans hv (bitStep_frame data i0 (j0 + 1 + d) v ?_)
        omega
      · exact frameAt_refl _ _
    have h3 : ∀ u : DriverState, frameAt (i0 * 8 + j0 + 1) u
        (((List.range (NUM_NODE_BITFIELD_BYTES - (i0 + 1))).map (fun d => i0 + 1 + d)).foldl
          (fun t i => (List.range 8).foldl (fun t2 j => initDataBitStep data i j t2) t)
          u) := by
      intro u
      apply foldl_preserve_mem _ (frameAt (i0 * 8 + j0 + 1) u)
      · intro a ha v hv
        obtain ⟨d, hd, rfl⟩ := List.mem_map.mp ha
        refine frameAt_trans hv (row_frame data (i0 + 1 + d) v ?_)
        intro j2 hj2
        have h8 : (i0 + 1 + d) * 8 = i0 * 8 + 8 + d * 8 := by ring
        omega
      · exact frameAt_refl _ _
    exact frameAt_trans (h2 _) (h3 _)

/-- C7, amended: on the first SERIAL_API_GET_INIT_DATA response whose bitmap
length byte equals 29, for every bit (i0, j0) of the bitmap with node id
i0*8+j0+1: a set bit for a NON-VIRTUAL id not in the snapshot-loaded table
emits NodeNew followed immediately by NodeAdded and creates the node at query
stage ProtocolInfo; a set bit for a non-virtual id already in the table
resets that node's stage to Associations; a clear bit for a known id deletes
the node and emits NodeRemoved.  (The original claim omits the virtual-node
exclusion of Driver.cpp:1917, see `C7_counterexample`.) -/
theorem C7_init_data (s : DriverState) (data : List Nat) (i0 j0 : Nat)
    (hi0 : i0 < NUM_NODE_BITFIELD_BYTES) (hj0 : j0 < 8)
    (hlen : data.getD 4 0 = NUM_NODE_BITFIELD_BYTES)
    (hinit : s.driverInit = false) :
    (data.getD (i0 + 5) 0 &&& (1 <<< j0) ≠ 0 →
      IsVirtualNode s (i0 * 8 + j0 + 1) = false →
      (initDataFirstLoad s).nodes (i0 * 8 + j0 + 1) = none →
      ((HandleSerialAPIGetInitDataResponse s data).nodes (i0 * 8 + j0 + 1)
          = some (newNode (i0 * 8 + j0 + 1)) ∧
        (newNode (i0 * 8 + j0 + 1)).queryStage = QueryStage.protocolInfo ∧
        ∃ pre post, (HandleSerialAPIGetInitDataResponse s data).notifications
          = pre ++
            [{ ntype := NotificationType.nodeNew, nHomeId := s.homeId
               nNodeId := i0 * 8 + j0 + 1 },
             { ntype := NotificationType.nodeAdded, nHomeId := s.homeId
               nNodeId := i0 * 8 + j0 + 1 }] ++ post)) ∧
    (∀ node, data.getD (i0 + 5) 0 &&& (1 <<< j0) ≠ 0 →
      IsVirtualNode s (i0 * 8 + j0 + 1) = false →
      (initDataFirstLoad s).nodes (i0 * 8 + j0 + 1) = some node →
      (HandleSerialAPIGetInitDataResponse s data).nodes (i0 * 8 + j0 + 1)
        = some { node with queryStage := QueryStage.associations }) ∧
    (∀ node, data.getD (i0 + 5) 0 &&& (1 <<< j0) = 0 →
      (initDataFirstLoad s).nodes (i0 * 8 + j0 + 1) = some node →
      ((HandleSerialAPIGetInitDataResponse s data).nodes (i0 * 8 + j0 + 1) = none ∧
        ∃ pre post, (HandleSerialAPIGetInitDataResponse s data).notifications
          = pre ++
            [{ ntype := NotificationType.nodeRemoved, nHomeId := s.homeId
               nNodeId := i0 * 8 + j0 + 1 }] ++ post)) := by
  obtain ⟨t, hpre, hpost⟩ := reconcile_surgery data
    { initDataFirstLoad s with initVersion := data.getD 2 0, initCaps := data.getD 3 0 }
    i0 j0 hi0 hj0 hlen
  obtain ⟨hpn, hpv, hpd, hph, lpre, hpl⟩ := hpre
  obtain ⟨hqn, hqv, hqd, hqh, lpost, hql⟩ := hpost
  obtain ⟨hcv, hcd, hch⟩ := cfgSame_firstLoad s
  have htv : t.virtualNeighbors = s.virtualNeighbors := by rw [hpv]; exact hcv
  have htd : t.driverInit = false := by rw [hpd]; exact hcd.trans hinit
  have hth : t.homeId = s.homeId := by rw [hph]; exact hch
  refine ⟨?_, ?_, ?_⟩
  · intro hbit hvirt hnone
    have htn : t.nodes (i0 * 8 + j0 + 1) = none := by rw [hpn]; exact hnone
    have htvirt : IsVirtualNode t (i0 * 8 + j0 + 1) = false := by
      rw [isVirtualNode_congr htv]; exact hvirt
    obtain ⟨hbn, hbl⟩ := bitStep_new hbit htvirt htn
    refine ⟨hqn.trans hbn, rfl, t.notifications, lpost, ?_⟩
    rw [← hth]
    exact hql.trans (by rw [hbl])
  · intro node hbit hvirt hsome
    have htn : t.nodes (i0 * 8 + j0 + 1) = some node := by rw [hpn]; exact hsome
    have htvirt : IsVirtualNode t (i0 * 8 + j0 + 1) = false := by
      rw [isVirtualNode_congr htv]; exact hvirt
    obtain ⟨hbn, -⟩ := bitStep_known hbit htvirt htn htd
    exact hqn.trans hbn
  · intro node hbit hsome
    have htn : t.nodes (i0 * 8 + j0 + 1) = some node := by rw [hpn]; exact hsome
    obtain ⟨hbn, hbl⟩ := bitStep_removed hbit htn
    refine ⟨hqn.trans hbn, t.notifications, lpost, ?_⟩
    rw [← hth]
    exact hql.trans (by rw [hbl])

/-- A driver with no table nodes whose controller reports node 4 as one of
its virtual nodes (bit 3 of the first m_virtualNeighbors byte). -/
def c7State : DriverState :=
  { initialDriverState with virtualNeighbors := [0x08] }

/-- A first SERIAL_API_GET_INIT_DATA response whose 29-byte bitmap has
exactly the bit of node 4 set. -/
def c7Data : List Nat :=
  [RESPONSE, FUNC_ID_SERIAL_API_GET_INIT_DATA, 3, 1, NUM_NODE_BITFIELD_BYTES, 0x08]

set_option maxRecDepth 100000 in
/-- C7, counterexample: the response carries a set bit for node 4, node 4 is
not in the table, yet no node is created and no NodeNew is emitted, because
`IsVirtualNode` short-circuits the bit (Driver.cpp:1917). -/
theorem C7_counterexample :
    c7Data.getD 4 0 = NUM_NODE_BITFIELD_BYTES ∧
    c7Data.getD (0 + 5) 0 &&& (1 <<< 3) ≠ 0 ∧
    c7State.driverInit = false ∧
    (initDataFirstLoad c7State).nodes (0 * 8 + 3 + 1) = none ∧
    (HandleSerialAPIGetInitDataResponse c7State c7Data).nodes (0 * 8 + 3 + 1) = none ∧
    (∀ n ∈ (HandleSerialAPIGetInitDataResponse c7State c7Data).notifications,
      n.ntype ≠ NotificationType.nodeNew) := by
  refine ⟨rfl, by decide, rfl, by decide, by decide, by decide⟩

set_option maxRecDepth 100000 in
/-- Witness for C7: the new-node part instantiated at a concrete first
response creating node 1. -/
theorem C7_init_data_witness :
    (HandleSerialAPIGetInitDataResponse initialDriverState
        [RESPONSE, FUNC_ID_SERIAL_API_GET_INIT_DATA, 1, 1, NUM_NODE_BITFIELD_BYTES, 1]).nodes
      (0 * 8 + 0 + 1) = some (newNode (0 * 8 + 0 + 1)) ∧
    (newNode (0 * 8 + 0 + 1)).queryStage = QueryStage.protocolInfo := by
  have h := (C7_init_data initialDriverState
    [RESPONSE, FUNC_ID_SERIAL_API_GET_INIT_DATA, 1, 1, NUM_NODE_BITFIELD_BYTES, 1]
    0 0 (by decide) (by decide) rfl rfl).1 (by decide) (by decide) (by decide)
  exact ⟨h.1, h.2.1⟩

/-! ### Claim C8 -/

/-- C8, amended: ReadConfig returns false with the state untouched whenever
the version attribute is missing or its uint32 cast differs from
c_configVersion (3), the home_id attribute is missing or its uint32 cast
differs from the driver's home id, or the node_id attribute is missing or
its uint8 cast differs from the controller's node id.  The comparisons use
the C casts `(uint32)intVal` and `(uint8)intVal` (Driver.cpp:470, 499), NOT
the attribute's integer value, so e.g. a node_id of 257 against controller
node id 1 does NOT abort (see `C8_counterexample`). -/
theorem C8_read_config_abort (s : DriverState) (doc : XmlDriverDoc)
    (hdoc : s.configDoc = some doc) :
    (doc.version = none → ReadConfig s = (false, s)) ∧
    (∀ v, doc.version = some v → toUInt32c v ≠ c_configVersion →
      ReadConfig s = (false, s)) ∧
    (doc.homeIdAttr = none → ReadConfig s = (false, s)) ∧
    (∀ h, doc.homeIdAttr = some h → toUInt32c h ≠ s.homeId →
      ReadConfig s = (false, s)) ∧
    (doc.nodeIdAttr = none → ReadConfig s = (false, s)) ∧
    (∀ n, doc.nodeIdAttr = some n → toUInt8c n ≠ s.controllerNodeId →
      ReadConfig s = (false, s)) := by
  refine ⟨?_, ?_, ?_, ?_, ?_, ?_⟩
  · intro hv
    unfold ReadConfig
    rw [hdoc]
    dsimp only
    rw [hv]
  · intro v hv hne
    unfold ReadConfig
    rw [hdoc]
    dsimp only
    rw [hv]
    dsimp only
    rw [if_pos hne]
  · intro hh
    unfold ReadConfig
    rw [hdoc]
    dsimp only
    cases hv : doc.version with
    | none => rfl
    | some v =>
      dsimp only
      split
      · rfl
      · rw [hh]
  · intro h hh hne
    unfold ReadConfig
    rw [hdoc]
    dsimp only
    cases hv : doc.version with
    | none => rfl
    | some v =>
      dsimp only
      split
      · rfl
      · rw [hh]
        dsimp only
        rw [if_pos hne]
  · intro hn
    unfold ReadConfig
    rw [hdoc]
    dsimp only
    cases hv : doc.version with
    | none => rfl
    | some v =>
      dsimp only
      split
      · rfl
      · cases hh : doc.homeIdAttr with
        | none => rfl
        | some h =>
          dsimp only
          split
          · rfl
          · rw [hn]
  · intro n hn hne
    unfold ReadConfig
    rw [hdoc]
    dsimp only
    cases hv : doc.version with
    | none => rfl
    | some v =>
      dsimp only
      split
      · rfl
      · cases hh : doc.homeIdAttr with
        | none => rfl
        | some h =>
          dsimp only
          split
          · rfl
          · rw [hn]
            dsimp only
            rw [if_pos hne]

/-- A snapshot whose node_id attribute 257 truncates to the controller's
node id 1 under the (uint8) cast. -/
def c8Doc : XmlDriverDoc :=
  { version := some 3, homeIdAttr := some 0, nodeIdAttr := some 257
    apiCapabilities := none, controllerCapabilities := none
    pollIntervalAttr := none, nodeElements := [] }

/-- The constructor state (home id 0, controller node id 1) with `c8Doc`
as the snapshot on disk. -/
def c8State : DriverState :=
  { initialDriverState with configDoc := some c8Doc }

/-- C8, counterexample: the snapshot's node_id attribute is 257, which
differs from the controller's node id 1, yet ReadConfig does NOT abort:
the comparison `(uint8)intVal != m_nodeId` (Driver.cpp:499) truncates 257
to 1 and the load proceeds, returning true. -/
theorem C8_counterexample :
    c8Doc.nodeIdAttr = some 257 ∧ (257 : Int) ≠ 1 ∧
    c8State.controllerNodeId = 1 ∧
    (ReadConfig c8State).1 = true := by
  refine ⟨rfl, by decide, rfl, by decide⟩

/-- Witness for C8: the amended abort conditions at a concrete snapshot with
a stale version attribute. -/
theorem C8_read_config_abort_witness :
    ReadConfig { initialDriverState with
        configDoc := some { version := some 2, homeIdAttr := some 0
                            nodeIdAttr := some 1, apiCapabilities := none
                            controllerCapabilities := none
                            pollIntervalAttr := none, nodeElements := [] } }
      = (false, { initialDriverState with
          configDoc := some { version := some 2, homeIdAttr := some 0
                              nodeIdAttr := some 1, apiCapabilities := none
                              controllerCapabilities := none
                              pollIntervalAttr := none, nodeElements := [] } }) := by
  exact (C8_read_config_abort _ _ rfl).2.1 2 rfl (by decide)

/-! ### Claim C9 -/

/-- C9: EnablePoll is idempotent: when the target node and value exist and
the ValueID is already on the poll list, the call returns true and leaves
the whole state (in particular the poll list) unchanged; moreover a call
never introduces a duplicate: the poll list either stays exactly the same or
gains one copy of a ValueID that was not yet on it, so a duplicate-free poll
list stays duplicate-free. -/
theorem C9_enable_poll (s : DriverState) (v : ValueID) :
    (∀ node, s.nodes v.vNodeId = some node → v ∈ node.values → v ∈ s.pollList →
      EnablePoll s v = (true, s)) ∧
    (s.pollList.Nodup → (EnablePoll s v).2.pollList.Nodup) ∧
    ((EnablePoll s v).2.pollList = s.pollList ∨
      ((EnablePoll s v).2.pollList = s.pollList ++ [v] ∧ v ∉ s.pollList)) := by
  refine ⟨?_, ?_, ?_⟩
  · intro node hnode hval hmem
    unfold EnablePoll
    rw [hnode]
    dsimp only
    rw [if_pos hval, if_pos hmem]
  · intro hnd
    unfold EnablePoll
    cases s.nodes v.vNodeId with
    | none => exact hnd
    | some node =>
      dsimp only
      split
      · split
        · exact hnd
        · next hne =>
          refine List.Nodup.append hnd (List.nodup_singleton v) ?_
          intro a ha hav
          rw [List.mem_singleton.mp hav] at ha
          exact hne ha
      · exact hnd
  · unfold EnablePoll
    cases s.nodes v.vNodeId with
    | none => exact Or.inl rfl
    | some node =>
      dsimp only
      split
      · split
        · exact Or.inl rfl
        · next hne => exact Or.inr ⟨rfl, hne⟩
      · exact Or.inl rfl

/-- A polled value on node 2. -/
def c9Value : ValueID :=
  { vNodeId := 2, vCommandClassId := 0x25, vInstance := 1, vIndex := 0 }

/-- Node 2, holding `c9Value` in its value store. -/
def c9Node : CNode :=
  { nodeId := 2, listening := true, frequentListening := false, isController := false
    queryStage := QueryStage.complete, wakeUp := none, values := [c9Value]
    nodeWriteCnt := 0 }

/-- A state where `c9Value` is already polled. -/
def c9State : DriverState :=
  { initialDriverState with
      nodes := updNodes initialDriverState.nodes 2 (some c9Node)
      pollList := [c9Value] }

/-- Witness for C9: a second EnablePoll on the already-polled value returns
true and leaves the state unchanged, and the poll list stays duplicate-free. -/
theorem C9_enable_poll_witness :
    EnablePoll c9State c9Value = (true, c9State) ∧
    (EnablePoll c9State c9Value).2.pollList.Nodup := by
  refine ⟨(C9_enable_poll c9State c9Value).1 c9Node (by decide) (by decide) (by decide),
    (C9_enable_poll c9State c9Value).2.1 (by decide)⟩

/-! ### Claim C10 -/

/-- Loading one `<Node>` element with a parsed id stores a fresh node at the
(uint8) cast of the id and emits NodeAdded for that table key. -/
theorem readConfigNode_effect (t : DriverState) (el : XmlNodeElem)
    (hname : el.elemName = "Node") {i : Int} (hid : el.idAttr = some i) :
    (readConfigNode t el).nodes (toUInt8c i) = some (newNode (toUInt8c i)) ∧
    (readConfigNode t el).notifications
      = t.notifications ++
        [{ ntype := NotificationType.nodeAdded, nHomeId := t.homeId
           nNodeId := toUInt8c i }] := by
  unfold readConfigNode
  rw [if_pos hname, hid]
  dsimp only
  exact ⟨updNodes_self _ _ _, rfl⟩

theorem readConfigNode_keepSome (t : DriverState) (el : XmlNodeElem) (k : Nat)
    (hk : t.nodes k ≠ none) : (readConfigNode t el).nodes k ≠ none := by
  unfold readConfigNode
  split
  · split
    · next intVal heq =>
      dsimp only
      show updNodes t.nodes (toUInt8c intVal) (some (newNode (toUInt8c intVal))) k ≠ none
      by_cases hek : k = toUInt8c intVal
      · subst hek
        rw [updNodes_self]
        exact fun hcon => Option.noConfusion hcon
      · rw [updNodes_other _ _ hek]
        exact hk
    · exact hk
  · exact hk

theorem readConfigNode_keepNote (t : DriverState) (el : XmlNodeElem)
    {note : Notification} (hmem : note ∈ t.notifications) :
    note ∈ (readConfigNode t el).notifications := by
  unfold readConfigNode
  split
  · split
    · dsimp only
      exact List.mem_append.mpr (Or.inl hmem)
    · exact hmem
  · exact hmem

/-- Every `<Node>` element of the walked list leaves an entry at the uint8
key of its id in the final table, with a matching NodeAdded in the log. -/
theorem readConfig_fold_mem {hid : Nat} :
    ∀ (l : List XmlNodeElem) (t : DriverState), t.homeId = hid →
      ∀ el ∈ l, el.elemName = "Node" → ∀ i : Int, el.idAttr = some i →
        ((l.foldl readConfigNode t).nodes (toUInt8c i) ≠ none ∧
          { ntype := NotificationType.nodeAdded, nHomeId := hid
            nNodeId := toUInt8c i } ∈ (l.foldl readConfigNode t).notifications) := by
  intro l
  induction l with
  | nil =>
    intro t _ el hel
    exact absurd hel (List.not_mem_nil el)
  | cons a rest ih =>
    intro t hth el hel hname i hid2
    rcases List.mem_cons.mp hel with rfl | hel2
    · rw [List.foldl_cons]
      apply foldl_preserve readConfigNode
        (fun u => u.nodes (toUInt8c i) ≠ none ∧
          { ntype := NotificationType.nodeAdded, nHomeId := hid
            nNodeId := toUInt8c i } ∈ u.notifications)
        (fun u el2 hu =>
          ⟨readConfigNode_keepSome u el2 _ hu.1, readConfigNode_keepNote u el2 hu.2⟩)
      have heff := readConfigNode_effect t el hname hid2
      constructor
      · rw [heff.1]
        exact fun hcon => Option.noConfusion hcon
      · rw [heff.2, hth]
        exact List.mem_append.mpr (Or.inr (List.mem_singleton.mpr rfl))
    · rw [List.foldl_cons]
      exact ih (readConfigNode t a)
        (by rw [(cfgSame_readConfigNode t a).2.2]; exact hth) el hel2 hname i hid2

/-- C10: a successful snapshot load returns true, and for every `<Node>`
element whose id attribute parsed, the table holds an entry at the key given
by the id's LOW 8 BITS (the `(uint8)` cast, Driver.cpp:536) and a NodeAdded
notification was emitted for that key; no range validation is applied, so
ids outside 1..232 (e.g. 0, or 300 which keys slot 44) are accepted and
instantiated. -/
theorem C10_snapshot_node_ids (s : DriverState) (doc : XmlDriverDoc) (v h n : Int)
    (hdoc : s.configDoc = some doc)
    (hv : doc.version = some v) (hv3 : toUInt32c v = c_configVersion)
    (hh : doc.homeIdAttr = some h) (hh2 : toUInt32c h = s.homeId)
    (hn : doc.nodeIdAttr = some n) (hn2 : toUInt8c n = s.controllerNodeId) :
    (ReadConfig s).1 = true ∧
    (∀ el ∈ doc.nodeElements, el.elemName = "Node" → ∀ i : Int, el.idAttr = some i →
      ((ReadConfig s).2.nodes (toUInt8c i) ≠ none ∧
        { ntype := NotificationType.nodeAdded, nHomeId := s.homeId
          nNodeId := toUInt8c i } ∈ (ReadConfig s).2.notifications)) := by
  unfold ReadConfig
  rw [hdoc]
  dsimp only
  rw [hv]
  dsimp only
  rw [if_neg (fun hq => hq hv3), hh]
  dsimp only
  rw [if_neg (fun hq => hq hh2), hn]
  dsimp only
  rw [if_neg (fun hq => hq hn2)]
  refine ⟨rfl, ?_⟩
  apply readConfig_fold_mem
  split <;> split <;> split <;> rfl

/-- A valid snapshot for the constructor state holding two out-of-range
node ids: 0 and 300. -/
def c10Doc : XmlDriverDoc :=
  { version := some 3, homeIdAttr := some 0, nodeIdAttr := some 1
    apiCapabilities := none, controllerCapabilities := none
    pollIntervalAttr := none
    nodeElements := [{ elemName := "Node", idAttr := some 300 },
                     { elemName := "Node", idAttr := some 0 }] }

/-- The constructor state with `c10Doc` as the snapshot on disk. -/
def c10State : DriverState :=
  { initialDriverState with configDoc := some c10Doc }

/-- Witness for C10: the load succeeds and instantiates both out-of-range
ids, 300 at its low-8-bits key 44 and 0 at key 0, emitting NodeAdded. -/
theorem C10_snapshot_node_ids_witness :
    (ReadConfig c10State).1 = true ∧
    (ReadConfig c10State).2.nodes (toUInt8c 300) ≠ none ∧
    toUInt8c 300 = 44 ∧
    (ReadConfig c10State).2.nodes (toUInt8c 0) ≠ none ∧
    { ntype := NotificationType.nodeAdded, nHomeId := c10State.homeId
      nNodeId := toUInt8c 0 } ∈ (ReadConfig c10State).2.notifications := by
  have hmain := C10_snapshot_node_ids c10State c10Doc 3 0 1 rfl rfl (by decide) rfl
    (by decide) rfl (by decide)
  refine ⟨hmain.1,
    (hmain.2 { elemName := "Node", idAttr := some 300 } (by decide) rfl 300 rfl).1,
    by decide,
    (hmain.2 { elemName := "Node", idAttr := some 0 } (by decide) rfl 0 rfl).1,
    (hmain.2 { elemName := "Node", idAttr := some 0 } (by decide) rfl 0 rfl).2⟩

end OZW
